import Mathlib

/-!
# TencentCloud API gateway usage plans: a verification development

A shallow embedding of

* `tencentcloud/a_extension_api_gateway.go`                       (constants),
* `tencentcloud/a_service_tencentcloud_api_gateway.go`            (service wrapper),
* `tencentcloud/a_resource_tc_api_gateway_usage_plan.go`          (usage plan resource),
* `tencentcloud/a_resource_tc_api_gateway_usage_plan_attachment.go` (attachment resource),

together with the fragment of Go's `encoding/json` that the attachment
resource relies on for its composite identifier.

Go strings are Lean `String`s (sequences of Unicode scalar values, that is,
valid UTF-8 texts); Go `int`/`int64` values are `Int`; a nilable pointer is an
`Option`.
-/

namespace Tencentcloud

/-! ## `encoding/json`: string encoding (`encodeState.string`, HTML escaping on) -/

/-- The table `hex = "0123456789abcdef"` of `encoding/json`, indexed by a nibble. -/
def hexDigit (n : Nat) : Char := "0123456789abcdef".data.getD n '0'

/-- The table `htmlSafeSet` of `encoding/json`: the ASCII characters from the
space on that are written as they are, that is all of them but the double
quote, the ampersand, the angle brackets and the backslash. -/
def htmlSafeSet (c : Char) : Bool :=
  decide (0x20 ≤ c.toNat) && decide (c.toNat < 0x80) &&
    !(c == '"') && !(c == '&') && !(c == '<') && !(c == '>') && !(c == '\\')

/-- One iteration of the loop of `encodeState.string(s, escapeHTML = true)`: the
text written for one character of a valid UTF-8 string. (Later versions of the
library write U+0008 and U+000C as `\b` and `\f`, which `unescape` reads back
just as it reads `\u0008` and `\u000c`.) -/
def encodeChar (c : Char) : List Char :=
  if c.toNat < 0x80 then
    if htmlSafeSet c then [c]
    else if c = '\\' ∨ c = '"' then ['\\', c]
    else if c = '\n' then ['\\', 'n']
    else if c = '\r' then ['\\', 'r']
    else if c = '\t' then ['\\', 't']
    else ['\\', 'u', '0', '0', hexDigit (c.toNat / 16), hexDigit (c.toNat % 16)]
  else if c = Char.ofNat 0x2028 ∨ c = Char.ofNat 0x2029 then
    ['\\', 'u', '2', '0', '2', hexDigit (c.toNat % 16)]
  else [c]

/-- The characters written between the two quotes by `encodeState.string`. -/
def encodeBody : List Char → List Char
  | [] => []
  | c :: s => encodeChar c ++ encodeBody s

/-- The function `encodeState.string`: a JSON string literal for `s`. -/
def encodeString (s : List Char) : List Char :=
  '"' :: (encodeBody s ++ ['"'])

/-! ## `encoding/json`: decoding of a string literal (`scanner` + `unquote`) -/

/-- The value of one hexadecimal digit, as in `getu4`. -/
def hexVal (c : Char) : Option Nat :=
  if '0'.toNat ≤ c.toNat ∧ c.toNat ≤ '9'.toNat then some (c.toNat - '0'.toNat)
  else if 'a'.toNat ≤ c.toNat ∧ c.toNat ≤ 'f'.toNat then some (c.toNat - 'a'.toNat + 10)
  else if 'A'.toNat ≤ c.toNat ∧ c.toNat ≤ 'F'.toNat then some (c.toNat - 'A'.toNat + 10)
  else none

/-- The function `getu4`: the number written by a leading `\uXXXX`, if there is one. -/
def getu4 : List Char → Option Nat
  | b :: u :: h1 :: h2 :: h3 :: h4 :: _ =>
    if b = '\\' ∧ u = 'u' then
      match hexVal h1, hexVal h2, hexVal h3, hexVal h4 with
      | some a, some b, some c, some d => some (((a * 16 + b) * 16 + c) * 16 + d)
      | _, _, _, _ => none
    else none
  | _ => none

/-- The predicate `utf16.IsSurrogate`. -/
def isSurrogate (r : Nat) : Bool := decide (0xd800 ≤ r) && decide (r < 0xe000)

/-- The function `utf16.DecodeRune`, with `none` for the replacement character
it returns on an invalid pair. -/
def decodeRune (r1 : Nat) (r2 : Option Nat) : Option Nat :=
  match r2 with
  | some r2 =>
    if 0xd800 ≤ r1 ∧ r1 < 0xdc00 ∧ 0xdc00 ≤ r2 ∧ r2 < 0xe000 then
      some ((r1 - 0xd800) * 1024 + (r2 - 0xdc00) + 0x10000)
    else none
  | none => none

/-- The replacement character `unicode.ReplacementChar`. -/
def replacementChar : Char := Char.ofNat 0xfffd

/-- The text an escape `\e` other than `\u` stands for, `none` for a
character the scanner does not accept after a backslash. -/
def unescape (e : Char) : Option Char :=
  if e = '"' ∨ e = '\\' ∨ e = '/' then some e
  else if e = 'b' then some (Char.ofNat 8)
  else if e = 'f' then some (Char.ofNat 12)
  else if e = 'n' then some '\n'
  else if e = 'r' then some '\r'
  else if e = 't' then some '\t'
  else none

/-- One iteration of the loop of `unquote` inside a string literal, on input
the scanner accepts: `some (none, rest)` at the closing quote,
`some (some x, rest)` when the character `x` is decoded, and `none` where the
scanner reports a syntax error (the end of the input, a control character, an
escape other than one of `" \ / b f n r t u`, a `\u` without four hexadecimal
digits). A `\uXXXX` that is a surrogate is joined with a following `\uXXXX`
when the two form a valid pair and is the replacement character otherwise. -/
def unquoteStep : List Char → Option (Option Char × List Char)
  | [] => none
  | c :: s =>
    if c = '"' then some (none, s)
    else if c = '\\' then
      match s with
      | [] => none
      | e :: s1 =>
        if e = 'u' then
          match getu4 (c :: e :: s1) with
          | none => none
          | some rr =>
            if isSurrogate rr then
              match decodeRune rr (getu4 (s1.drop 4)) with
              | some dec => some (some (Char.ofNat dec), s1.drop 10)
              | none => some (some replacementChar, s1.drop 4)
            else some (some (Char.ofNat rr), s1.drop 4)
        else
          match unescape e with
          | none => none
          | some x => some (some x, s1)
    else if c.toNat < 0x20 then none
    else some (some c, s)

/-- Decoding of the body of a JSON string literal, the opening quote already
read: the decoded text and the input that follows the closing quote, or `none`
on a syntax error. The first argument bounds the number of iterations; every
iteration reads at least one character, so the length of the input is enough. -/
def unquoteBody : Nat → List Char → Option (List Char × List Char)
  | 0, _ => none
  | n + 1, s =>
    match unquoteStep s with
    | none => none
    | some (none, rest) => some ([], rest)
    | some (some x, rest) =>
      match unquoteBody n rest with
      | none => none
      | some (t, rest2) => some (x :: t, rest2)

/-! ## `encoding/json`: `Unmarshal` into a `map[string]string` -/

/-- The predicate `isSpace` of the scanner. -/
def isSpace (c : Char) : Bool := c == ' ' || c == '\t' || c == '\r' || c == '\n'

/-- Skipping of the insignificant white space between tokens. -/
def skipSpace : List Char → List Char
  | [] => []
  | c :: s => if isSpace c then skipSpace s else c :: s

/-- Whether the input starts with the literal `null`; the rest of the input. -/
def readNull : List Char → Option (List Char)
  | n :: u :: l1 :: l2 :: s => if n = 'n' ∧ u = 'u' ∧ l1 = 'l' ∧ l2 = 'l' then some s else none
  | _ => none

/-- Decoding of one value of a JSON object into the `string` element of the
map: a string literal gives its text, `null` leaves the zero value `""`, and
every other input gives an error (a `SyntaxError` when it is no JSON value,
an `UnmarshalTypeError` when it is a number, a boolean, an array or an
object). -/
def decodeElem (fuel : Nat) (s : List Char) : Option (List Char × List Char) :=
  match s with
  | [] => none
  | c :: s1 =>
    if c = '"' then unquoteBody fuel s1
    else match readNull (c :: s1) with
      | some rest => some ([], rest)
      | none => none

/-- One member `"key": value` of a JSON object and the separator after it:
the assignment it makes, whether a comma (and so a further member) follows
rather than the closing brace, and the input after the separator. -/
def decodeMember (fuel : Nat) (s : List Char) :
    Option ((String × String) × Bool × List Char) :=
  match s with
  | [] => none
  | q :: s1 =>
    if q = '"' then
      match unquoteBody fuel s1 with
      | none => none
      | some (key, s2) =>
        match skipSpace s2 with
        | [] => none
        | colon :: s3 =>
          if colon = ':' then
            match decodeElem fuel (skipSpace s3) with
            | none => none
            | some (val, s4) =>
              match skipSpace s4 with
              | [] => none
              | d :: s5 =>
                if d = ',' then some ((String.mk key, String.mk val), true, s5)
                else if d = '}' then some ((String.mk key, String.mk val), false, s5)
                else none
          else none
    else none

/-- The members of a JSON object, from the first key on, in the order of the
input, and the input after the closing brace. The first argument is the
bound passed to `unquoteBody` and the second one bounds the number of members
read; `jsonUnmarshal` passes the length of the input for both. -/
def decodeMembers (fuel : Nat) : Nat → List Char → Option (List (String × String) × List Char)
  | 0, _ => none
  | n + 1, s =>
    match decodeMember fuel s with
    | none => none
    | some (kv, false, rest) => some ([kv], rest)
    | some (kv, true, rest) =>
      match decodeMembers fuel n (skipSpace rest) with
      | none => none
      | some (m, rest2) => some (kv :: m, rest2)

/-- The top-level value: an object (its members in order), or `null` (which
leaves the map without entries); anything else is an error. The first
argument is the bound passed on to `decodeMembers`. -/
def decodeTop (fuel : Nat) (s : List Char) : Option (List (String × String) × List Char) :=
  match skipSpace s with
  | [] => none
  | c :: s1 =>
    if c = '{' then
      match skipSpace s1 with
      | [] => none
      | c2 :: s2 =>
        if c2 = '}' then some ([], s2) else decodeMembers fuel fuel (c2 :: s2)
    else match readNull (c :: s1) with
      | some rest => some ([], rest)
      | none => none

/-- The decoding of `jsonUnmarshal` with a given bound on the iterations of
its loops. Only white space may follow the value. -/
def jsonUnmarshalWith (fuel : Nat) (id : String) : Option (List (String × String)) :=
  match decodeTop fuel id.data with
  | none => none
  | some (m, rest) => if skipSpace rest = [] then some m else none

/-- The call `json.Unmarshal([]byte(id), &idMap)` with `idMap` an empty
`map[string]string`: `none` when it returns an error, and otherwise the
assignments `idMap[key] = value` it makes, in order (a later one to the same
key overrides an earlier one). Every iteration of a loop of the decoder reads
at least one character, so the length of the input bounds the iterations
(`jsonUnmarshalWith_of_le`: a larger bound gives the same result). -/
def jsonUnmarshal (id : String) : Option (List (String × String)) :=
  jsonUnmarshalWith id.data.length id

/-- The expression `idMap[key]` on the map built by the assignments `m`: the
value assigned last to `key`, and `""` for a key that was never assigned. -/
def mapIndex (m : List (String × String)) (key : String) : String :=
  match m.reverse.lookup key with
  | some v => v
  | none => ""

/-! ## `encoding/json`: `Marshal` of a map of strings -/

/-- The members of an object as `mapEncoder.encode` writes them: `"key":"value"`
texts separated by commas. -/
def encodeMembers : List (String × String) → List Char
  | [] => []
  | [(k, v)] => encodeString k.data ++ ':' :: encodeString v.data
  | (k, v) :: m => encodeString k.data ++ ':' :: encodeString v.data ++ ',' :: encodeMembers m

/-- Go's comparison `s < t` of two strings (byte-wise, which on valid UTF-8 is
the lexicographic order of the code points). -/
def stringLess : List Char → List Char → Bool
  | _, [] => false
  | [], _ :: _ => true
  | a :: s, b :: t => decide (a.toNat < b.toNat) || (a == b && stringLess s t)

/-- The order in which `mapEncoder.encode` writes two entries: by key. -/
def keyLE (x y : String × String) : Prop := stringLess y.1.data x.1.data = false

instance : DecidableRel keyLE := fun x y =>
  inferInstanceAs (Decidable (stringLess y.1.data x.1.data = false))

/-- The call `json.Marshal(m)` for a map `m` whose values are strings, given by
its entries (distinct keys, any order): an object whose members are sorted by
key, as `mapEncoder.encode` sorts them. It never fails on such a map. -/
def jsonMarshal (m : List (String × String)) : String :=
  String.mk ('{' :: (encodeMembers (m.insertionSort keyLE) ++ ['}']))

/-! ## Constants (`a_extension_api_gateway.go`) -/

/-- The constant `API_GATEWAY_TYPE_SERVICE`. -/
abbrev API_GATEWAY_TYPE_SERVICE : String := "SERVICE"

/-- The constant `API_GATEWAY_TYPE_API`. -/
abbrev API_GATEWAY_TYPE_API : String := "API"

/-- The variable `API_GATEWAY_TYPES`. -/
abbrev API_GATEWAY_TYPES : List String := [API_GATEWAY_TYPE_SERVICE, API_GATEWAY_TYPE_API]

/-! ## Errors, outcomes and the remote service -/

/-- A Go `error` value, as far as this code tells errors apart. -/
inductive GoError where
  /-- A `*errors.TencentCloudSDKError` with its code and message. -/
  | sdk (code message : String)
  /-- Any other error returned by the SDK client or by an absent service method. -/
  | other (message : String)
  /-- The result of `fmt.Errorf` with the given text. -/
  | errorf (message : String)
  /-- The result of `fmt.Errorf("id is broken,%s", outErr.Error())`; the text of the
  `encoding/json` error is not modelled. -/
  | idBrokenJson
  deriving DecidableEq, Repr

/-- How a call of a Go function ends. -/
inductive Outcome (α : Type) where
  /-- The function returned. -/
  | ret (a : α)
  /-- A nil pointer was dereferenced: the run-time panics. -/
  | panic
  /-- The bound on the iterations of a `for` loop of the model was reached while
  the loop was still running. -/
  | unfinished
  deriving DecidableEq, Repr

/-- Sequencing of two calls. -/
def Outcome.bind {α β : Type} (x : Outcome α) (f : α → Outcome β) : Outcome β :=
  match x with
  | .ret a => f a
  | .panic => .panic
  | .unfinished => .unfinished

/-- The type `apigateway.UsagePlanInfo` (the fields this code reads). -/
structure UsagePlanInfo where
  UsagePlanId : Option String
  UsagePlanName : Option String
  UsagePlanDesc : Option String
  MaxRequestNum : Option Int
  MaxRequestNumPreSec : Option Int
  ModifiedTime : Option String
  CreatedTime : Option String
  BindSecretIds : List (Option String)
  deriving DecidableEq, Repr

/-- The zero value of `apigateway.UsagePlanInfo`. -/
def UsagePlanInfo.zero : UsagePlanInfo :=
  { UsagePlanId := none, UsagePlanName := none, UsagePlanDesc := none, MaxRequestNum := none,
    MaxRequestNumPreSec := none, ModifiedTime := none, CreatedTime := none, BindSecretIds := [] }

/-- The type `apigateway.UsagePlanEnvironment` (the fields this code reads). -/
structure UsagePlanEnvironment where
  ServiceId : Option String
  ServiceName : Option String
  ApiId : Option String
  ApiName : Option String
  Path : Option String
  Method : Option String
  Environment : Option String
  ModifiedTime : Option String
  CreatedTime : Option String
  deriving DecidableEq, Repr

/-- The type `apigateway.ApiUsagePlan` (the fields this code reads). -/
structure ApiUsagePlan where
  UsagePlanId : Option String
  Environment : Option String
  ApiId : Option String
  deriving DecidableEq, Repr

/-- The type `apigateway.ApiKey` (the fields this code reads). -/
structure ApiKey where
  AccessKeyId : Option String
  SecretName : Option String
  deriving DecidableEq, Repr

/-- The type `apigateway.Filter`. -/
structure Filter where
  Name : String
  Values : List String
  deriving DecidableEq, Repr

/-- The type `apigateway.DescribeApiKeysStatusRequest`; `Limit` and `Offset` are
the values the pointers of the request point to when the call is made. -/
structure DescribeApiKeysStatusRequest where
  Filters : Option (List Filter)
  Limit : Int
  Offset : Int
  deriving DecidableEq, Repr

/-- The type `apigateway.DescribeUsagePlanEnvironmentsRequest`. -/
structure DescribeUsagePlanEnvironmentsRequest where
  UsagePlanId : String
  BindType : String
  Limit : Int
  Offset : Int
  deriving DecidableEq, Repr

/-- The type `apigateway.CreateUsagePlanRequest`. -/
structure CreateUsagePlanRequest where
  UsagePlanName : String
  UsagePlanDesc : Option String
  MaxRequestNum : Int
  MaxRequestNumPreSec : Int
  deriving DecidableEq, Repr

/-- The type `apigateway.ModifyUsagePlanRequest`. -/
structure ModifyUsagePlanRequest where
  UsagePlanId : String
  UsagePlanName : String
  UsagePlanDesc : Option String
  MaxRequestNum : Int
  MaxRequestNumPreSec : Int
  deriving DecidableEq, Repr

/-- What a call of the SDK client returns: an error, or a response whose
`Response.Result` is absent (`none`) or present. -/
abbrev Response (R : Type) : Type := Except GoError (Option R)

/-- A remote call, as recorded in the log of a run. -/
inductive Call where
  | CreateApiKey (secretName : String)
  | DescribeApiKeysStatus (request : DescribeApiKeysStatusRequest)
  | CreateUsagePlan (request : CreateUsagePlanRequest)
  | DescribeUsagePlan (usagePlanId : String)
  | ModifyUsagePlan (request : ModifyUsagePlanRequest)
  | DescribeUsagePlanEnvironments (request : DescribeUsagePlanEnvironmentsRequest)
  | DescribeService (serviceId : String)
  | DescribeApiUsagePlan (serviceId : String)
  | DescribeServiceUsagePlan (serviceId : String)
  | BindEnvironment (serviceId usagePlanId environment bindType apiId : String)
  | UnBindEnvironment (serviceId usagePlanId environment bindType apiId : String)
  deriving DecidableEq, Repr

/-- The surroundings of the code: the remote service with state `σ` behind the
SDK client, and what the repository defines outside the files embedded here.

* The first six fields are the calls of `me.client.UseAPIGatewayClient()`.
* `DescribeService`, `DescribeApiUsagePlan`, `DescribeServiceUsagePlan`,
  `BindEnvironment` and `UnBindEnvironment` are methods of `APIGatewayService`
  that the attachment resource calls and that are defined elsewhere in the
  repository; they are taken as given, with the results their callers read.
* `retryable err codes` is the classification made by `retryError(err, codes...)`,
  defined elsewhere in the repository: whether the error is wrapped by
  `resource.RetryableError` (`true`) or by `resource.NonRetryableError`.
* `InternalError` is the error code constant of that name.
* `readRetryTimeout` and `writeRetryTimeout` are the two time budgets, counted
  in further attempts that fit into the budget after the first one.

The lists of the SDK are slices of pointers (`[]*apigateway.ApiKey`,
`[]*apigateway.UsagePlanEnvironment`, `[]*apigateway.ApiUsagePlan`, `[]*string`):
every element of such a list is an `Option`, `none` being the nil pointer. -/
structure Env (σ : Type) where
  CreateApiKey : String → σ → Response ApiKey × σ
  DescribeApiKeysStatus : DescribeApiKeysStatusRequest → σ → Response (List (Option ApiKey)) × σ
  CreateUsagePlan : CreateUsagePlanRequest → σ → Response UsagePlanInfo × σ
  DescribeUsagePlan : String → σ → Response UsagePlanInfo × σ
  ModifyUsagePlan : ModifyUsagePlanRequest → σ → Response UsagePlanInfo × σ
  DescribeUsagePlanEnvironments :
    DescribeUsagePlanEnvironmentsRequest → σ → Response (List (Option UsagePlanEnvironment)) × σ
  DescribeService : String → σ → (Bool × Option GoError) × σ
  DescribeApiUsagePlan : String → σ → (List (Option ApiUsagePlan) × Option GoError) × σ
  DescribeServiceUsagePlan : String → σ → (List (Option ApiUsagePlan) × Option GoError) × σ
  BindEnvironment : String → String → String → String → String → σ → Option GoError × σ
  UnBindEnvironment : String → String → String → String → String → σ → Option GoError × σ
  retryable : GoError → List String → Bool
  InternalError : String
  readRetryTimeout : Nat
  writeRetryTimeout : Nat

/-- The state of a run: the state of the remote service, the remote calls made
so far (oldest first) and the number of `resource.Retry` invocations so far. -/
structure World (σ : Type) where
  remote : σ
  calls : List Call
  retries : Nat
  deriving DecidableEq, Repr

/-- The world after one remote call. -/
def World.after {σ : Type} (w : World σ) (call : Call) (remote : σ) : World σ :=
  { w with remote := remote, calls := w.calls ++ [call] }

/-! ## The service wrapper (`a_service_tencentcloud_api_gateway.go`)

`ratelimit.Check` only delays the caller and is left out. -/

/-- The method `APIGatewayService.CreateApiKey`. -/
def CreateApiKey {σ : Type} (env : Env σ) (secretName : String) (w : World σ) :
    Outcome ((String × Option GoError) × World σ) :=
  let r := env.CreateApiKey secretName w.remote
  let w1 := w.after (Call.CreateApiKey secretName) r.2
  match r.1 with
  | .error err => .ret (("", some err), w1)
  | .ok none =>
    .ret (("", some (GoError.errorf "TencentCloud SDK CreateApiKey return empty AccessKeyId")), w1)
  | .ok (some result) =>
    match result.AccessKeyId with
    | none =>
      .ret (("", some (GoError.errorf "TencentCloud SDK CreateApiKey return empty AccessKeyId")), w1)
    | some accessKeyId => .ret ((accessKeyId, none), w1)

/-- The filters that `DescribeApiKeysStatus` puts into its request. -/
def apiKeyFilters (secretName accessKeyId : String) : Option (List Filter) :=
  if secretName ≠ "" ∨ accessKeyId ≠ "" then
    some ((if secretName ≠ "" then [{ Name := "SecretName", Values := [secretName] }] else []) ++
      (if accessKeyId ≠ "" then [{ Name := "AccessKeyId", Values := [accessKeyId] }] else []))
  else none

/-- The `for` loop of `APIGatewayService.DescribeApiKeysStatus`, entered with
the current values of `offset` and `apiKeySet`; the first argument bounds the
number of iterations. The request holds pointers to `limit` and `offset`, so
every call sends the current values. -/
def DescribeApiKeysStatus.loop {σ : Type} (env : Env σ) (filters : Option (List Filter)) :
    Nat → Int → List (Option ApiKey) → World σ → Outcome ((List (Option ApiKey) × Option GoError) × World σ)
  | 0, _, _, _ => .unfinished
  | n + 1, offset, apiKeySet, w =>
    let request : DescribeApiKeysStatusRequest :=
      { Filters := filters, Limit := 20, Offset := offset }
    let r := env.DescribeApiKeysStatus request w.remote
    let w1 := w.after (Call.DescribeApiKeysStatus request) r.2
    match r.1 with
    | .error err => .ret ((apiKeySet, some err), w1)
    | .ok none =>
      .ret ((apiKeySet,
        some (GoError.errorf "TencentCloud SDK DescribeApiKeysStatus return empty response")), w1)
    | .ok (some page) =>
      let apiKeySet1 := if page.length > 0 then apiKeySet ++ page else apiKeySet
      if page.length < 20 then .ret ((apiKeySet1, none), w1)
      else DescribeApiKeysStatus.loop env filters n (offset + 20) apiKeySet1 w1

/-- The method `APIGatewayService.DescribeApiKeysStatus`; `fuel` bounds the
number of iterations of its loop. -/
def DescribeApiKeysStatus {σ : Type} (env : Env σ) (fuel : Nat) (secretName accessKeyId : String)
    (w : World σ) : Outcome ((List (Option ApiKey) × Option GoError) × World σ) :=
  DescribeApiKeysStatus.loop env (apiKeyFilters secretName accessKeyId) fuel 0 [] w

/-- The method `APIGatewayService.CreateUsagePlan`. The identifier of a present
result is dereferenced without a check. -/
def CreateUsagePlan {σ : Type} (env : Env σ) (usagePlanName : String)
    (usagePlanDesc : Option String) (maxRequestNum maxRequestNumPreSec : Int) (w : World σ) :
    Outcome ((String × Option GoError) × World σ) :=
  let request : CreateUsagePlanRequest :=
    { UsagePlanName := usagePlanName, UsagePlanDesc := usagePlanDesc,
      MaxRequestNum := maxRequestNum, MaxRequestNumPreSec := maxRequestNumPreSec }
  let r := env.CreateUsagePlan request w.remote
  let w1 := w.after (Call.CreateUsagePlan request) r.2
  match r.1 with
  | .error err => .ret (("", some err), w1)
  | .ok none =>
    .ret (("", some (GoError.errorf "TencentCloud SDK CreateUsagePlan return empty response")), w1)
  | .ok (some result) =>
    match result.UsagePlanId with
    | none => .panic
    | some usagePlanId => .ret ((usagePlanId, none), w1)

/-- The method `APIGatewayService.DescribeUsagePlan`: `(info, has, errRet)`. -/
def DescribeUsagePlan {σ : Type} (env : Env σ) (usagePlanId : String) (w : World σ) :
    (UsagePlanInfo × Bool × Option GoError) × World σ :=
  let r := env.DescribeUsagePlan usagePlanId w.remote
  let w1 := w.after (Call.DescribeUsagePlan usagePlanId) r.2
  match r.1 with
  | .error err =>
    match err with
    | .sdk code _ =>
      if code = "ResourceNotFound.InvalidUsagePlan" then ((UsagePlanInfo.zero, false, none), w1)
      else ((UsagePlanInfo.zero, false, some err), w1)
    | _ => ((UsagePlanInfo.zero, false, some err), w1)
  | .ok none =>
    ((UsagePlanInfo.zero, false,
      some (GoError.errorf "TencentCloud SDK DescribeUsagePlan return empty response")), w1)
  | .ok (some result) => ((result, true, none), w1)

/-- The method `APIGatewayService.ModifyUsagePlan`. -/
def ModifyUsagePlan {σ : Type} (env : Env σ) (usagePlanId usagePlanName : String)
    (usagePlanDesc : Option String) (maxRequestNum maxRequestNumPreSec : Int) (w : World σ) :
    Option GoError × World σ :=
  let request : ModifyUsagePlanRequest :=
    { UsagePlanId := usagePlanId, UsagePlanName := usagePlanName, UsagePlanDesc := usagePlanDesc,
      MaxRequestNum := maxRequestNum, MaxRequestNumPreSec := maxRequestNumPreSec }
  let r := env.ModifyUsagePlan request w.remote
  let w1 := w.after (Call.ModifyUsagePlan request) r.2
  match r.1 with
  | .error err => (some err, w1)
  | .ok none =>
    (some (GoError.errorf "TencentCloud SDK ModifyUsagePlan return empty response"), w1)
  | .ok (some _) => (none, w1)

/-- The `for` loop of `APIGatewayService.DescribeUsagePlanEnvironments`, entered
with the current values of `offset` and `list`; the first argument bounds the
number of iterations. -/
def DescribeUsagePlanEnvironments.loop {σ : Type} (env : Env σ) (usagePlanId bindType : String) :
    Nat → Int → List (Option UsagePlanEnvironment) → World σ →
      Outcome ((List (Option UsagePlanEnvironment) × Option GoError) × World σ)
  | 0, _, _, _ => .unfinished
  | n + 1, offset, list, w =>
    let request : DescribeUsagePlanEnvironmentsRequest :=
      { UsagePlanId := usagePlanId, BindType := bindType, Limit := 20, Offset := offset }
    let r := env.DescribeUsagePlanEnvironments request w.remote
    let w1 := w.after (Call.DescribeUsagePlanEnvironments request) r.2
    match r.1 with
    | .error err => .ret ((list, some err), w1)
    | .ok none =>
      .ret ((list, some (GoError.errorf
        "TencentCloud SDK DescribeUsagePlanEnvironments return empty response")), w1)
    | .ok (some page) =>
      let list1 := if page.length > 0 then list ++ page else list
      if page.length < 20 then .ret ((list1, none), w1)
      else DescribeUsagePlanEnvironments.loop env usagePlanId bindType n (offset + 20) list1 w1

/-- The method `APIGatewayService.DescribeUsagePlanEnvironments`; `fuel` bounds
the number of iterations of its loop. -/
def DescribeUsagePlanEnvironments {σ : Type} (env : Env σ) (fuel : Nat)
    (usagePlanId bindType : String) (w : World σ) :
    Outcome ((List (Option UsagePlanEnvironment) × Option GoError) × World σ) :=
  DescribeUsagePlanEnvironments.loop env usagePlanId bindType fuel 0 [] w

/-! ## `resource.Retry` and `retryError` -/

/-- The type `resource.RetryError`. -/
structure RetryError where
  Err : GoError
  Retryable : Bool
  deriving DecidableEq, Repr

/-- The function `retryError(err, codes...)`, defined elsewhere in the
repository: it keeps the error and classifies it. -/
def retryError {σ : Type} (env : Env σ) (err : GoError) (codes : List String) : RetryError :=
  { Err := err, Retryable := env.retryable err codes }

/-- The attempts of `resource.Retry`: the function is called until it reports
success or an error that is not retryable, or until the budget (the number of
further attempts) is used up; the error of the last attempt is returned.
`κ` is the type of the variables the function shares with its caller. -/
def Retry.attempts {σ κ : Type}
    (f : κ → World σ → Outcome ((Option RetryError × κ) × World σ)) :
    Nat → κ → World σ → Outcome ((Option GoError × κ) × World σ)
  | 0, k, w =>
    match f k w with
    | .ret ((none, k1), w1) => .ret ((none, k1), w1)
    | .ret ((some e, k1), w1) => .ret ((some e.Err, k1), w1)
    | .panic => .panic
    | .unfinished => .unfinished
  | n + 1, k, w =>
    match f k w with
    | .ret ((none, k1), w1) => .ret ((none, k1), w1)
    | .ret ((some e, k1), w1) =>
      if e.Retryable then Retry.attempts f n k1 w1 else .ret ((some e.Err, k1), w1)
    | .panic => .panic
    | .unfinished => .unfinished

/-- The function `resource.Retry(timeout, f)`; every invocation is counted in
the world. -/
def Retry {σ κ : Type} (timeout : Nat)
    (f : κ → World σ → Outcome ((Option RetryError × κ) × World σ)) (k : κ) (w : World σ) :
    Outcome ((Option GoError × κ) × World σ) :=
  Retry.attempts f timeout k { w with retries := w.retries + 1 }

/-! ## The attachment resource (`a_resource_tc_api_gateway_usage_plan_attachment.go`)

`logElapsed` and `inconsistentCheck` only write to the log and are left out.
`data.Set` cannot fail on a string attribute that is given a string. -/

/-- The `schema.ResourceData` of an attachment: its identifier (`""` when it
is not set) and its five attributes. -/
structure AttachmentData where
  Id : String
  usage_plan_id : String
  service_id : String
  environment : String
  bind_type : String
  api_id : String
  deriving DecidableEq, Repr

/-- The function passed to the "check usage plan" `resource.Retry` of Create
and Read; the shared variable is `has`. -/
def checkUsagePlan {σ : Type} (env : Env σ) (usagePlanId : String) (_ : Bool) (w : World σ) :
    Outcome ((Option RetryError × Bool) × World σ) :=
  match DescribeUsagePlan env usagePlanId w with
  | ((_, has, some inErr), w1) => .ret ((some (retryError env inErr [env.InternalError]), has), w1)
  | ((_, has, none), w1) => .ret ((none, has), w1)

/-- The function passed to the "check service" `resource.Retry` of Create and
Read; the shared variable is `has`. -/
def checkService {σ : Type} (env : Env σ) (serviceId : String) (_ : Bool) (w : World σ) :
    Outcome ((Option RetryError × Bool) × World σ) :=
  match env.DescribeService serviceId w.remote with
  | ((has, some inErr), r) =>
    .ret ((some (retryError env inErr [env.InternalError]), has),
      w.after (Call.DescribeService serviceId) r)
  | ((has, none), r) => .ret ((none, has), w.after (Call.DescribeService serviceId) r)

/-- The function passed to the `resource.Retry` around `BindEnvironment`. -/
def bindEnvironment {σ : Type} (env : Env σ)
    (serviceId usagePlanId environment bindType apiId : String) (_ : Unit) (w : World σ) :
    Outcome ((Option RetryError × Unit) × World σ) :=
  match env.BindEnvironment serviceId usagePlanId environment bindType apiId w.remote with
  | (some inErr, r) =>
    .ret ((some (retryError env inErr []), ()),
      w.after (Call.BindEnvironment serviceId usagePlanId environment bindType apiId) r)
  | (none, r) =>
    .ret ((none, ()),
      w.after (Call.BindEnvironment serviceId usagePlanId environment bindType apiId) r)

/-- The function passed to the `resource.Retry` around `UnBindEnvironment`. -/
def unBindEnvironment {σ : Type} (env : Env σ)
    (serviceId usagePlanId environment bindType apiId : String) (_ : Unit) (w : World σ) :
    Outcome ((Option RetryError × Unit) × World σ) :=
  match env.UnBindEnvironment serviceId usagePlanId environment bindType apiId w.remote with
  | (some inErr, r) =>
    .ret ((some (retryError env inErr []), ()),
      w.after (Call.UnBindEnvironment serviceId usagePlanId environment bindType apiId) r)
  | (none, r) =>
    .ret ((none, ()),
      w.after (Call.UnBindEnvironment serviceId usagePlanId environment bindType apiId) r)

/-- The function passed to the `resource.Retry` that lists the bindings in
Read: the per-API listing when `bindType` is `API`, the whole-service listing
otherwise; the shared variable is `plans`. -/
def listPlans {σ : Type} (env : Env σ) (bindType serviceId : String) (_ : List (Option ApiUsagePlan))
    (w : World σ) : Outcome ((Option RetryError × List (Option ApiUsagePlan)) × World σ) :=
  if bindType = API_GATEWAY_TYPE_API then
    match env.DescribeApiUsagePlan serviceId w.remote with
    | ((plans, some inErr), r) =>
      .ret ((some (retryError env inErr [env.InternalError]), plans),
        w.after (Call.DescribeApiUsagePlan serviceId) r)
    | ((plans, none), r) => .ret ((none, plans), w.after (Call.DescribeApiUsagePlan serviceId) r)
  else
    match env.DescribeServiceUsagePlan serviceId w.remote with
    | ((plans, some inErr), r) =>
      .ret ((some (retryError env inErr [env.InternalError]), plans),
        w.after (Call.DescribeServiceUsagePlan serviceId) r)
    | ((plans, none), r) =>
      .ret ((none, plans), w.after (Call.DescribeServiceUsagePlan serviceId) r)

/-- The token of Create: `json.Marshal` of the map of the five fields. -/
def attachmentToken (usagePlanId serviceId environment bindType apiId : String) : String :=
  jsonMarshal [("usage_plan_id", usagePlanId), ("service_id", serviceId),
    ("environment", environment), ("bind_type", bindType), ("api_id", apiId)]

/-- The five fields of a decoded identifier. -/
structure AttachmentKey where
  usagePlanId : String
  serviceId : String
  environment : String
  bindType : String
  apiId : String
  deriving DecidableEq, Repr

/-- The parsing of the identifier at the start of Read (lines 194-210) and,
in the same words, of Delete (lines 308-324): the error returned, or the five
fields. -/
def parseAttachmentId (id : String) : Except GoError AttachmentKey :=
  match jsonUnmarshal id with
  | none => .error GoError.idBrokenJson
  | some idMap =>
    let usagePlanId := mapIndex idMap "usage_plan_id"
    let serviceId := mapIndex idMap "service_id"
    let environment := mapIndex idMap "environment"
    let bindType := mapIndex idMap "bind_type"
    let apiId := mapIndex idMap "api_id"
    if usagePlanId = "" ∨ serviceId = "" ∨ environment = "" ∨ bindType = "" then
      .error (GoError.errorf "id is broken")
    else if bindType = API_GATEWAY_TYPE_API ∧ apiId = "" then
      .error (GoError.errorf "id is broken")
    else
      .ok { usagePlanId := usagePlanId, serviceId := serviceId, environment := environment,
            bindType := bindType, apiId := apiId }

/-- The scan `for _, plan := range plans` of Read: `true` when it reaches
`return setData()`, `false` when the loop ends without a match. The element
`plan` is a pointer whose field `UsagePlanId` is read without a check, and the
fields `UsagePlanId` and `Environment` are dereferenced without a check, the
second one only when the first comparison holds. -/
def scanPlans (key : AttachmentKey) : List (Option ApiUsagePlan) → Outcome Bool
  | [] => .ret false
  | none :: _ => .panic
  | some plan :: plans =>
    match plan.UsagePlanId with
    | none => .panic
    | some planId =>
      if planId = key.usagePlanId then
        match plan.Environment with
        | none => .panic
        | some environment =>
          if environment = key.environment then
            if key.bindType = API_GATEWAY_TYPE_API then
              match plan.ApiId with
              | some apiId => if apiId = key.apiId then .ret true else scanPlans key plans
              | none => scanPlans key plans
            else .ret true
          else scanPlans key plans
      else scanPlans key plans

/-- The closure `setData` of Read. -/
def setData (data : AttachmentData) (key : AttachmentKey) : AttachmentData :=
  { data with usage_plan_id := key.usagePlanId, service_id := key.serviceId,
              environment := key.environment, bind_type := key.bindType, api_id := key.apiId }

/-- The function `resourceTencentCloudAPIGatewayUsagePlanAttachmentRead`: the
error it returns and the resource data it leaves. -/
def resourceTencentCloudAPIGatewayUsagePlanAttachmentRead {σ : Type} (env : Env σ)
    (data : AttachmentData) (w : World σ) :
    Outcome ((Option GoError × AttachmentData) × World σ) :=
  match parseAttachmentId data.Id with
  | .error err => .ret ((some err, data), w)
  | .ok key =>
    (Retry env.readRetryTimeout (checkUsagePlan env key.usagePlanId) false w).bind
      fun ((outErr, has), w1) =>
    match outErr with
    | some err => .ret ((some err, data), w1)
    | none =>
      if has = false then .ret ((none, { data with Id := "" }), w1)
      else
        (Retry env.readRetryTimeout (checkService env key.serviceId) has w1).bind
          fun ((outErr, has), w2) =>
        match outErr with
        | some err => .ret ((some err, data), w2)
        | none =>
          if has = false then .ret ((none, { data with Id := "" }), w2)
          else
            (Retry env.readRetryTimeout (listPlans env key.bindType key.serviceId) [] w2).bind
              fun ((outErr, plans), w3) =>
            match outErr with
            | some err => .ret ((some err, data), w3)
            | none =>
              (scanPlans key plans).bind fun found =>
                if found then .ret ((none, setData data key), w3)
                else .ret ((none, { data with Id := "" }), w3)

/-- The function `resourceTencentCloudAPIGatewayUsagePlanAttachmentCreate`. -/
def resourceTencentCloudAPIGatewayUsagePlanAttachmentCreate {σ : Type} (env : Env σ)
    (data : AttachmentData) (w : World σ) :
    Outcome ((Option GoError × AttachmentData) × World σ) :=
  let usagePlanId := data.usage_plan_id
  let serviceId := data.service_id
  let environment := data.environment
  let bindType := data.bind_type
  let apiId := data.api_id
  if bindType = API_GATEWAY_TYPE_API ∧ apiId = "" then
    .ret ((some (GoError.errorf "parameter `api_ids` is required when `bind_type` is `API`"),
      data), w)
  else
    (Retry env.readRetryTimeout (checkUsagePlan env usagePlanId) false w).bind
      fun ((outErr, has), w1) =>
    match outErr with
    | some err => .ret ((some err, data), w1)
    | none =>
      if has = false then
        .ret ((some (GoError.errorf ("usage plan " ++ usagePlanId ++ " not exist")), data), w1)
      else
        (Retry env.readRetryTimeout (checkService env serviceId) has w1).bind
          fun ((outErr, has), w2) =>
        match outErr with
        | some err => .ret ((some err, data), w2)
        | none =>
          if has = false then
            .ret ((some (GoError.errorf ("service " ++ serviceId ++ " not exist")), data), w2)
          else
            (Retry env.writeRetryTimeout
              (bindEnvironment env serviceId usagePlanId environment bindType apiId) () w2).bind
              fun ((outErr, _), w3) =>
            match outErr with
            | some err => .ret ((some err, data), w3)
            | none =>
              resourceTencentCloudAPIGatewayUsagePlanAttachmentRead env
                { data with
                  Id := attachmentToken usagePlanId serviceId environment bindType apiId } w3

/-- The function `resourceTencentCloudAPIGatewayUsagePlanAttachmentDelete`. -/
def resourceTencentCloudAPIGatewayUsagePlanAttachmentDelete {σ : Type} (env : Env σ)
    (data : AttachmentData) (w : World σ) :
    Outcome ((Option GoError × AttachmentData) × World σ) :=
  match parseAttachmentId data.Id with
  | .error err => .ret ((some err, data), w)
  | .ok key =>
    (Retry env.writeRetryTimeout
      (unBindEnvironment env key.serviceId key.usagePlanId key.environment key.bindType
        key.apiId) () w).bind
      fun ((outErr, _), w1) => .ret ((outErr, data), w1)

/-! ## The usage plan resource (`a_resource_tc_api_gateway_usage_plan.go`) -/

/-- Modelled from the spec: `validateIntegerInRange(min, max)`, a validator
defined elsewhere in the repository, taken as the inclusive range check it is
named for: no warning, and an error exactly when the value lies outside
`[min, max]`. -/
def validateIntegerInRange (min max : Int) (i : Int) (k : String) : List String × List GoError :=
  if i < min ∨ max < i then ([], [GoError.errorf (k ++ " is out of range")]) else ([], [])

/-- The `ValidateFunc` of the attribute `max_request_num`. -/
def max_request_num_ValidateFunc (i : Int) (s : String) : List String × List GoError :=
  if i = -1 then ([], []) else validateIntegerInRange 1 99999999 i s

/-- The `ValidateFunc` of the attribute `max_request_num_pre_sec`. -/
def max_request_num_pre_sec_ValidateFunc (i : Int) (s : String) : List String × List GoError :=
  if i = -1 then ([], []) else validateIntegerInRange 1 2000 i s

/-- One element of the attribute `attach_list`: the nine values put into the
map, each the pointer of the SDK record. -/
structure AttachRecord where
  service_id : Option String
  service_name : Option String
  api_id : Option String
  api_name : Option String
  path : Option String
  method : Option String
  environment : Option String
  modify_time : Option String
  create_time : Option String
  deriving DecidableEq, Repr

/-- The `schema.ResourceData` of a usage plan: its identifier (`""` when it is
not set) and its attributes. -/
structure UsagePlanData where
  Id : String
  usage_plan_name : String
  usage_plan_desc : String
  max_request_num : Int
  max_request_num_pre_sec : Int
  modify_time : String
  create_time : String
  attach_api_keys : List String
  attach_list : List AttachRecord
  deriving DecidableEq, Repr

/-- The function passed to the first `resource.Retry` of Read; the shared
variables are `info` and `has`. -/
def describeUsagePlan {σ : Type} (env : Env σ) (usagePlanId : String)
    (_ : UsagePlanInfo × Bool) (w : World σ) :
    Outcome ((Option RetryError × (UsagePlanInfo × Bool)) × World σ) :=
  match DescribeUsagePlan env usagePlanId w with
  | ((info, has, some inErr), w1) =>
    .ret ((some (retryError env inErr [env.InternalError]), (info, has)), w1)
  | ((info, has, none), w1) => .ret ((none, (info, has)), w1)

/-- The function passed to the `resource.Retry` inside the loop over
`API_GATEWAY_TYPES` of Read; the shared variable is `attachList`, which is
extended only by a call that succeeded. -/
def describeEnvironments {σ : Type} (env : Env σ) (fuel : Nat) (usagePlanId bindType : String)
    (attachList : List (Option UsagePlanEnvironment)) (w : World σ) :
    Outcome ((Option RetryError × List (Option UsagePlanEnvironment)) × World σ) :=
  (DescribeUsagePlanEnvironments env fuel usagePlanId bindType w).bind
    fun ((list, inErr), w1) =>
    match inErr with
    | some err => .ret ((some (retryError env err [env.InternalError]), attachList), w1)
    | none => .ret ((none, attachList ++ list), w1)

/-- The loop `for _, bindType := range API_GATEWAY_TYPES` of Read, over the
bind types still to come: the error that ends it, if any, and `attachList`. -/
def readAttachList {σ : Type} (env : Env σ) (fuel : Nat) (usagePlanId : String) :
    List String → List (Option UsagePlanEnvironment) → World σ →
      Outcome ((Option GoError × List (Option UsagePlanEnvironment)) × World σ)
  | [], attachList, w => .ret ((none, attachList), w)
  | bindType :: bindTypes, attachList, w =>
    (Retry env.readRetryTimeout (describeEnvironments env fuel usagePlanId bindType)
      attachList w).bind
      fun ((outErr, attachList1), w1) =>
      match outErr with
      | some err => .ret ((some err, attachList1), w1)
      | none => readAttachList env fuel usagePlanId bindTypes attachList1 w1

/-- One element of `infoAttachList`: the map literal built from the record
that `v` points to. -/
def attachRecord (v : UsagePlanEnvironment) : AttachRecord :=
  { service_id := v.ServiceId, service_name := v.ServiceName, api_id := v.ApiId,
    api_name := v.ApiName, path := v.Path, method := v.Method, environment := v.Environment,
    modify_time := v.ModifiedTime, create_time := v.CreatedTime }

/-- The loop `for _, v := range attachList` that builds `infoAttachList`: every
element `v` is a pointer whose fields are read without a check. -/
def infoAttachList : List (Option UsagePlanEnvironment) → Outcome (List AttachRecord)
  | [] => .ret []
  | none :: _ => .panic
  | some v :: vs => (infoAttachList vs).bind fun records => .ret (attachRecord v :: records)

/-- The loop that builds `attach_api_keys`: every element of `BindSecretIds` is
dereferenced without a check. -/
def bindSecretIds : List (Option String) → Outcome (List String)
  | [] => .ret []
  | none :: _ => .panic
  | some v :: vs => (bindSecretIds vs).bind fun keys => .ret (v :: keys)

/-- The function `resourceTencentCloudAPIGatewayUsagePlanRead`; `fuel` bounds the
iterations of each pagination loop. `data.Set` of a nil pointer stores the
zero value, and `data.Set` does not fail on a value of the attribute's type. -/
def resourceTencentCloudAPIGatewayUsagePlanRead {σ : Type} (env : Env σ) (fuel : Nat)
    (data : UsagePlanData) (w : World σ) :
    Outcome ((Option GoError × UsagePlanData) × World σ) :=
  let usagePlanId := data.Id
  (Retry env.readRetryTimeout (describeUsagePlan env usagePlanId) (UsagePlanInfo.zero, false)
    w).bind
    fun ((outErr, (info, has)), w1) =>
    match outErr with
    | some err => .ret ((some err, data), w1)
    | none =>
      if has = false then .ret ((none, { data with Id := "" }), w1)
      else
        (readAttachList env fuel usagePlanId API_GATEWAY_TYPES [] w1).bind
          fun ((outErr, attachList), w2) =>
          match outErr with
          | some err => .ret ((some err, data), w2)
          | none =>
            (infoAttachList attachList).bind fun records =>
            let data1 : UsagePlanData :=
              { data with
                usage_plan_name := info.UsagePlanName.getD ""
                usage_plan_desc := info.UsagePlanDesc.getD ""
                max_request_num := info.MaxRequestNum.getD 0
                max_request_num_pre_sec := info.MaxRequestNumPreSec.getD 0
                modify_time := info.ModifiedTime.getD ""
                create_time := info.CreatedTime.getD ""
                attach_list := records }
            (bindSecretIds info.BindSecretIds).bind fun attach_api_keys =>
              .ret ((none, { data1 with attach_api_keys := attach_api_keys }), w2)

/-- The function passed to the first `resource.Retry` of Create; the shared
variable is `usagePlanId`. -/
def createUsagePlan {σ : Type} (env : Env σ) (usagePlanName : String)
    (usagePlanDesc : Option String) (maxRequestNum maxRequestNumPreSec : Int) (_ : String)
    (w : World σ) : Outcome ((Option RetryError × String) × World σ) :=
  (CreateUsagePlan env usagePlanName usagePlanDesc maxRequestNum maxRequestNumPreSec w).bind
    fun ((usagePlanId, inErr), w1) =>
    match inErr with
    | some err => .ret ((some (retryError env err []), usagePlanId), w1)
    | none => .ret ((none, usagePlanId), w1)

/-- The function passed to the second `resource.Retry` of Create ("wait usage
plan create ok"). -/
def waitUsagePlan {σ : Type} (env : Env σ) (usagePlanId : String) (_ : Unit) (w : World σ) :
    Outcome ((Option RetryError × Unit) × World σ) :=
  match DescribeUsagePlan env usagePlanId w with
  | ((_, _, some inErr), w1) => .ret ((some (retryError env inErr [env.InternalError]), ()), w1)
  | ((_, true, none), w1) => .ret ((none, ()), w1)
  | ((_, false, none), w1) =>
    .ret ((some { Err := GoError.errorf (" usage plan  " ++ usagePlanId ++ " not found on server"),
                  Retryable := true }, ()), w1)

/-- The function `resourceTencentCloudAPIGatewayUsagePlanCreate`. The value of
`data.GetOk("usage_plan_desc")` counts as set when it is not the empty string. -/
def resourceTencentCloudAPIGatewayUsagePlanCreate {σ : Type} (env : Env σ) (fuel : Nat)
    (data : UsagePlanData) (w : World σ) :
    Outcome ((Option GoError × UsagePlanData) × World σ) :=
  let usagePlanName := data.usage_plan_name
  let maxRequestNum := data.max_request_num
  let maxRequestNumPreSec := data.max_request_num_pre_sec
  let usagePlanDesc : Option String :=
    if data.usage_plan_desc ≠ "" then some data.usage_plan_desc else none
  (Retry env.writeRetryTimeout
    (createUsagePlan env usagePlanName usagePlanDesc maxRequestNum maxRequestNumPreSec) "" w).bind
    fun ((outErr, usagePlanId), w1) =>
    match outErr with
    | some err => .ret ((some err, data), w1)
    | none =>
      (Retry env.readRetryTimeout (waitUsagePlan env usagePlanId) ()
        w1).bind
        fun ((outErr, _), w2) =>
        match outErr with
        | some err => .ret ((some err, { data with Id := usagePlanId }), w2)
        | none =>
          resourceTencentCloudAPIGatewayUsagePlanRead env fuel { data with Id := usagePlanId } w2

/-- The function passed to the `resource.Retry` of Update; the shared variable
is `inErr`. The error of `ModifyUsagePlan` is assigned to it and dropped
(`_ = inErr`, the check that follows being commented out): the function
returns `nil` whatever the call returned. -/
def modifyUsagePlan {σ : Type} (env : Env σ) (usagePlanId usagePlanName : String)
    (usagePlanDesc : Option String) (maxRequestNum maxRequestNumPreSec : Int)
    (_ : Option GoError) (w : World σ) :
    Outcome ((Option RetryError × Option GoError) × World σ) :=
  match ModifyUsagePlan env usagePlanId usagePlanName usagePlanDesc maxRequestNum
      maxRequestNumPreSec w with
  | (inErr, w1) => .ret ((none, inErr), w1)

/-- The function `resourceTencentCloudAPIGatewayUsagePlanUpdate`; `fuel` bounds
the iterations of each pagination loop of the Read it ends with. The
description is passed as `helper.String(...)`, a pointer that is never nil. -/
def resourceTencentCloudAPIGatewayUsagePlanUpdate {σ : Type} (env : Env σ) (fuel : Nat)
    (data : UsagePlanData) (w : World σ) :
    Outcome ((Option GoError × UsagePlanData) × World σ) :=
  let usagePlanName := data.usage_plan_name
  let usagePlanDesc : Option String := some data.usage_plan_desc
  let maxRequestNum := data.max_request_num
  let maxRequestNumPreSec := data.max_request_num_pre_sec
  let usagePlanId := data.Id
  (Retry env.writeRetryTimeout
    (modifyUsagePlan env usagePlanId usagePlanName usagePlanDesc maxRequestNum
      maxRequestNumPreSec) none w).bind
    fun ((outErr, _), w1) =>
    match outErr with
    | some err => .ret ((some err, data), w1)
    | none => resourceTencentCloudAPIGatewayUsagePlanRead env fuel data w1

/-! ## Example surroundings -/

/-- The answers of an example remote service that keeps no state. -/
structure Fixture where
  /-- The answer to `CreateUsagePlan`. -/
  created : Response UsagePlanInfo
  /-- The answer to `DescribeUsagePlan` and to `ModifyUsagePlan`. -/
  plan : Response UsagePlanInfo
  /-- The answer of `DescribeService`. -/
  service : Bool × Option GoError
  /-- The answer of `DescribeApiUsagePlan`. -/
  apiBindings : List (Option ApiUsagePlan) × Option GoError
  /-- The answer of `DescribeServiceUsagePlan`. -/
  serviceBindings : List (Option ApiUsagePlan) × Option GoError
  /-- The answer of `BindEnvironment` and of `UnBindEnvironment`. -/
  bound : Option GoError
  /-- The keys that `DescribeApiKeysStatus` pages through. -/
  keys : List (Option ApiKey)
  /-- The bindings that `DescribeUsagePlanEnvironments` pages through for the
  bind type `SERVICE`. -/
  serviceEnvironments : List (Option UsagePlanEnvironment)
  /-- The bindings that `DescribeUsagePlanEnvironments` pages through for any
  other bind type. -/
  apiEnvironments : List (Option UsagePlanEnvironment)

/-- An example of surroundings: a remote service without state that answers
as the fixture says and serves the page `[Offset, Offset + Limit)` of a list;
no error is retryable, and the budgets allow 3 and 5 further attempts. -/
def exampleEnv (x : Fixture) : Env Unit where
  CreateApiKey := fun secretName s =>
    (.ok (some { AccessKeyId := some "AKID-example", SecretName := some secretName }), s)
  DescribeApiKeysStatus := fun request s =>
    (.ok (some ((x.keys.drop request.Offset.toNat).take request.Limit.toNat)), s)
  CreateUsagePlan := fun _ s => (x.created, s)
  DescribeUsagePlan := fun _ s => (x.plan, s)
  ModifyUsagePlan := fun _ s => (x.plan, s)
  DescribeUsagePlanEnvironments := fun request s =>
    (.ok (some (((if request.BindType = API_GATEWAY_TYPE_SERVICE then x.serviceEnvironments
      else x.apiEnvironments).drop request.Offset.toNat).take request.Limit.toNat)), s)
  DescribeService := fun _ s => (x.service, s)
  DescribeApiUsagePlan := fun _ s => (x.apiBindings, s)
  DescribeServiceUsagePlan := fun _ s => (x.serviceBindings, s)
  BindEnvironment := fun _ _ _ _ _ s => (x.bound, s)
  UnBindEnvironment := fun _ _ _ _ _ s => (x.bound, s)
  retryable := fun _ _ => false
  InternalError := "InternalError"
  readRetryTimeout := 3
  writeRetryTimeout := 5

/-- An example usage plan record, with identifier `usagePlan-gyeafpab`. -/
def examplePlan : UsagePlanInfo :=
  { UsagePlanId := some "usagePlan-gyeafpab", UsagePlanName := some "my_plan",
    UsagePlanDesc := some "nice plan", MaxRequestNum := some 100,
    MaxRequestNumPreSec := some 10, ModifiedTime := some "2020-08-01T00:00:00Z",
    CreatedTime := some "2020-08-01T00:00:00Z", BindSecretIds := [] }

/-- A fixture in which the plan and the service exist and nothing is bound. -/
def exampleFixture : Fixture :=
  { created := .ok (some examplePlan), plan := .ok (some examplePlan), service := (true, none),
    apiBindings := ([], none), serviceBindings := ([], none), bound := none, keys := [],
    serviceEnvironments := [], apiEnvironments := [] }

/-- The world at the start of a run against the example service. -/
def exampleWorld : World Unit := { remote := (), calls := [], retries := 0 }

/-- An example attachment: the configuration of a whole-service binding, the
identifier not set. -/
def exampleAttachment : AttachmentData :=
  { Id := "", usage_plan_id := "usagePlan-gyeafpab", service_id := "service-pkegyqmc",
    environment := "test", bind_type := "SERVICE", api_id := "" }

/-- The requests of `n` successive iterations of the loop of
`DescribeApiKeysStatus` that starts at `offset`. -/
def apiKeysRequests (filters : Option (List Filter)) (offset : Int) (n : Nat) : List Call :=
  (List.range n).map fun (i : Nat) =>
    Call.DescribeApiKeysStatus { Filters := filters, Limit := 20, Offset := offset + 20 * (i : Int) }

/-- The remote service in state `s` answers the successive requests of the
loop of `DescribeApiKeysStatus`, from `offset` on, with the given pages, each
in a present result, and is in state `s1` afterwards. -/
def answersApiKeys {σ : Type} (env : Env σ) (filters : Option (List Filter)) :
    List (List (Option ApiKey)) → Int → σ → σ → Prop
  | [], _, s, s1 => s1 = s
  | page :: pages, offset, s, s1 =>
    (env.DescribeApiKeysStatus { Filters := filters, Limit := 20, Offset := offset } s).1
        = .ok (some page) ∧
      answersApiKeys env filters pages (offset + 20)
        (env.DescribeApiKeysStatus { Filters := filters, Limit := 20, Offset := offset } s).2 s1

/-- The requests of `n` successive iterations of the loop of
`DescribeUsagePlanEnvironments` that starts at `offset`. -/
def environmentsRequests (usagePlanId bindType : String) (offset : Int) (n : Nat) : List Call :=
  (List.range n).map fun (i : Nat) =>
    Call.DescribeUsagePlanEnvironments
      { UsagePlanId := usagePlanId, BindType := bindType, Limit := 20,
        Offset := offset + 20 * (i : Int) }

/-- The remote service in state `s` answers the successive requests of the
loop of `DescribeUsagePlanEnvironments`, from `offset` on, with the given
pages, each in a present result, and is in state `s1` afterwards. -/
def answersEnvironments {σ : Type} (env : Env σ) (usagePlanId bindType : String) :
    List (List (Option UsagePlanEnvironment)) → Int → σ → σ → Prop
  | [], _, s, s1 => s1 = s
  | page :: pages, offset, s, s1 =>
    (env.DescribeUsagePlanEnvironments
        { UsagePlanId := usagePlanId, BindType := bindType, Limit := 20, Offset := offset } s).1
        = .ok (some page) ∧
      answersEnvironments env usagePlanId bindType pages (offset + 20)
        (env.DescribeUsagePlanEnvironments
          { UsagePlanId := usagePlanId, BindType := bindType, Limit := 20, Offset := offset } s).2
        s1

/-- Example keys: `n` keys with distinct names, in order. -/
def exampleKeys (n : Nat) : List (Option ApiKey) :=
  (List.range n).map fun i =>
    some { AccessKeyId := some (String.mk (List.replicate (i + 1) 'k')), SecretName := none }

/-- Example bindings of a plan: `n` bindings of distinct services, in order. -/
def exampleEnvironments (n : Nat) : List (Option UsagePlanEnvironment) :=
  (List.range n).map fun i =>
    some { ServiceId := some (String.mk (List.replicate (i + 1) 's')), ServiceName := none,
           ApiId := none, ApiName := none, Path := none, Method := none,
           Environment := some "test", ModifiedTime := none, CreatedTime := none }

/-- An example usage plan resource: the configuration of the plan `my_plan`
with the identifier `usagePlan-gyeafpab`. -/
def exampleUsagePlan : UsagePlanData :=
  { Id := "usagePlan-gyeafpab", usage_plan_name := "my_plan", usage_plan_desc := "nice plan",
    max_request_num := 100, max_request_num_pre_sec := 10, modify_time := "", create_time := "",
    attach_api_keys := [], attach_list := [] }

/-- The identifier of the `Import` section of the documentation of the
attachment resource (the package comment of
`a_resource_tc_api_gateway_usage_plan_attachment.go`), as printed between the
single quotes; it ends with a closing square bracket. -/
def documentedImportId : String :=
  "\x7b\"api_id\":\"\",\"bind_type\":\"SERVICE\",\"environment\":\"test\"," ++
    "\"service_id\":\"service-pkegyqmc\",\"usage_plan_id\":\"usagePlan-26t0l0w3\"\x7d]"

/-- The documented identifier without its last character, the square bracket. -/
def documentedImportIdWithoutBracket : String :=
  "\x7b\"api_id\":\"\",\"bind_type\":\"SERVICE\",\"environment\":\"test\"," ++
    "\"service_id\":\"service-pkegyqmc\",\"usage_plan_id\":\"usagePlan-26t0l0w3\"\x7d"

/-- An example usage plan record in which the second of two bound key
identifiers is a nil pointer. -/
def examplePlanWithNilKey : UsagePlanInfo :=
  { examplePlan with BindSecretIds := [some "AKIDexample", none] }

/-- An example usage plan record with two bound key identifiers. -/
def examplePlanWithKeys : UsagePlanInfo :=
  { examplePlan with BindSecretIds := [some "AKIDexample1", some "AKIDexample2"] }

/-- An example answer to `CreateUsagePlan`: a present result whose
`UsagePlanId` is a nil pointer. -/
def exampleResultWithoutId : UsagePlanInfo :=
  { examplePlan with UsagePlanId := none }

/-- Example bindings of a service: the plan `usagePlan-gyeafpab` bound in
`release` and another plan bound in `test`. -/
def exampleBindingsWithoutMatch : List ApiUsagePlan :=
  [{ UsagePlanId := some "usagePlan-gyeafpab", Environment := some "release", ApiId := none },
   { UsagePlanId := some "usagePlan-26t0l0w3", Environment := some "test", ApiId := none }]

/-- Example bindings of a service: the plan `usagePlan-gyeafpab` bound in
`release` without an API, and bound in `test` for the API `api-2`. -/
def exampleBindingsWithMatch : List ApiUsagePlan :=
  [{ UsagePlanId := some "usagePlan-gyeafpab", Environment := some "release", ApiId := none },
   { UsagePlanId := some "usagePlan-gyeafpab", Environment := some "test", ApiId := some "api-2" }]

/-- An example attachment as it is after an import: the identifier is the token
of the given fields and no attribute is set. -/
def exampleImported (bindType apiId : String) : AttachmentData :=
  { Id := attachmentToken "usagePlan-gyeafpab" "service-pkegyqmc" "test" bindType apiId,
    usage_plan_id := "", service_id := "", environment := "", bind_type := "", api_id := "" }

/-- The world of a run against the example service after the given calls and
number of `resource.Retry` invocations. -/
def exampleWorldAfter (calls : List Call) (retries : Nat) : World Unit :=
  { remote := (), calls := calls, retries := retries }

/-- Example whole-service bindings of a plan: two bindings, every field that a
whole-service binding carries being present. -/
def exampleServiceEnvironments : List UsagePlanEnvironment :=
  [{ ServiceId := some "service-pkegyqmc", ServiceName := some "niceservice", ApiId := none,
     ApiName := none, Path := none, Method := none, Environment := some "test",
     ModifiedTime := some "2020-08-03T00:00:00Z", CreatedTime := some "2020-08-02T00:00:00Z" },
   { ServiceId := some "service-ody35h5e", ServiceName := some "otherservice", ApiId := none,
     ApiName := none, Path := none, Method := none, Environment := some "release",
     ModifiedTime := some "2020-08-05T00:00:00Z", CreatedTime := some "2020-08-04T00:00:00Z" }]

/-- Example per-API bindings of a plan: one binding with nine present fields. -/
def exampleApiEnvironments : List UsagePlanEnvironment :=
  [{ ServiceId := some "service-pkegyqmc", ServiceName := some "niceservice",
     ApiId := some "api-lukm33yk", ApiName := some "hello", Path := some "/hello",
     Method := some "GET", Environment := some "prepub",
     ModifiedTime := some "2020-08-07T00:00:00Z", CreatedTime := some "2020-08-06T00:00:00Z" }]

/-- A fixture in which the plan has two bound keys, two whole-service bindings
and one per-API binding. -/
def exampleFixtureWithBindings : Fixture :=
  { exampleFixture with
    plan := .ok (some examplePlanWithKeys),
    serviceEnvironments := exampleServiceEnvironments.map some,
    apiEnvironments := exampleApiEnvironments.map some }

/-- A fixture in which the whole-service bindings of the plan are the example
ones followed by a nil pointer. -/
def exampleFixtureWithNilBinding : Fixture :=
  { exampleFixture with
    plan := .ok (some examplePlanWithKeys),
    serviceEnvironments := exampleServiceEnvironments.map some ++ [none],
    apiEnvironments := exampleApiEnvironments.map some }

/-- A fixture in which the second bound key identifier of the plan is a nil
pointer. -/
def exampleFixtureWithNilKey : Fixture :=
  { exampleFixture with
    plan := .ok (some examplePlanWithNilKey),
    serviceEnvironments := exampleServiceEnvironments.map some,
    apiEnvironments := exampleApiEnvironments.map some }

/-- The calls of a Read of the example plan that lists its bindings. -/
def exampleReadCalls : List Call :=
  [Call.DescribeUsagePlan "usagePlan-gyeafpab",
   Call.DescribeUsagePlanEnvironments
     { UsagePlanId := "usagePlan-gyeafpab", BindType := "SERVICE", Limit := 20, Offset := 0 },
   Call.DescribeUsagePlanEnvironments
     { UsagePlanId := "usagePlan-gyeafpab", BindType := "API", Limit := 20, Offset := 0 }]

/-- The calls of a Create of the example plan up to the end of the existence
poll. -/
def exampleCreateCalls : List Call :=
  [Call.CreateUsagePlan
     { UsagePlanName := "my_plan", UsagePlanDesc := some "nice plan", MaxRequestNum := 100,
       MaxRequestNumPreSec := 10 },
   Call.DescribeUsagePlan "usagePlan-gyeafpab"]

/-! ## Auxiliary definitions for the proofs -/

/-- The check made for every ASCII character by `ascii_table`: the character is
written as it is or by a two-character escape, or its `\u00XX` escape reads
back as its number. -/
def asciiCheck (n : Nat) : Bool :=
  htmlSafeSet (Char.ofNat n) || Char.ofNat n == '\\' || Char.ofNat n == '"' ||
    Char.ofNat n == '\n' || Char.ofNat n == '\r' || Char.ofNat n == '\t' ||
    (getu4 ['\\', 'u', '0', '0', hexDigit (n / 16), hexDigit (n % 16)] == some n)

/-! # Theorems -/

@[simp] theorem Outcome.bind_ret {α β : Type} (a : α) (f : α → Outcome β) :
    (Outcome.ret a).bind f = f a := rfl

/-! ## The identifier token: `Unmarshal` after `Marshal` -/

theorem ascii_table_all : (List.range 128).all asciiCheck = true := by decide

theorem ascii_table (n : Nat) (h : n < 128) : asciiCheck n = true :=
  List.all_eq_true.mp ascii_table_all n (List.mem_range.mpr h)

theorem getu4_append (h1 h2 h3 h4 : Char) (rest : List Char) :
    getu4 ('\\' :: 'u' :: h1 :: h2 :: h3 :: h4 :: rest) = getu4 ['\\', 'u', h1, h2, h3, h4] := by
  simp [getu4]

theorem unquoteStep_plain (c : Char) (rest : List Char) (h1 : c ≠ '"') (h2 : c ≠ '\\')
    (h3 : ¬ c.toNat < 0x20) :
    unquoteStep (c :: rest) = some (some c, rest) := by
  simp [unquoteStep, h1, h2, h3]

theorem unquoteStep_u (h1 h2 h3 h4 : Char) (rest : List Char) (n : Nat)
    (h : getu4 ['\\', 'u', h1, h2, h3, h4] = some n) (hs : isSurrogate n = false) :
    unquoteStep ('\\' :: 'u' :: h1 :: h2 :: h3 :: h4 :: rest)
      = some (some (Char.ofNat n), rest) := by
  rw [unquoteStep]
  simp [getu4_append, h, hs]

theorem unquoteStep_esc (e x : Char) (rest : List Char) (hu : e ≠ 'u')
    (h : unescape e = some x) :
    unquoteStep ('\\' :: e :: rest) = some (some x, rest) := by
  simp [unquoteStep, h, hu]

theorem unquoteStep_encodeChar (c : Char) (rest : List Char) :
    unquoteStep (encodeChar c ++ rest) = some (some c, rest) := by
  unfold encodeChar
  by_cases hlt : c.toNat < 0x80
  · rw [if_pos hlt]
    by_cases hsafe : htmlSafeSet c = true
    · rw [if_pos hsafe]
      simp only [htmlSafeSet, Bool.and_eq_true, decide_eq_true_eq, Bool.not_eq_true',
        beq_eq_false_iff_ne, ne_eq] at hsafe
      exact unquoteStep_plain c rest hsafe.1.1.1.1.2 hsafe.2 (by omega)
    · rw [if_neg hsafe]
      by_cases hq : c = '\\' ∨ c = '"'
      · rw [if_pos hq]
        rcases hq with rfl | rfl
        · exact unquoteStep_esc _ _ rest (by decide) (by decide)
        · exact unquoteStep_esc _ _ rest (by decide) (by decide)
      · rw [if_neg hq]
        by_cases hn : c = '\n'
        · subst hn; exact unquoteStep_esc _ _ rest (by decide) (by decide)
        · rw [if_neg hn]
          by_cases hr : c = '\r'
          · subst hr; exact unquoteStep_esc _ _ rest (by decide) (by decide)
          · rw [if_neg hr]
            by_cases ht : c = '\t'
            · subst ht; exact unquoteStep_esc _ _ rest (by decide) (by decide)
            · rw [if_neg ht]
              have key := ascii_table c.toNat hlt
              simp only [asciiCheck, Char.ofNat_toNat, Bool.or_eq_true, beq_iff_eq] at key
              have hg : getu4 ['\\', 'u', '0', '0', hexDigit (c.toNat / 16),
                  hexDigit (c.toNat % 16)] = some c.toNat := by
                rcases key with key | key
                · rcases key with key | key
                  · rcases key with key | key
                    · rcases key with key | key
                      · rcases key with key | key
                        · rcases key with key | key
                          · exact absurd key hsafe
                          · exact absurd key (fun h => hq (Or.inl h))
                        · exact absurd key (fun h => hq (Or.inr h))
                      · exact absurd key hn
                    · exact absurd key hr
                  · exact absurd key ht
                · exact key
              have := unquoteStep_u '0' '0' _ _ rest c.toNat hg
                (by simp [isSurrogate]; omega)
              simpa [Char.ofNat_toNat] using this
  · rw [if_neg hlt]
    by_cases hls : c = Char.ofNat 0x2028 ∨ c = Char.ofNat 0x2029
    · rw [if_pos hls]
      rcases hls with rfl | rfl
      · exact unquoteStep_u '2' '0' '2' _ rest 0x2028 (by decide) (by decide)
      · exact unquoteStep_u '2' '0' '2' _ rest 0x2029 (by decide) (by decide)
    · rw [if_neg hls]
      refine unquoteStep_plain c rest ?_ ?_ (by omega)
      · rintro rfl; exact hlt (by decide)
      · rintro rfl; exact hlt (by decide)

theorem encodeChar_length_pos (c : Char) : 1 ≤ (encodeChar c).length := by
  unfold encodeChar
  split_ifs <;> simp

theorem encodeBody_length (v : List Char) : v.length ≤ (encodeBody v).length := by
  induction v with
  | nil => simp [encodeBody]
  | cons c v ih =>
    have := encodeChar_length_pos c
    simp only [encodeBody, List.length_cons, List.length_append]
    omega

theorem encodeString_length (v : List Char) : v.length + 2 ≤ (encodeString v).length := by
  have := encodeBody_length v
  simp only [encodeString, List.length_cons, List.length_append, List.length_nil]
  omega

theorem unquoteBody_encodeBody (v : List Char) :
    ∀ (fuel : Nat) (rest : List Char), v.length + 1 ≤ fuel →
      unquoteBody fuel (encodeBody v ++ '"' :: rest) = some (v, rest) := by
  induction v with
  | nil =>
    intro fuel rest h
    obtain ⟨n, rfl⟩ : ∃ n, fuel = n + 1 := ⟨fuel - 1, by omega⟩
    simp [encodeBody, unquoteBody, unquoteStep]
  | cons c v ih =>
    intro fuel rest h
    obtain ⟨n, rfl⟩ : ∃ n, fuel = n + 1 := ⟨fuel - 1, by omega⟩
    have hn : v.length + 1 ≤ n := by simpa using h
    simp only [encodeBody, List.append_assoc, unquoteBody, unquoteStep_encodeChar, ih n rest hn]

theorem decodeElem_encodeString (v : List Char) (fuel : Nat) (rest : List Char)
    (h : v.length + 1 ≤ fuel) :
    decodeElem fuel (encodeString v ++ rest) = some (v, rest) := by
  simp [decodeElem, encodeString, unquoteBody_encodeBody v fuel rest h]

theorem skipSpace_encodeString (v rest : List Char) :
    skipSpace (encodeString v ++ rest) = encodeString v ++ rest := by
  simp [encodeString, skipSpace, isSpace]

theorem skipSpace_of_not_space (c : Char) (s : List Char) (h : isSpace c = false) :
    skipSpace (c :: s) = c :: s := by
  simp [skipSpace, h]

theorem decodeMember_encode (fuel : Nat) (key val : String) (d : Char) (rest : List Char)
    (hk : key.data.length + 1 ≤ fuel) (hv : val.data.length + 1 ≤ fuel)
    (hd : d = ',' ∨ d = '}') :
    decodeMember fuel (encodeString key.data ++ ':' :: encodeString val.data ++ d :: rest)
      = some ((key, val), decide (d = ','), rest) := by
  have h1 : decodeMember fuel (encodeString key.data ++ ':' :: encodeString val.data ++ d :: rest)
      = decodeMember fuel ('"' :: (encodeBody key.data ++ '"' :: (':' :: (encodeString val.data ++
          d :: rest)))) := by
    simp [encodeString]
  rw [h1, decodeMember]
  simp only [if_true, unquoteBody_encodeBody _ fuel _ hk]
  rw [skipSpace_of_not_space _ _ (by decide)]
  simp only [if_true, skipSpace_encodeString, decodeElem_encodeString _ fuel _ hv]
  rcases hd with rfl | rfl
  · rw [skipSpace_of_not_space _ _ (by decide)]; rfl
  · rw [skipSpace_of_not_space _ _ (by decide)]; rfl

theorem skipSpace_encodeMembers (m : List (String × String)) (rest : List Char) :
    skipSpace (encodeMembers m ++ '}' :: rest) = encodeMembers m ++ '}' :: rest := by
  match m with
  | [] => simp [encodeMembers, skipSpace, isSpace]
  | [(k, v)] => simp [encodeMembers, encodeString, skipSpace, isSpace]
  | (k, v) :: q :: m => simp [encodeMembers, encodeString, skipSpace, isSpace]

theorem decodeMembers_encodeMembers (fuel : Nat) (m : List (String × String)) :
    ∀ (n : Nat) (rest : List Char), m ≠ [] → m.length ≤ n →
      (∀ p ∈ m, p.1.data.length + 1 ≤ fuel ∧ p.2.data.length + 1 ≤ fuel) →
      decodeMembers fuel n (encodeMembers m ++ '}' :: rest) = some (m, rest) := by
  induction m with
  | nil => intro n rest h; exact absurd rfl h
  | cons p m ih =>
    intro n rest _ hlen hfuel
    obtain ⟨k, rfl⟩ : ∃ k, n = k + 1 := ⟨n - 1, by simp at hlen; omega⟩
    obtain ⟨key, val⟩ := p
    have hk := (hfuel (key, val) (List.mem_cons_self _ _)).1
    have hv := (hfuel (key, val) (List.mem_cons_self _ _)).2
    cases m with
    | nil =>
      have := decodeMember_encode fuel key val '}' rest hk hv (Or.inr rfl)
      simp only [encodeMembers, List.append_assoc, List.cons_append, decodeMembers] at this ⊢
      rw [this]; rfl
    | cons q m =>
      have hrec := ih k rest (by simp) (by simp at hlen ⊢; omega)
        (fun p hp => hfuel p (List.mem_cons_of_mem _ hp))
      have := decodeMember_encode fuel key val ',' (encodeMembers (q :: m) ++ '}' :: rest)
        hk hv (Or.inl rfl)
      simp only [encodeMembers, List.append_assoc, List.cons_append, decodeMembers] at this ⊢
      rw [this]
      simp only [decide_True]
      rw [skipSpace_encodeMembers, hrec]

theorem encodeMembers_length (m : List (String × String)) :
    m.length ≤ (encodeMembers m).length ∧
      ∀ p ∈ m, p.1.data.length + 1 ≤ (encodeMembers m).length ∧
        p.2.data.length + 1 ≤ (encodeMembers m).length := by
  induction m with
  | nil => simp [encodeMembers]
  | cons q m ih =>
    obtain ⟨k, v⟩ := q
    have hk := encodeString_length k.data
    have hv := encodeString_length v.data
    cases m with
    | nil =>
      simp only [encodeMembers, List.length_cons, List.length_append, List.length_nil,
        List.mem_singleton, forall_eq]
      omega
    | cons q2 m =>
      obtain ⟨ih1, ih2⟩ := ih
      simp only [encodeMembers, List.length_cons, List.length_append] at ih1 ih2 ⊢
      refine ⟨by omega, ?_⟩
      intro p hp
      rcases List.mem_cons.mp hp with rfl | hp
      · constructor <;> simp only <;> omega
      · have := ih2 p hp
        omega

theorem jsonUnmarshal_jsonMarshal (m : List (String × String)) :
    jsonUnmarshal (jsonMarshal m) = some (m.insertionSort keyLE) := by
  generalize hm : m.insertionSort keyLE = sorted
  unfold jsonMarshal jsonUnmarshal jsonUnmarshalWith decodeTop
  rw [hm]
  cases sorted with
  | nil => simp [encodeMembers, skipSpace, isSpace]
  | cons p ms =>
    have hl := encodeMembers_length (p :: ms)
    have hs : skipSpace (encodeMembers (p :: ms) ++ ['}'])
        = encodeMembers (p :: ms) ++ ['}'] := skipSpace_encodeMembers _ _
    have hne : ∃ c t, encodeMembers (p :: ms) ++ ['}'] = '"' :: t ∧ c = '"' := by
      obtain ⟨k, v⟩ := p
      cases ms <;> simp [encodeMembers, encodeString]
    obtain ⟨c, t, ht, -⟩ := hne
    have hdec := decodeMembers_encodeMembers
      ('{' :: (encodeMembers (p :: ms) ++ ['}'])).length (p :: ms)
      ('{' :: (encodeMembers (p :: ms) ++ ['}'])).length [] (by simp)
      (by simp only [List.length_cons, List.length_append] at hl ⊢; omega)
      (fun q hq => by
        have := hl.2 q hq
        simp only [List.length_cons, List.length_append] at this ⊢; omega)
    rw [skipSpace_of_not_space _ _ (by decide)]
    simp only [if_true, hs]
    rw [ht] at hdec ⊢
    simp only [show ('"' = '}') = False by decide, if_false, hdec]
    simp [skipSpace]

theorem attachmentToken_sorted (u s e b a : String) :
    [("usage_plan_id", u), ("service_id", s),
      ("environment", e), ("bind_type", b), ("api_id", a)].insertionSort keyLE
    = [("api_id", a), ("bind_type", b), ("environment", e), ("service_id", s),
        ("usage_plan_id", u)] := by
  have h1 : ¬ keyLE ("bind_type", b) ("api_id", a) := by
    show ¬ (stringLess "api_id".data "bind_type".data = false)
    decide
  have h2 : ¬ keyLE ("environment", e) ("api_id", a) := by
    show ¬ (stringLess "api_id".data "environment".data = false)
    decide
  have h3 : ¬ keyLE ("environment", e) ("bind_type", b) := by
    show ¬ (stringLess "bind_type".data "environment".data = false)
    decide
  have h4 : ¬ keyLE ("service_id", s) ("api_id", a) := by
    show ¬ (stringLess "api_id".data "service_id".data = false)
    decide
  have h5 : ¬ keyLE ("service_id", s) ("bind_type", b) := by
    show ¬ (stringLess "bind_type".data "service_id".data = false)
    decide
  have h6 : ¬ keyLE ("service_id", s) ("environment", e) := by
    show ¬ (stringLess "environment".data "service_id".data = false)
    decide
  have h7 : ¬ keyLE ("usage_plan_id", u) ("api_id", a) := by
    show ¬ (stringLess "api_id".data "usage_plan_id".data = false)
    decide
  have h8 : ¬ keyLE ("usage_plan_id", u) ("bind_type", b) := by
    show ¬ (stringLess "bind_type".data "usage_plan_id".data = false)
    decide
  have h9 : ¬ keyLE ("usage_plan_id", u) ("environment", e) := by
    show ¬ (stringLess "environment".data "usage_plan_id".data = false)
    decide
  have h10 : ¬ keyLE ("usage_plan_id", u) ("service_id", s) := by
    show ¬ (stringLess "service_id".data "usage_plan_id".data = false)
    decide
  simp only [List.insertionSort, List.orderedInsert, if_neg h1, if_neg h2, if_neg h3, if_neg h4,
    if_neg h5, if_neg h6, if_neg h7, if_neg h8, if_neg h9, if_neg h10]

theorem jsonUnmarshal_attachmentToken (u s e b a : String) :
    jsonUnmarshal (attachmentToken u s e b a)
      = some [("api_id", a), ("bind_type", b), ("environment", e), ("service_id", s),
          ("usage_plan_id", u)] := by
  rw [attachmentToken, jsonUnmarshal_jsonMarshal, attachmentToken_sorted]

theorem mapIndex_attachmentToken (u s e b a : String) :
    mapIndex [("api_id", a), ("bind_type", b), ("environment", e), ("service_id", s),
        ("usage_plan_id", u)] "usage_plan_id" = u ∧
    mapIndex [("api_id", a), ("bind_type", b), ("environment", e), ("service_id", s),
        ("usage_plan_id", u)] "service_id" = s ∧
    mapIndex [("api_id", a), ("bind_type", b), ("environment", e), ("service_id", s),
        ("usage_plan_id", u)] "environment" = e ∧
    mapIndex [("api_id", a), ("bind_type", b), ("environment", e), ("service_id", s),
        ("usage_plan_id", u)] "bind_type" = b ∧
    mapIndex [("api_id", a), ("bind_type", b), ("environment", e), ("service_id", s),
        ("usage_plan_id", u)] "api_id" = a := by
  refine ⟨?_, ?_, ?_, ?_, ?_⟩ <;> simp [mapIndex, List.lookup]

/-- C1: for every five strings, decoding the token that Create builds
(`json.Marshal` of the map of the five keys) with the decoding of Read and
Delete (`json.Unmarshal` into a map from strings to strings) succeeds and
yields exactly the five values under the five keys, whatever characters the
values contain; in particular an empty `api_id` is read back as empty. -/
theorem attachmentToken_roundtrip
    (usagePlanId serviceId environment bindType apiId : String) :
    ∃ idMap, jsonUnmarshal (attachmentToken usagePlanId serviceId environment bindType apiId)
        = some idMap ∧
      idMap = [("api_id", apiId), ("bind_type", bindType), ("environment", environment),
        ("service_id", serviceId), ("usage_plan_id", usagePlanId)] ∧
      mapIndex idMap "usage_plan_id" = usagePlanId ∧
      mapIndex idMap "service_id" = serviceId ∧
      mapIndex idMap "environment" = environment ∧
      mapIndex idMap "bind_type" = bindType ∧
      mapIndex idMap "api_id" = apiId := by
  obtain ⟨h1, h2, h3, h4, h5⟩ :=
    mapIndex_attachmentToken usagePlanId serviceId environment bindType apiId
  exact ⟨_, jsonUnmarshal_attachmentToken usagePlanId serviceId environment bindType apiId, rfl,
    h1, h2, h3, h4, h5⟩

/-! ## The bounds of the decoder are large enough -/

theorem unquoteStep_length (s : List Char) (x : Option Char) (rest : List Char)
    (h : unquoteStep s = some (x, rest)) : rest.length < s.length := by
  unfold unquoteStep at h
  split at h
  · cases h
  · next c s0 =>
    split at h
    · cases h; simp
    · split at h
      · split at h
        · cases h
        · next e s1 =>
          split at h
          · split at h
            · cases h
            · split at h
              · split at h
                · cases h; simp only [List.length_cons, List.length_drop]; omega
                · cases h; simp only [List.length_cons, List.length_drop]; omega
              · cases h; simp only [List.length_cons, List.length_drop]; omega
          · split at h
            · cases h
            · cases h; simp only [List.length_cons]; omega
      · split at h
        · cases h
        · cases h; simp

theorem unquoteBody_length (n : Nat) :
    ∀ (s t rest : List Char), unquoteBody n s = some (t, rest) → rest.length < s.length := by
  induction n with
  | zero => intro s t rest h; simp [unquoteBody] at h
  | succ n ih =>
    intro s t rest h
    unfold unquoteBody at h
    split at h
    · cases h
    · next r hs => cases h; exact unquoteStep_length _ _ _ hs
    · next x r hs =>
      have h1 := unquoteStep_length _ _ _ hs
      split at h
      · cases h
      · next t2 rest2 hb =>
        cases h
        exact lt_trans (ih _ _ _ hb) h1

theorem unquoteBody_of_le (n : Nat) :
    ∀ (m : Nat) (s : List Char), s.length ≤ n → s.length ≤ m →
      unquoteBody n s = unquoteBody m s := by
  induction n with
  | zero =>
    intro m s hn hm
    have hs : s = [] := List.length_eq_zero.mp (Nat.le_zero.mp hn)
    subst hs
    cases m <;> simp [unquoteBody, unquoteStep]
  | succ n ih =>
    intro m s hn hm
    cases m with
    | zero =>
      have hs : s = [] := List.length_eq_zero.mp (Nat.le_zero.mp hm)
      subst hs
      simp [unquoteBody, unquoteStep]
    | succ m =>
      unfold unquoteBody
      cases hs : unquoteStep s with
      | none => rfl
      | some p =>
        obtain ⟨x, rest⟩ := p
        have hl := unquoteStep_length _ _ _ hs
        cases x with
        | none => rfl
        | some x =>
          simp only
          rw [ih m rest (by omega) (by omega)]

theorem skipSpace_length (s : List Char) : (skipSpace s).length ≤ s.length := by
  induction s with
  | nil => simp [skipSpace]
  | cons c s ih =>
    unfold skipSpace
    split
    · simp only [List.length_cons]; omega
    · exact le_refl _

theorem decodeElem_length (fuel : Nat) (s t rest : List Char)
    (h : decodeElem fuel s = some (t, rest)) : rest.length < s.length := by
  unfold decodeElem at h
  split at h
  · cases h
  · next c s1 =>
    split at h
    · have := unquoteBody_length _ _ _ _ h
      simp only [List.length_cons]; omega
    · split at h
      · next r hr =>
        cases h
        unfold readNull at hr
        split at hr
        · next heq =>
          split at hr
          · cases hr
            have := congrArg List.length heq
            simp only [List.length_cons] at this ⊢
            omega
          · cases hr
        · cases hr
      · cases h

theorem decodeElem_of_le (n m : Nat) (s : List Char) (hn : s.length ≤ n) (hm : s.length ≤ m) :
    decodeElem n s = decodeElem m s := by
  unfold decodeElem
  split
  · rfl
  · next c s1 =>
    simp only [List.length_cons] at hn hm
    rw [unquoteBody_of_le n m s1 (by omega) (by omega)]

theorem decodeMember_length (fuel : Nat) (s : List Char) (kv : String × String) (more : Bool)
    (rest : List Char) (h : decodeMember fuel s = some (kv, more, rest)) :
    rest.length < s.length := by
  unfold decodeMember at h
  split at h
  · cases h
  · next q s1 =>
    split at h
    · split at h
      · cases h
      · next key s2 hkey =>
        have l1 := unquoteBody_length _ _ _ _ hkey
        have l2 := skipSpace_length s2
        split at h
        · cases h
        · next colon s3 hc =>
          rw [hc] at l2
          split at h
          · split at h
            · cases h
            · next val s4 hval =>
              have l3 := decodeElem_length _ _ _ _ hval
              have l4 := skipSpace_length s3
              have l5 := skipSpace_length s4
              split at h
              · cases h
              · next d s5 hd =>
                rw [hd] at l5
                simp only [List.length_cons] at l2 l5 ⊢
                split at h
                · cases h; omega
                · split at h
                  · cases h; omega
                  · cases h
          · cases h
    · cases h

theorem decodeMember_of_le (n m : Nat) (s : List Char) (hn : s.length ≤ n)
    (hm : s.length ≤ m) : decodeMember n s = decodeMember m s := by
  unfold decodeMember
  split
  · rfl
  · next q s1 =>
    simp only [List.length_cons] at hn hm
    rw [unquoteBody_of_le n m s1 (by omega) (by omega)]
    split
    · cases hkey : unquoteBody m s1 with
      | none => rfl
      | some p =>
        obtain ⟨key, s2⟩ := p
        have l1 := unquoteBody_length _ _ _ _ hkey
        have l2 := skipSpace_length s2
        simp only
        split
        · rfl
        · next colon s3 hc =>
          rw [hc] at l2
          simp only [List.length_cons] at l2
          have l4 := skipSpace_length s3
          rw [decodeElem_of_le n m (skipSpace s3) (by omega) (by omega)]
    · rfl

theorem decodeMembers_of_le (f g : Nat) (k : Nat) :
    ∀ (l : Nat) (s : List Char), s.length ≤ f → s.length ≤ g → s.length ≤ k → s.length ≤ l →
      decodeMembers f k s = decodeMembers g l s := by
  induction k with
  | zero =>
    intro l s hf hg hk hl
    have hs : s = [] := List.length_eq_zero.mp (Nat.le_zero.mp hk)
    subst hs
    cases l <;> simp [decodeMembers, decodeMember]
  | succ k ih =>
    intro l s hf hg hk hl
    cases l with
    | zero =>
      have hs : s = [] := List.length_eq_zero.mp (Nat.le_zero.mp hl)
      subst hs
      simp [decodeMembers, decodeMember]
    | succ l =>
      unfold decodeMembers
      rw [decodeMember_of_le f g s hf hg]
      cases hm : decodeMember g s with
      | none => rfl
      | some p =>
        obtain ⟨kv, more, rest⟩ := p
        have l1 := decodeMember_length _ _ _ _ _ hm
        have l2 := skipSpace_length rest
        cases more with
        | false => rfl
        | true =>
          simp only
          rw [ih l (skipSpace rest) (by omega) (by omega) (by omega) (by omega)]

theorem jsonUnmarshalWith_of_le (id : String) (fuel : Nat) (h : id.data.length ≤ fuel) :
    jsonUnmarshalWith fuel id = jsonUnmarshal id := by
  unfold jsonUnmarshal jsonUnmarshalWith
  have key : decodeTop fuel id.data = decodeTop id.data.length id.data := by
    unfold decodeTop
    have l1 := skipSpace_length id.data
    split
    · rfl
    · next c s1 hc =>
      rw [hc] at l1
      simp only [List.length_cons] at l1
      split
      · have l2 := skipSpace_length s1
        split
        · rfl
        · next c2 s2 hc2 =>
          rw [hc2] at l2
          split
          · rfl
          · exact decodeMembers_of_le _ _ _ _ _ (by omega) (by omega) (by omega) (by omega)
      · rfl
  rw [key]

/-! ## Worlds only grow -/

@[simp] theorem World.after_retries {σ : Type} (w : World σ) (c : Call) (r : σ) :
    (w.after c r).retries = w.retries := rfl

@[simp] theorem World.after_calls {σ : Type} (w : World σ) (c : Call) (r : σ) :
    (w.after c r).calls = w.calls ++ [c] := rfl

theorem Retry.attempts_retries {σ κ : Type}
    (f : κ → World σ → Outcome ((Option RetryError × κ) × World σ))
    (hf : ∀ k w x, f k w = .ret x → w.retries ≤ x.2.retries) :
    ∀ (n : Nat) (k : κ) (w : World σ) (x : (Option GoError × κ) × World σ),
      Retry.attempts f n k w = .ret x → w.retries ≤ x.2.retries := by
  intro n
  induction n with
  | zero =>
    intro k w x h
    unfold Retry.attempts at h
    split at h
    · next heq => cases h; exact hf _ _ _ heq
    · next heq => cases h; exact hf _ _ _ heq
    · cases h
    · cases h
  | succ n ih =>
    intro k w x h
    unfold Retry.attempts at h
    split at h
    · next heq => cases h; exact hf _ _ _ heq
    · next e k1 w1 heq =>
      have h1 := hf _ _ _ heq
      split at h
      · exact le_trans h1 (ih _ _ _ h)
      · cases h; exact h1
    · cases h
    · cases h

theorem Retry_retries {σ κ : Type} (t : Nat)
    (f : κ → World σ → Outcome ((Option RetryError × κ) × World σ))
    (hf : ∀ k w x, f k w = .ret x → w.retries ≤ x.2.retries)
    (k : κ) (w : World σ) (x : (Option GoError × κ) × World σ)
    (h : Retry t f k w = .ret x) : w.retries + 1 ≤ x.2.retries :=
  Retry.attempts_retries f hf t k _ x h

theorem DescribeUsagePlan_retries {σ : Type} (env : Env σ) (id : String) (w : World σ) :
    (DescribeUsagePlan env id w).2.retries = w.retries := by
  unfold DescribeUsagePlan
  simp only
  split
  · split
    · split <;> rfl
    · rfl
  · rfl
  · rfl

theorem checkUsagePlan_retries {σ : Type} (env : Env σ) (id : String) (k : Bool) (w : World σ)
    (x : (Option RetryError × Bool) × World σ) (h : checkUsagePlan env id k w = .ret x) :
    w.retries ≤ x.2.retries := by
  have := DescribeUsagePlan_retries env id w
  unfold checkUsagePlan at h
  split at h
  · next heq => cases h; rw [heq] at this; exact le_of_eq this.symm
  · next heq => cases h; rw [heq] at this; exact le_of_eq this.symm

theorem unBindEnvironment_retries {σ : Type} (env : Env σ) (a b c d e : String) (k : Unit)
    (w : World σ) (x : (Option RetryError × Unit) × World σ)
    (h : unBindEnvironment env a b c d e k w = .ret x) : w.retries ≤ x.2.retries := by
  unfold unBindEnvironment at h
  split at h <;> (cases h; exact le_refl _)

theorem checkService_retries {σ : Type} (env : Env σ) (id : String) (k : Bool) (w : World σ)
    (x : (Option RetryError × Bool) × World σ) (h : checkService env id k w = .ret x) :
    w.retries ≤ x.2.retries := by
  unfold checkService at h
  split at h <;> (cases h; exact le_refl _)

theorem listPlans_retries {σ : Type} (env : Env σ) (b id : String) (k : List (Option ApiUsagePlan))
    (w : World σ) (x : (Option RetryError × List (Option ApiUsagePlan)) × World σ)
    (h : listPlans env b id k w = .ret x) : w.retries ≤ x.2.retries := by
  unfold listPlans at h
  split at h <;> split at h <;> (cases h; exact le_refl _)

theorem attachmentRead_retries {σ : Type} (env : Env σ) (data : AttachmentData) (w : World σ)
    (key : AttachmentKey) (hk : parseAttachmentId data.Id = .ok key)
    (x : (Option GoError × AttachmentData) × World σ)
    (h : resourceTencentCloudAPIGatewayUsagePlanAttachmentRead env data w = .ret x) :
    w.retries + 1 ≤ x.2.retries := by
  unfold resourceTencentCloudAPIGatewayUsagePlanAttachmentRead at h
  rw [hk] at h
  simp only at h
  cases h1 : Retry env.readRetryTimeout (checkUsagePlan env key.usagePlanId) false w with
  | panic => rw [h1] at h; cases h
  | unfinished => rw [h1] at h; cases h
  | ret y1 =>
    obtain ⟨⟨o1, has1⟩, w1⟩ := y1
    have m1 := Retry_retries _ _ (checkUsagePlan_retries env _) _ _ _ h1
    rw [h1] at h
    simp only [Outcome.bind_ret] at h
    cases o1 with
    | some e => cases h; exact m1
    | none =>
      simp only at h
      split at h
      · cases h; exact m1
      · cases h2 : Retry env.readRetryTimeout (checkService env key.serviceId) has1 w1 with
        | panic => rw [h2] at h; cases h
        | unfinished => rw [h2] at h; cases h
        | ret y2 =>
          obtain ⟨⟨o2, has2⟩, w2⟩ := y2
          have m2 := Retry_retries _ _ (checkService_retries env _) _ _ _ h2
          rw [h2] at h
          simp only [Outcome.bind_ret] at h
          cases o2 with
          | some e => cases h; simp only at m1 m2 ⊢; omega
          | none =>
            simp only at h
            split at h
            · cases h; simp only at m1 m2 ⊢; omega
            · cases h3 : Retry env.readRetryTimeout
                  (listPlans env key.bindType key.serviceId) [] w2 with
              | panic => rw [h3] at h; cases h
              | unfinished => rw [h3] at h; cases h
              | ret y3 =>
                obtain ⟨⟨o3, plans⟩, w3⟩ := y3
                have m3 := Retry_retries _ _ (listPlans_retries env _ _) _ _ _ h3
                rw [h3] at h
                simp only [Outcome.bind_ret] at h
                cases o3 with
                | some e => cases h; simp only at m1 m2 m3 ⊢; omega
                | none =>
                  simp only at h
                  cases h4 : scanPlans key plans with
                  | panic => rw [h4] at h; cases h
                  | unfinished => rw [h4] at h; cases h
                  | ret found =>
                    rw [h4] at h
                    simp only [Outcome.bind_ret] at h
                    split at h <;> (cases h; simp only at m1 m2 m3 ⊢; omega)

theorem attachmentDelete_retries {σ : Type} (env : Env σ) (data : AttachmentData) (w : World σ)
    (key : AttachmentKey) (hk : parseAttachmentId data.Id = .ok key)
    (x : (Option GoError × AttachmentData) × World σ)
    (h : resourceTencentCloudAPIGatewayUsagePlanAttachmentDelete env data w = .ret x) :
    w.retries + 1 ≤ x.2.retries := by
  unfold resourceTencentCloudAPIGatewayUsagePlanAttachmentDelete at h
  rw [hk] at h
  simp only at h
  cases h1 : Retry env.writeRetryTimeout (unBindEnvironment env key.serviceId key.usagePlanId
      key.environment key.bindType key.apiId) () w with
  | panic => rw [h1] at h; cases h
  | unfinished => rw [h1] at h; cases h
  | ret y1 =>
    obtain ⟨⟨o1, u⟩, w1⟩ := y1
    have m1 := Retry_retries _ _ (unBindEnvironment_retries env _ _ _ _ _) _ _ _ h1
    rw [h1] at h
    simp only [Outcome.bind_ret] at h
    cases h; exact m1

/-! ## The parsing step of the attachment resource -/

theorem parseAttachmentId_error_iff (id : String) :
    (∃ err, parseAttachmentId id = .error err) ↔
      (jsonUnmarshal id = none ∨ ∃ idMap, jsonUnmarshal id = some idMap ∧
        (mapIndex idMap "usage_plan_id" = "" ∨ mapIndex idMap "service_id" = "" ∨
          mapIndex idMap "environment" = "" ∨ mapIndex idMap "bind_type" = "" ∨
          (mapIndex idMap "bind_type" = "API" ∧ mapIndex idMap "api_id" = ""))) := by
  unfold parseAttachmentId
  cases h : jsonUnmarshal id with
  | none => simp
  | some idMap =>
    simp only [false_or, Option.some.injEq, exists_eq_left']
    by_cases h1 : mapIndex idMap "usage_plan_id" = "" ∨ mapIndex idMap "service_id" = "" ∨
        mapIndex idMap "environment" = "" ∨ mapIndex idMap "bind_type" = ""
    · rw [if_pos h1]
      constructor
      · intro _; tauto
      · intro _; exact ⟨_, rfl⟩
    · rw [if_neg h1]
      by_cases h2 : mapIndex idMap "bind_type" = API_GATEWAY_TYPE_API ∧ mapIndex idMap "api_id" = ""
      · rw [if_pos h2]
        constructor
        · intro _; tauto
        · intro _; exact ⟨_, rfl⟩
      · rw [if_neg h2]
        constructor
        · rintro ⟨err, he⟩; cases he
        · intro h3; exfalso; tauto

theorem parseAttachmentId_ok_of {id : String} {idMap : List (String × String)}
    (h : jsonUnmarshal id = some idMap)
    (h1 : mapIndex idMap "usage_plan_id" ≠ "") (h2 : mapIndex idMap "service_id" ≠ "")
    (h3 : mapIndex idMap "environment" ≠ "") (h4 : mapIndex idMap "bind_type" ≠ "")
    (h5 : mapIndex idMap "bind_type" = "API" → mapIndex idMap "api_id" ≠ "") :
    parseAttachmentId id = .ok
      { usagePlanId := mapIndex idMap "usage_plan_id", serviceId := mapIndex idMap "service_id",
        environment := mapIndex idMap "environment", bindType := mapIndex idMap "bind_type",
        apiId := mapIndex idMap "api_id" } := by
  unfold parseAttachmentId
  rw [h]
  simp only
  rw [if_neg (by tauto), if_neg (by tauto)]

theorem attachmentRead_of_parse_error {σ : Type} (env : Env σ) (data : AttachmentData)
    (w : World σ) (err : GoError) (h : parseAttachmentId data.Id = .error err) :
    resourceTencentCloudAPIGatewayUsagePlanAttachmentRead env data w
      = .ret ((some err, data), w) := by
  unfold resourceTencentCloudAPIGatewayUsagePlanAttachmentRead
  rw [h]

theorem attachmentDelete_of_parse_error {σ : Type} (env : Env σ) (data : AttachmentData)
    (w : World σ) (err : GoError) (h : parseAttachmentId data.Id = .error err) :
    resourceTencentCloudAPIGatewayUsagePlanAttachmentDelete env data w
      = .ret ((some err, data), w) := by
  unfold resourceTencentCloudAPIGatewayUsagePlanAttachmentDelete
  rw [h]

/-- C4: for every identifier that is malformed or incomplete (it does not
decode into a map of strings, or one of `usage_plan_id`, `service_id`,
`environment`, `bind_type` is missing or empty, or `bind_type` is `API` while
`api_id` is missing or empty) Read and Delete each return an error and leave
the world (no remote call, no retry) and the resource data as they were; and
for every identifier that decodes with those four fields non-empty (and
`api_id` non-empty when `bind_type` is `API`) a run of Read or Delete that
returns has entered `resource.Retry`, so it did not end at the parsing step. -/
theorem attachment_parsing_step {σ : Type} (env : Env σ) (data : AttachmentData) (w : World σ) :
    ((jsonUnmarshal data.Id = none ∨ ∃ idMap, jsonUnmarshal data.Id = some idMap ∧
        (mapIndex idMap "usage_plan_id" = "" ∨ mapIndex idMap "service_id" = "" ∨
          mapIndex idMap "environment" = "" ∨ mapIndex idMap "bind_type" = "" ∨
          (mapIndex idMap "bind_type" = "API" ∧ mapIndex idMap "api_id" = ""))) →
      ∃ err,
        resourceTencentCloudAPIGatewayUsagePlanAttachmentRead env data w
          = .ret ((some err, data), w) ∧
        resourceTencentCloudAPIGatewayUsagePlanAttachmentDelete env data w
          = .ret ((some err, data), w)) ∧
    (∀ idMap, jsonUnmarshal data.Id = some idMap →
      mapIndex idMap "usage_plan_id" ≠ "" → mapIndex idMap "service_id" ≠ "" →
      mapIndex idMap "environment" ≠ "" → mapIndex idMap "bind_type" ≠ "" →
      (mapIndex idMap "bind_type" = "API" → mapIndex idMap "api_id" ≠ "") →
      (∀ x, resourceTencentCloudAPIGatewayUsagePlanAttachmentRead env data w = .ret x →
        w.retries + 1 ≤ x.2.retries) ∧
      (∀ x, resourceTencentCloudAPIGatewayUsagePlanAttachmentDelete env data w = .ret x →
        w.retries + 1 ≤ x.2.retries)) := by
  constructor
  · intro h
    obtain ⟨err, he⟩ := (parseAttachmentId_error_iff data.Id).mpr h
    exact ⟨err, attachmentRead_of_parse_error env data w err he,
      attachmentDelete_of_parse_error env data w err he⟩
  · intro idMap h h1 h2 h3 h4 h5
    have hk := parseAttachmentId_ok_of h h1 h2 h3 h4 h5
    exact ⟨fun x hx => attachmentRead_retries env data w _ hk x hx,
      fun x hx => attachmentDelete_retries env data w _ hk x hx⟩

/-! ## The binding invariant -/

/-- C2: attachment Create called with `bind_type = "API"` and `api_id = ""`
returns an error and leaves the world as it was (no remote call is logged and
no `resource.Retry` was entered) and the resource data, the identifier
included, as they were. -/
theorem attachmentCreate_api_requires_api_id {σ : Type} (env : Env σ) (data : AttachmentData)
    (w : World σ) (hb : data.bind_type = "API") (ha : data.api_id = "") :
    resourceTencentCloudAPIGatewayUsagePlanAttachmentCreate env data w
      = .ret ((some (GoError.errorf
          "parameter `api_ids` is required when `bind_type` is `API`"), data), w) := by
  unfold resourceTencentCloudAPIGatewayUsagePlanAttachmentCreate
  simp only [hb, ha, and_self, if_true]

/-- The witness of C2: the example attachment with `bind_type = "API"` and no
`api_id`, against the example service. -/
theorem attachmentCreate_api_requires_api_id_witness :
    resourceTencentCloudAPIGatewayUsagePlanAttachmentCreate (exampleEnv exampleFixture)
        { exampleAttachment with bind_type := "API" } exampleWorld
      = .ret ((some (GoError.errorf
          "parameter `api_ids` is required when `bind_type` is `API`"),
          { exampleAttachment with bind_type := "API" }), exampleWorld) :=
  attachmentCreate_api_requires_api_id (exampleEnv exampleFixture)
    { exampleAttachment with bind_type := "API" } exampleWorld rfl rfl

theorem attachmentRead_Id {σ : Type} (env : Env σ) (data : AttachmentData) (w : World σ)
    (x : (Option GoError × AttachmentData) × World σ)
    (h : resourceTencentCloudAPIGatewayUsagePlanAttachmentRead env data w = .ret x) :
    x.1.2.Id = data.Id ∨ x.1.2.Id = "" := by
  unfold resourceTencentCloudAPIGatewayUsagePlanAttachmentRead at h
  split at h
  · cases h; exact Or.inl rfl
  · next key hk =>
    cases h1 : Retry env.readRetryTimeout (checkUsagePlan env key.usagePlanId) false w with
    | panic => rw [h1] at h; cases h
    | unfinished => rw [h1] at h; cases h
    | ret y1 =>
      obtain ⟨⟨o1, has1⟩, w1⟩ := y1
      rw [h1] at h
      simp only [Outcome.bind_ret] at h
      cases o1 with
      | some e => cases h; exact Or.inl rfl
      | none =>
        simp only at h
        split at h
        · cases h; exact Or.inr rfl
        · cases h2 : Retry env.readRetryTimeout (checkService env key.serviceId) has1 w1 with
          | panic => rw [h2] at h; cases h
          | unfinished => rw [h2] at h; cases h
          | ret y2 =>
            obtain ⟨⟨o2, has2⟩, w2⟩ := y2
            rw [h2] at h
            simp only [Outcome.bind_ret] at h
            cases o2 with
            | some e => cases h; exact Or.inl rfl
            | none =>
              simp only at h
              split at h
              · cases h; exact Or.inr rfl
              · cases h3 : Retry env.readRetryTimeout
                    (listPlans env key.bindType key.serviceId) [] w2 with
                | panic => rw [h3] at h; cases h
                | unfinished => rw [h3] at h; cases h
                | ret y3 =>
                  obtain ⟨⟨o3, plans⟩, w3⟩ := y3
                  rw [h3] at h
                  simp only [Outcome.bind_ret] at h
                  cases o3 with
                  | some e => cases h; exact Or.inl rfl
                  | none =>
                    simp only at h
                    cases h4 : scanPlans key plans with
                    | panic => rw [h4] at h; cases h
                    | unfinished => rw [h4] at h; cases h
                    | ret found =>
                      rw [h4] at h
                      simp only [Outcome.bind_ret] at h
                      split at h
                      · cases h; exact Or.inl rfl
                      · cases h; exact Or.inr rfl

theorem attachmentCreate_Id {σ : Type} (env : Env σ) (data : AttachmentData) (w : World σ)
    (x : (Option GoError × AttachmentData) × World σ)
    (h : resourceTencentCloudAPIGatewayUsagePlanAttachmentCreate env data w = .ret x) :
    x.1.2.Id = data.Id ∨ x.1.2.Id = "" ∨
      (x.1.2.Id = attachmentToken data.usage_plan_id data.service_id data.environment
          data.bind_type data.api_id ∧
        ¬ (data.bind_type = "API" ∧ data.api_id = "")) := by
  unfold resourceTencentCloudAPIGatewayUsagePlanAttachmentCreate at h
  simp only at h
  split at h
  · cases h; exact Or.inl rfl
  · next hcheck =>
    cases h1 : Retry env.readRetryTimeout (checkUsagePlan env data.usage_plan_id) false w with
    | panic => rw [h1] at h; cases h
    | unfinished => rw [h1] at h; cases h
    | ret y1 =>
      obtain ⟨⟨o1, has1⟩, w1⟩ := y1
      rw [h1] at h
      simp only [Outcome.bind_ret] at h
      cases o1 with
      | some e => cases h; exact Or.inl rfl
      | none =>
        simp only at h
        split at h
        · cases h; exact Or.inl rfl
        · cases h2 : Retry env.readRetryTimeout (checkService env data.service_id) has1 w1 with
          | panic => rw [h2] at h; cases h
          | unfinished => rw [h2] at h; cases h
          | ret y2 =>
            obtain ⟨⟨o2, has2⟩, w2⟩ := y2
            rw [h2] at h
            simp only [Outcome.bind_ret] at h
            cases o2 with
            | some e => cases h; exact Or.inl rfl
            | none =>
              simp only at h
              split at h
              · cases h; exact Or.inl rfl
              · cases h3 : Retry env.writeRetryTimeout (bindEnvironment env data.service_id
                    data.usage_plan_id data.environment data.bind_type data.api_id) () w2 with
                | panic => rw [h3] at h; cases h
                | unfinished => rw [h3] at h; cases h
                | ret y3 =>
                  obtain ⟨⟨o3, u⟩, w3⟩ := y3
                  rw [h3] at h
                  simp only [Outcome.bind_ret] at h
                  cases o3 with
                  | some e => cases h; exact Or.inl rfl
                  | none =>
                    simp only at h
                    rcases attachmentRead_Id env _ w3 x h with hid | hid
                    · exact Or.inr (Or.inr ⟨hid, hcheck⟩)
                    · exact Or.inr (Or.inl hid)

theorem parseAttachmentId_token (u s e b a : String) (hu : u ≠ "") (hs : s ≠ "") (he : e ≠ "")
    (hb : b ≠ "") (ha : b = "API" → a ≠ "") :
    parseAttachmentId (attachmentToken u s e b a)
      = .ok { usagePlanId := u, serviceId := s, environment := e, bindType := b, apiId := a } := by
  obtain ⟨h1, h2, h3, h4, h5⟩ := mapIndex_attachmentToken u s e b a
  have := parseAttachmentId_ok_of (jsonUnmarshal_attachmentToken u s e b a) (by rwa [h1])
    (by rwa [h2]) (by rwa [h3]) (by rwa [h4]) (by rw [h4, h5]; exact ha)
  rw [this, h1, h2, h3, h4, h5]

/-- The counterexample to C3: against the example service, in which the plan
is bound to the whole service in `test`, Create with `bind_type = "SERVICE"`
and the non-empty `api_id = "api-1"` binds and returns no error, the token it
leaves as the identifier carries `api_id = "api-1"`, and Read and Delete of
that token return no error either. -/
theorem attachment_service_api_id_counterexample :
    resourceTencentCloudAPIGatewayUsagePlanAttachmentCreate
        (exampleEnv { exampleFixture with
          serviceBindings := ([some { UsagePlanId := some "usagePlan-gyeafpab",
                                      Environment := some "test", ApiId := none }], none) })
        { exampleAttachment with api_id := "api-1" } exampleWorld
      = .ret ((none,
          { exampleAttachment with
            api_id := "api-1"
            Id := attachmentToken "usagePlan-gyeafpab" "service-pkegyqmc" "test" "SERVICE"
              "api-1" }),
          { remote := (),
            calls := [Call.DescribeUsagePlan "usagePlan-gyeafpab",
              Call.DescribeService "service-pkegyqmc",
              Call.BindEnvironment "service-pkegyqmc" "usagePlan-gyeafpab" "test" "SERVICE"
                "api-1",
              Call.DescribeUsagePlan "usagePlan-gyeafpab",
              Call.DescribeService "service-pkegyqmc",
              Call.DescribeServiceUsagePlan "service-pkegyqmc"],
            retries := 6 }) ∧
    (parseAttachmentId
        (attachmentToken "usagePlan-gyeafpab" "service-pkegyqmc" "test" "SERVICE" "api-1")
      = .ok { usagePlanId := "usagePlan-gyeafpab", serviceId := "service-pkegyqmc",
              environment := "test", bindType := "SERVICE", apiId := "api-1" }) ∧
    (resourceTencentCloudAPIGatewayUsagePlanAttachmentRead
        (exampleEnv { exampleFixture with
          serviceBindings := ([some { UsagePlanId := some "usagePlan-gyeafpab",
                                      Environment := some "test", ApiId := none }], none) })
        { exampleAttachment with
          Id := attachmentToken "usagePlan-gyeafpab" "service-pkegyqmc" "test" "SERVICE"
            "api-1" } exampleWorld
      = .ret ((none,
          { exampleAttachment with
            api_id := "api-1"
            Id := attachmentToken "usagePlan-gyeafpab" "service-pkegyqmc" "test" "SERVICE"
              "api-1" }),
          { remote := (),
            calls := [Call.DescribeUsagePlan "usagePlan-gyeafpab",
              Call.DescribeService "service-pkegyqmc",
              Call.DescribeServiceUsagePlan "service-pkegyqmc"],
            retries := 3 })) ∧
    (resourceTencentCloudAPIGatewayUsagePlanAttachmentDelete (exampleEnv exampleFixture)
        { exampleAttachment with
          Id := attachmentToken "usagePlan-gyeafpab" "service-pkegyqmc" "test" "SERVICE"
            "api-1" } exampleWorld
      = .ret ((none,
          { exampleAttachment with
            Id := attachmentToken "usagePlan-gyeafpab" "service-pkegyqmc" "test" "SERVICE"
              "api-1" }),
          { remote := (),
            calls := [Call.UnBindEnvironment "service-pkegyqmc" "usagePlan-gyeafpab" "test"
              "SERVICE" "api-1"],
            retries := 1 })) := by
  refine ⟨?_, ?_, ?_, ?_⟩
  · set_option maxRecDepth 1000000 in decide
  · exact parseAttachmentId_token _ _ _ _ _ (by decide) (by decide) (by decide) (by decide)
      (fun h => absurd h (by decide))
  · set_option maxRecDepth 1000000 in decide
  · set_option maxRecDepth 1000000 in decide

/-- C3, as amended: the single-API half of the binding invariant is enforced
at both sites. Create rejects `bind_type = "API"` with an empty `api_id`
without a remote call; Read and Delete reject an identifier that decodes to
`bind_type = "API"` with an empty or missing `api_id`; so an identifier that
Create leaves on a resource that had none is the token of its five inputs and
has a non-empty `api_id` whenever `bind_type` is `"API"`. The whole-service
half is not checked: a token with `bind_type = "SERVICE"` is parsed to its
five fields whatever its `api_id`. -/
theorem attachment_api_half_enforced {σ : Type} (env : Env σ) (data : AttachmentData)
    (w : World σ) :
    (data.bind_type = "API" → data.api_id = "" →
      resourceTencentCloudAPIGatewayUsagePlanAttachmentCreate env data w
        = .ret ((some (GoError.errorf
            "parameter `api_ids` is required when `bind_type` is `API`"), data), w)) ∧
    (∀ idMap, jsonUnmarshal data.Id = some idMap → mapIndex idMap "bind_type" = "API" →
      mapIndex idMap "api_id" = "" →
      ∃ err,
        resourceTencentCloudAPIGatewayUsagePlanAttachmentRead env data w
          = .ret ((some err, data), w) ∧
        resourceTencentCloudAPIGatewayUsagePlanAttachmentDelete env data w
          = .ret ((some err, data), w)) ∧
    (∀ x, data.Id = "" →
      resourceTencentCloudAPIGatewayUsagePlanAttachmentCreate env data w = .ret x →
      x.1.2.Id ≠ "" →
      x.1.2.Id = attachmentToken data.usage_plan_id data.service_id data.environment
          data.bind_type data.api_id ∧
        (data.bind_type = "API" → data.api_id ≠ "")) ∧
    (∀ u s e a : String, u ≠ "" → s ≠ "" → e ≠ "" →
      parseAttachmentId (attachmentToken u s e "SERVICE" a)
        = .ok { usagePlanId := u, serviceId := s, environment := e, bindType := "SERVICE",
                apiId := a }) := by
  refine ⟨?_, ?_, ?_, ?_⟩
  · intro hb ha
    unfold resourceTencentCloudAPIGatewayUsagePlanAttachmentCreate
    simp only [hb, ha, and_self, if_true]
  · intro idMap h hb ha
    obtain ⟨err, he⟩ := (parseAttachmentId_error_iff data.Id).mpr
      (Or.inr ⟨idMap, h, Or.inr (Or.inr (Or.inr (Or.inr ⟨hb, ha⟩)))⟩)
    exact ⟨err, attachmentRead_of_parse_error env data w err he,
      attachmentDelete_of_parse_error env data w err he⟩
  · intro x hid h hne
    rcases attachmentCreate_Id env data w x h with h1 | h1 | ⟨h1, h2⟩
    · exact absurd (h1.trans hid) hne
    · exact absurd h1 hne
    · exact ⟨h1, fun hb ha => h2 ⟨hb, ha⟩⟩
  · intro u s e a hu hs he
    exact parseAttachmentId_token u s e "SERVICE" a hu hs he (by decide)
      (fun h => absurd h (by decide))

/-- The witness of C3 as amended: the example attachment with `bind_type = "API"`
and no `api_id` is rejected by Create, and the token for `bind_type = "SERVICE"`
with `api_id = "api-1"` is parsed to its five fields. -/
theorem attachment_api_half_enforced_witness :
    resourceTencentCloudAPIGatewayUsagePlanAttachmentCreate (exampleEnv exampleFixture)
        { exampleAttachment with bind_type := "API" } exampleWorld
      = .ret ((some (GoError.errorf
          "parameter `api_ids` is required when `bind_type` is `API`"),
          { exampleAttachment with bind_type := "API" }), exampleWorld) ∧
    parseAttachmentId
        (attachmentToken "usagePlan-gyeafpab" "service-pkegyqmc" "test" "SERVICE" "api-1")
      = .ok { usagePlanId := "usagePlan-gyeafpab", serviceId := "service-pkegyqmc",
              environment := "test", bindType := "SERVICE", apiId := "api-1" } :=
  ⟨(attachment_api_half_enforced (exampleEnv exampleFixture)
      { exampleAttachment with bind_type := "API" } exampleWorld).1 rfl rfl,
   (attachment_api_half_enforced (exampleEnv exampleFixture)
      { exampleAttachment with bind_type := "API" } exampleWorld).2.2.2
      "usagePlan-gyeafpab" "service-pkegyqmc" "test" "api-1" (by decide) (by decide)
      (by decide)⟩

/-- The witness of C4: against the example service, Read and Delete reject the
identifier `{"usage_plan_id":"p"` (no JSON object) without touching the world,
and on the token of the example attachment every returning run of Read and
of Delete has entered `resource.Retry`. -/
theorem attachment_parsing_step_witness :
    (∃ err,
      resourceTencentCloudAPIGatewayUsagePlanAttachmentRead (exampleEnv exampleFixture)
          { exampleAttachment with Id := "\x7b\"usage_plan_id\":\"p\"" } exampleWorld
        = .ret ((some err, { exampleAttachment with Id := "\x7b\"usage_plan_id\":\"p\"" }),
            exampleWorld) ∧
      resourceTencentCloudAPIGatewayUsagePlanAttachmentDelete (exampleEnv exampleFixture)
          { exampleAttachment with Id := "\x7b\"usage_plan_id\":\"p\"" } exampleWorld
        = .ret ((some err, { exampleAttachment with Id := "\x7b\"usage_plan_id\":\"p\"" }),
            exampleWorld)) ∧
    ((∀ x, resourceTencentCloudAPIGatewayUsagePlanAttachmentRead (exampleEnv exampleFixture)
          { exampleAttachment with
            Id := attachmentToken "usagePlan-gyeafpab" "service-pkegyqmc" "test" "SERVICE" "" }
          exampleWorld = .ret x → exampleWorld.retries + 1 ≤ x.2.retries) ∧
     (∀ x, resourceTencentCloudAPIGatewayUsagePlanAttachmentDelete (exampleEnv exampleFixture)
          { exampleAttachment with
            Id := attachmentToken "usagePlan-gyeafpab" "service-pkegyqmc" "test" "SERVICE" "" }
          exampleWorld = .ret x → exampleWorld.retries + 1 ≤ x.2.retries)) :=
  ⟨(attachment_parsing_step (exampleEnv exampleFixture)
      { exampleAttachment with Id := "\x7b\"usage_plan_id\":\"p\"" } exampleWorld).1
      (Or.inl (by decide)),
   (attachment_parsing_step (exampleEnv exampleFixture)
      { exampleAttachment with
        Id := attachmentToken "usagePlan-gyeafpab" "service-pkegyqmc" "test" "SERVICE" "" }
      exampleWorld).2
      [("api_id", ""), ("bind_type", "SERVICE"), ("environment", "test"),
        ("service_id", "service-pkegyqmc"), ("usage_plan_id", "usagePlan-gyeafpab")]
      (by set_option maxRecDepth 1000000 in decide) (by decide) (by decide) (by decide)
      (by decide) (by decide)⟩

/-! ## The quota validators -/

theorem validateIntegerInRange_errors (lo hi v : Int) (k : String) :
    (validateIntegerInRange lo hi v k).2 ≠ [] ↔ ¬ (lo ≤ v ∧ v ≤ hi) := by
  unfold validateIntegerInRange
  split
  · next h => simp only [ne_eq, List.cons_ne_self, not_false_eq_true, true_iff]; omega
  · next h => simp only [ne_eq, not_true_eq_false, false_iff]; omega

/-- C5: for every integer `v` and attribute name `k`, the validator of
`max_request_num` reports at least one error exactly when `v` is not `-1` and
lies outside `[1, 99999999]`, and the validator of `max_request_num_pre_sec`
exactly when `v` is not `-1` and lies outside `[1, 2000]`
(`validateIntegerInRange` being the inclusive range check); so `-1`, `1` and
the upper bound are accepted and `0`, `-2` and the upper bound plus one are
rejected. -/
theorem quota_validators (v : Int) (k : String) :
    ((max_request_num_ValidateFunc v k).2 ≠ [] ↔ (v ≠ -1 ∧ ¬ (1 ≤ v ∧ v ≤ 99999999))) ∧
    ((max_request_num_pre_sec_ValidateFunc v k).2 ≠ [] ↔ (v ≠ -1 ∧ ¬ (1 ≤ v ∧ v ≤ 2000))) ∧
    ((max_request_num_ValidateFunc (-1) k).2 = [] ∧ (max_request_num_ValidateFunc 1 k).2 = [] ∧
      (max_request_num_ValidateFunc 99999999 k).2 = [] ∧
      (max_request_num_ValidateFunc 0 k).2 ≠ [] ∧ (max_request_num_ValidateFunc (-2) k).2 ≠ [] ∧
      (max_request_num_ValidateFunc 100000000 k).2 ≠ []) ∧
    ((max_request_num_pre_sec_ValidateFunc (-1) k).2 = [] ∧
      (max_request_num_pre_sec_ValidateFunc 1 k).2 = [] ∧
      (max_request_num_pre_sec_ValidateFunc 2000 k).2 = [] ∧
      (max_request_num_pre_sec_ValidateFunc 0 k).2 ≠ [] ∧
      (max_request_num_pre_sec_ValidateFunc (-2) k).2 ≠ [] ∧
      (max_request_num_pre_sec_ValidateFunc 2001 k).2 ≠ []) := by
  have h1 : ∀ v : Int,
      (max_request_num_ValidateFunc v k).2 ≠ [] ↔ (v ≠ -1 ∧ ¬ (1 ≤ v ∧ v ≤ 99999999)) := by
    intro v
    unfold max_request_num_ValidateFunc
    split
    · next h => simp [h]
    · next h => rw [validateIntegerInRange_errors]; tauto
  have h2 : ∀ v : Int,
      (max_request_num_pre_sec_ValidateFunc v k).2 ≠ [] ↔ (v ≠ -1 ∧ ¬ (1 ≤ v ∧ v ≤ 2000)) := by
    intro v
    unfold max_request_num_pre_sec_ValidateFunc
    split
    · next h => simp [h]
    · next h => rw [validateIntegerInRange_errors]; tauto
  refine ⟨h1 v, h2 v, ⟨?_, ?_, ?_, ?_, ?_, ?_⟩, ⟨?_, ?_, ?_, ?_, ?_, ?_⟩⟩
  · exact not_not.mp (fun h => by have := (h1 (-1)).mp h; omega)
  · exact not_not.mp (fun h => by have := (h1 1).mp h; omega)
  · exact not_not.mp (fun h => by have := (h1 99999999).mp h; omega)
  · exact (h1 0).mpr (by omega)
  · exact (h1 (-2)).mpr (by omega)
  · exact (h1 100000000).mpr (by omega)
  · exact not_not.mp (fun h => by have := (h2 (-1)).mp h; omega)
  · exact not_not.mp (fun h => by have := (h2 1).mp h; omega)
  · exact not_not.mp (fun h => by have := (h2 2000).mp h; omega)
  · exact (h2 0).mpr (by omega)
  · exact (h2 (-2)).mpr (by omega)
  · exact (h2 2001).mpr (by omega)

/-! ## The plan lookup -/

/-- C7: `DescribeUsagePlan` turns every answer of the remote describe call
into exactly one result: the error code `ResourceNotFound.InvalidUsagePlan`
gives `has = false` and no error; any other error gives `has = false` and
that error; a response without a result gives `has = false` and the "empty
response" error; a response with a result gives `has = true`, that result and
no error. So `has = true` never comes with an error. One call is logged in
each case. -/
theorem DescribeUsagePlan_classification {σ : Type} (env : Env σ) (usagePlanId : String)
    (w : World σ) :
    (∀ message, (env.DescribeUsagePlan usagePlanId w.remote).1
        = .error (GoError.sdk "ResourceNotFound.InvalidUsagePlan" message) →
      (DescribeUsagePlan env usagePlanId w).1 = (UsagePlanInfo.zero, false, none)) ∧
    (∀ err, (env.DescribeUsagePlan usagePlanId w.remote).1 = .error err →
      (∀ message, err ≠ GoError.sdk "ResourceNotFound.InvalidUsagePlan" message) →
      (DescribeUsagePlan env usagePlanId w).1 = (UsagePlanInfo.zero, false, some err)) ∧
    ((env.DescribeUsagePlan usagePlanId w.remote).1 = .ok none →
      (DescribeUsagePlan env usagePlanId w).1 = (UsagePlanInfo.zero, false,
        some (GoError.errorf "TencentCloud SDK DescribeUsagePlan return empty response"))) ∧
    (∀ result, (env.DescribeUsagePlan usagePlanId w.remote).1 = .ok (some result) →
      (DescribeUsagePlan env usagePlanId w).1 = (result, true, none)) ∧
    ((DescribeUsagePlan env usagePlanId w).1.2.1 = true →
      (DescribeUsagePlan env usagePlanId w).1.2.2 = none) ∧
    (DescribeUsagePlan env usagePlanId w).2
      = w.after (Call.DescribeUsagePlan usagePlanId)
          (env.DescribeUsagePlan usagePlanId w.remote).2 := by
  unfold DescribeUsagePlan
  generalize (env.DescribeUsagePlan usagePlanId w.remote) = r
  obtain ⟨r1, r2⟩ := r
  cases r1 with
  | error err =>
    cases err with
    | sdk code message =>
      by_cases hc : code = "ResourceNotFound.InvalidUsagePlan"
      · subst hc
        simp
      · simp [hc]
    | other message => simp
    | errorf message => simp
    | idBrokenJson => simp
  | ok result =>
    cases result with
    | none => simp
    | some result => simp

/-- The witness of C7: the four kinds of answer of the example service to the
describe call for `usagePlan-gyeafpab`. -/
theorem DescribeUsagePlan_classification_witness :
    (DescribeUsagePlan
        (exampleEnv { exampleFixture with
          plan := .error (GoError.sdk "ResourceNotFound.InvalidUsagePlan" "not found") })
        "usagePlan-gyeafpab" exampleWorld).1 = (UsagePlanInfo.zero, false, none) ∧
    (DescribeUsagePlan
        (exampleEnv { exampleFixture with plan := .error (GoError.sdk "InternalError" "busy") })
        "usagePlan-gyeafpab" exampleWorld).1
      = (UsagePlanInfo.zero, false, some (GoError.sdk "InternalError" "busy")) ∧
    (DescribeUsagePlan (exampleEnv { exampleFixture with plan := .ok none })
        "usagePlan-gyeafpab" exampleWorld).1
      = (UsagePlanInfo.zero, false,
          some (GoError.errorf "TencentCloud SDK DescribeUsagePlan return empty response")) ∧
    (DescribeUsagePlan (exampleEnv exampleFixture) "usagePlan-gyeafpab" exampleWorld).1
      = (examplePlan, true, none) :=
  ⟨(DescribeUsagePlan_classification
      (exampleEnv { exampleFixture with
        plan := .error (GoError.sdk "ResourceNotFound.InvalidUsagePlan" "not found") })
      "usagePlan-gyeafpab" exampleWorld).1 "not found" rfl,
   (DescribeUsagePlan_classification
      (exampleEnv { exampleFixture with plan := .error (GoError.sdk "InternalError" "busy") })
      "usagePlan-gyeafpab" exampleWorld).2.1 (GoError.sdk "InternalError" "busy") rfl
      (fun _ h => absurd (GoError.sdk.inj h).1 (by decide)),
   (DescribeUsagePlan_classification (exampleEnv { exampleFixture with plan := .ok none })
      "usagePlan-gyeafpab" exampleWorld).2.2.1 rfl,
   (DescribeUsagePlan_classification (exampleEnv exampleFixture)
      "usagePlan-gyeafpab" exampleWorld).2.2.2.1 examplePlan rfl⟩

/-! ## Pagination -/

theorem apiKeysRequests_succ (filters : Option (List Filter)) (offset : Int) (n : Nat) :
    apiKeysRequests filters offset (n + 1)
      = Call.DescribeApiKeysStatus { Filters := filters, Limit := 20, Offset := offset } ::
          apiKeysRequests filters (offset + 20) n := by
  unfold apiKeysRequests
  rw [List.range_succ_eq_map]
  simp only [List.map_cons, List.map_map]
  refine congrArg₂ _ (by simp) (List.map_congr_left ?_)
  intro i _
  simp only [Function.comp_apply, Nat.cast_succ]
  congr 2
  ring

theorem DescribeApiKeysStatus_loop_pages {σ : Type} (env : Env σ)
    (filters : Option (List Filter)) (full : List (List (Option ApiKey))) :
    ∀ (last : List (Option ApiKey)) (fuel : Nat) (offset : Int) (acc : List (Option ApiKey)) (w : World σ)
      (s1 : σ), (∀ p ∈ full, 20 ≤ p.length) → last.length < 20 → full.length + 1 ≤ fuel →
      answersApiKeys env filters (full ++ [last]) offset w.remote s1 →
      DescribeApiKeysStatus.loop env filters fuel offset acc w
        = .ret ((acc ++ (full.flatten ++ last), none),
            { remote := s1,
              calls := w.calls ++ apiKeysRequests filters offset (full.length + 1),
              retries := w.retries }) := by
  induction full with
  | nil =>
    intro last fuel offset acc w s1 _ hlast hfuel hans
    obtain ⟨n, rfl⟩ : ∃ n, fuel = n + 1 := ⟨fuel - 1, by simp at hfuel; omega⟩
    simp only [List.nil_append, answersApiKeys] at hans
    obtain ⟨h1, h2⟩ := hans
    unfold DescribeApiKeysStatus.loop
    simp only [h1, hlast, if_true, List.flatten_nil, List.nil_append, List.length_nil, zero_add,
      apiKeysRequests_succ, World.after, h2]
    cases last <;> simp [apiKeysRequests]
  | cons page full ih =>
    intro last fuel offset acc w s1 hfull hlast hfuel hans
    obtain ⟨n, rfl⟩ : ∃ n, fuel = n + 1 := ⟨fuel - 1, by simp at hfuel; omega⟩
    simp only [List.cons_append, answersApiKeys] at hans
    obtain ⟨h1, h2⟩ := hans
    have hp : 20 ≤ page.length := hfull page (List.mem_cons_self _ _)
    unfold DescribeApiKeysStatus.loop
    simp only [h1, if_neg (not_lt.mpr hp), if_pos (show page.length > 0 by omega)]
    rw [ih last n (offset + 20) (acc ++ page) _ s1
      (fun p hp => hfull p (List.mem_cons_of_mem _ hp)) hlast
      (by simp at hfuel ⊢; omega) h2]
    simp [World.after, apiKeysRequests_succ, List.append_assoc]

theorem environmentsRequests_succ (usagePlanId bindType : String) (offset : Int) (n : Nat) :
    environmentsRequests usagePlanId bindType offset (n + 1)
      = Call.DescribeUsagePlanEnvironments
          { UsagePlanId := usagePlanId, BindType := bindType, Limit := 20, Offset := offset } ::
          environmentsRequests usagePlanId bindType (offset + 20) n := by
  unfold environmentsRequests
  rw [List.range_succ_eq_map]
  simp only [List.map_cons, List.map_map]
  refine congrArg₂ _ (by simp) (List.map_congr_left ?_)
  intro i _
  simp only [Function.comp_apply, Nat.cast_succ]
  congr 2
  ring

theorem DescribeUsagePlanEnvironments_loop_pages {σ : Type} (env : Env σ)
    (usagePlanId bindType : String) (full : List (List (Option UsagePlanEnvironment))) :
    ∀ (last : List (Option UsagePlanEnvironment)) (fuel : Nat) (offset : Int)
      (acc : List (Option UsagePlanEnvironment)) (w : World σ) (s1 : σ),
      (∀ p ∈ full, 20 ≤ p.length) → last.length < 20 → full.length + 1 ≤ fuel →
      answersEnvironments env usagePlanId bindType (full ++ [last]) offset w.remote s1 →
      DescribeUsagePlanEnvironments.loop env usagePlanId bindType fuel offset acc w
        = .ret ((acc ++ (full.flatten ++ last), none),
            { remote := s1,
              calls := w.calls ++
                environmentsRequests usagePlanId bindType offset (full.length + 1),
              retries := w.retries }) := by
  induction full with
  | nil =>
    intro last fuel offset acc w s1 _ hlast hfuel hans
    obtain ⟨n, rfl⟩ : ∃ n, fuel = n + 1 := ⟨fuel - 1, by simp at hfuel; omega⟩
    simp only [List.nil_append, answersEnvironments] at hans
    obtain ⟨h1, h2⟩ := hans
    unfold DescribeUsagePlanEnvironments.loop
    simp only [h1, hlast, if_true, List.flatten_nil, List.nil_append, List.length_nil, zero_add,
      environmentsRequests_succ, World.after, h2]
    cases last <;> simp [environmentsRequests]
  | cons page full ih =>
    intro last fuel offset acc w s1 hfull hlast hfuel hans
    obtain ⟨n, rfl⟩ : ∃ n, fuel = n + 1 := ⟨fuel - 1, by simp at hfuel; omega⟩
    simp only [List.cons_append, answersEnvironments] at hans
    obtain ⟨h1, h2⟩ := hans
    have hp : 20 ≤ page.length := hfull page (List.mem_cons_self _ _)
    unfold DescribeUsagePlanEnvironments.loop
    simp only [h1, if_neg (not_lt.mpr hp), if_pos (show page.length > 0 by omega)]
    rw [ih last n (offset + 20) (acc ++ page) _ s1
      (fun p hp => hfull p (List.mem_cons_of_mem _ hp)) hlast
      (by simp at hfuel ⊢; omega) h2]
    simp [World.after, environmentsRequests_succ, List.append_assoc]

/-- C6: let the remote service answer the successive list calls with the
pages `p0, ..., pk`, each in a present result, where `pk` is the first page
shorter than 20. Then, the bound on the iterations being at least `k + 1`,
`DescribeApiKeysStatus` and `DescribeUsagePlanEnvironments` each return,
without an error, `p0 ++ ... ++ pk`, having logged exactly `k + 1` remote
calls (and no retry). -/
theorem pagination_result {σ : Type} (env : Env σ) (w : World σ) (fuel : Nat)
    (secretName accessKeyId : String) (keyPages : List (List (Option ApiKey))) (lastKeys : List (Option ApiKey))
    (s1 : σ) (usagePlanId bindType : String)
    (environmentPages : List (List (Option UsagePlanEnvironment)))
    (lastEnvironments : List (Option UsagePlanEnvironment)) (s2 : σ)
    (hk1 : ∀ p ∈ keyPages, 20 ≤ p.length) (hk2 : lastKeys.length < 20)
    (hk3 : keyPages.length + 1 ≤ fuel)
    (hk4 : answersApiKeys env (apiKeyFilters secretName accessKeyId) (keyPages ++ [lastKeys]) 0
      w.remote s1)
    (he1 : ∀ p ∈ environmentPages, 20 ≤ p.length) (he2 : lastEnvironments.length < 20)
    (he3 : environmentPages.length + 1 ≤ fuel)
    (he4 : answersEnvironments env usagePlanId bindType (environmentPages ++ [lastEnvironments]) 0
      w.remote s2) :
    (∃ calls : List Call, calls.length = keyPages.length + 1 ∧
      DescribeApiKeysStatus env fuel secretName accessKeyId w
        = .ret ((keyPages.flatten ++ lastKeys, none),
            { remote := s1, calls := w.calls ++ calls, retries := w.retries })) ∧
    (∃ calls : List Call, calls.length = environmentPages.length + 1 ∧
      DescribeUsagePlanEnvironments env fuel usagePlanId bindType w
        = .ret ((environmentPages.flatten ++ lastEnvironments, none),
            { remote := s2, calls := w.calls ++ calls, retries := w.retries })) := by
  constructor
  · refine ⟨apiKeysRequests (apiKeyFilters secretName accessKeyId) 0 (keyPages.length + 1),
      by simp [apiKeysRequests], ?_⟩
    unfold DescribeApiKeysStatus
    rw [DescribeApiKeysStatus_loop_pages env _ keyPages lastKeys fuel 0 [] w s1 hk1 hk2 hk3 hk4]
    simp
  · refine ⟨environmentsRequests usagePlanId bindType 0 (environmentPages.length + 1),
      by simp [environmentsRequests], ?_⟩
    unfold DescribeUsagePlanEnvironments
    rw [DescribeUsagePlanEnvironments_loop_pages env _ _ environmentPages lastEnvironments fuel 0
      [] w s2 he1 he2 he3 he4]
    simp

/-- The witness of C6: the example service holding 47 keys answers with pages
of 20, 20 and 7 keys, and `DescribeApiKeysStatus` returns the 47 keys after 3
calls; holding 40 bindings it answers with pages of 20, 20 and 0 bindings,
and `DescribeUsagePlanEnvironments` returns the 40 bindings after 3 calls. -/
theorem pagination_result_witness :
    ((∃ calls : List Call, calls.length = 3 ∧
      DescribeApiKeysStatus
          (exampleEnv { exampleFixture with
            keys := exampleKeys 47, serviceEnvironments := exampleEnvironments 40 })
          3 "" "" exampleWorld
        = .ret (([(exampleKeys 47).take 20, ((exampleKeys 47).drop 20).take 20].flatten ++
              (exampleKeys 47).drop 40, none),
            { remote := (), calls := exampleWorld.calls ++ calls,
              retries := exampleWorld.retries })) ∧
    (∃ calls : List Call, calls.length = 3 ∧
      DescribeUsagePlanEnvironments
          (exampleEnv { exampleFixture with
            keys := exampleKeys 47, serviceEnvironments := exampleEnvironments 40 })
          3 "usagePlan-gyeafpab" "SERVICE" exampleWorld
        = .ret (([(exampleEnvironments 40).take 20,
                ((exampleEnvironments 40).drop 20).take 20].flatten ++ [], none),
            { remote := (), calls := exampleWorld.calls ++ calls,
              retries := exampleWorld.retries }))) ∧
    ([(exampleKeys 47).take 20, ((exampleKeys 47).drop 20).take 20].flatten ++
        (exampleKeys 47).drop 40 = exampleKeys 47 ∧ (exampleKeys 47).length = 47) ∧
    ([(exampleEnvironments 40).take 20, ((exampleEnvironments 40).drop 20).take 20].flatten ++ []
        = exampleEnvironments 40 ∧ (exampleEnvironments 40).length = 40) :=
  ⟨pagination_result
      (exampleEnv { exampleFixture with
        keys := exampleKeys 47, serviceEnvironments := exampleEnvironments 40 })
      exampleWorld 3 "" "" [(exampleKeys 47).take 20, ((exampleKeys 47).drop 20).take 20]
      ((exampleKeys 47).drop 40) () "usagePlan-gyeafpab" "SERVICE"
      [(exampleEnvironments 40).take 20, ((exampleEnvironments 40).drop 20).take 20] [] ()
      (by decide) (by decide) (by decide) ⟨rfl, rfl, rfl, rfl⟩
      (by decide) (by decide) (by decide) ⟨rfl, rfl, rfl, rfl⟩,
    by decide, by decide⟩

/-! ## The usage plan resource: absent plans and partial failure -/

theorem Retry_of_first_success {σ κ : Type} (t : Nat)
    (f : κ → World σ → Outcome ((Option RetryError × κ) × World σ)) (k k1 : κ)
    (w w1 : World σ) (h : f k { w with retries := w.retries + 1 } = .ret ((none, k1), w1)) :
    Retry t f k w = .ret ((none, k1), w1) := by
  unfold Retry
  cases t <;> (unfold Retry.attempts; rw [h])

/-- C8: usage plan Read on an absent plan. Whenever the lookup (the
`resource.Retry` around `DescribeUsagePlan`) ends without an error and with
`has = false`, Read returns no error, sets the identifier to the empty string
and nothing else, and makes no further call; in particular, when the remote
service answers the describe call with the error code
`ResourceNotFound.InvalidUsagePlan`, Read does so after that single call. -/
theorem usagePlanRead_absent {σ : Type} (env : Env σ) (fuel : Nat) (data : UsagePlanData)
    (w : World σ) :
    (∀ info w1,
      Retry env.readRetryTimeout (describeUsagePlan env data.Id) (UsagePlanInfo.zero, false) w
        = .ret ((none, (info, false)), w1) →
      resourceTencentCloudAPIGatewayUsagePlanRead env fuel data w
        = .ret ((none, { data with Id := "" }), w1)) ∧
    (∀ message,
      (env.DescribeUsagePlan data.Id w.remote).1
        = .error (GoError.sdk "ResourceNotFound.InvalidUsagePlan" message) →
      resourceTencentCloudAPIGatewayUsagePlanRead env fuel data w
        = .ret ((none, { data with Id := "" }),
            { remote := (env.DescribeUsagePlan data.Id w.remote).2,
              calls := w.calls ++ [Call.DescribeUsagePlan data.Id],
              retries := w.retries + 1 })) := by
  have key : ∀ info w1,
      Retry env.readRetryTimeout (describeUsagePlan env data.Id) (UsagePlanInfo.zero, false) w
        = .ret ((none, (info, false)), w1) →
      resourceTencentCloudAPIGatewayUsagePlanRead env fuel data w
        = .ret ((none, { data with Id := "" }), w1) := by
    intro info w1 h
    unfold resourceTencentCloudAPIGatewayUsagePlanRead
    simp only [h, Outcome.bind_ret, if_true]
  refine ⟨key, ?_⟩
  intro message h
  apply key UsagePlanInfo.zero
  apply Retry_of_first_success
  unfold describeUsagePlan DescribeUsagePlan
  simp only [h, if_true]
  rfl

/-- The witness of C8: the example service answers the describe call with
`ResourceNotFound.InvalidUsagePlan`; Read of the plan `usagePlan-gyeafpab`
clears the identifier after one call. -/
theorem usagePlanRead_absent_witness :
    resourceTencentCloudAPIGatewayUsagePlanRead
        (exampleEnv { exampleFixture with
          plan := .error (GoError.sdk "ResourceNotFound.InvalidUsagePlan" "not found") })
        2 exampleUsagePlan exampleWorld
      = .ret ((none, { exampleUsagePlan with Id := "" }),
          { remote := (), calls := [Call.DescribeUsagePlan "usagePlan-gyeafpab"],
            retries := 1 }) :=
  (usagePlanRead_absent
    (exampleEnv { exampleFixture with
      plan := .error (GoError.sdk "ResourceNotFound.InvalidUsagePlan" "not found") })
    2 exampleUsagePlan exampleWorld).2 "not found" rfl

/-- C10: partial failure of usage plan Create. If the create step (the
`resource.Retry` around `CreateUsagePlan`) ends with the identifier `X` and the
existence poll that follows ends in an error, Create returns that error and
the identifier of the resource is `X`, all other attributes being as before;
if the create step itself ends in an error, Create returns it and leaves the
resource data, the identifier included, as they were. -/
theorem usagePlanCreate_partial_failure {σ : Type} (env : Env σ) (fuel : Nat)
    (data : UsagePlanData) (w : World σ) :
    (∀ (X : String) (w1 : World σ) (err : GoError) (w2 : World σ),
      Retry env.writeRetryTimeout
          (createUsagePlan env data.usage_plan_name
            (if data.usage_plan_desc ≠ "" then some data.usage_plan_desc else none)
            data.max_request_num data.max_request_num_pre_sec) "" w
        = .ret ((none, X), w1) →
      Retry env.readRetryTimeout (waitUsagePlan env X) () w1 = .ret ((some err, ()), w2) →
      resourceTencentCloudAPIGatewayUsagePlanCreate env fuel data w
        = .ret ((some err, { data with Id := X }), w2)) ∧
    (∀ (err : GoError) (usagePlanId : String) (w1 : World σ),
      Retry env.writeRetryTimeout
          (createUsagePlan env data.usage_plan_name
            (if data.usage_plan_desc ≠ "" then some data.usage_plan_desc else none)
            data.max_request_num data.max_request_num_pre_sec) "" w
        = .ret ((some err, usagePlanId), w1) →
      resourceTencentCloudAPIGatewayUsagePlanCreate env fuel data w
        = .ret ((some err, data), w1)) := by
  constructor
  · intro X w1 err w2 h1 h2
    unfold resourceTencentCloudAPIGatewayUsagePlanCreate
    simp only [h1, h2, Outcome.bind_ret]
  · intro err usagePlanId w1 h1
    unfold resourceTencentCloudAPIGatewayUsagePlanCreate
    simp only [h1, Outcome.bind_ret]

/-- The witness of C10: the example service creates `usagePlan-gyeafpab` but
answers every describe call with `ResourceNotFound.InvalidUsagePlan`; after the
create call and four polls Create returns the "not found on server" error and
the identifier is `usagePlan-gyeafpab`. With a create call that fails, Create
returns its error and the identifier stays unset. -/
theorem usagePlanCreate_partial_failure_witness :
    resourceTencentCloudAPIGatewayUsagePlanCreate
        (exampleEnv { exampleFixture with
          plan := .error (GoError.sdk "ResourceNotFound.InvalidUsagePlan" "not found") })
        2 { exampleUsagePlan with Id := "" } exampleWorld
      = .ret ((some (GoError.errorf " usage plan  usagePlan-gyeafpab not found on server"),
            { exampleUsagePlan with Id := "usagePlan-gyeafpab" }),
          { remote := (),
            calls := [Call.CreateUsagePlan
                { UsagePlanName := "my_plan", UsagePlanDesc := some "nice plan",
                  MaxRequestNum := 100, MaxRequestNumPreSec := 10 },
              Call.DescribeUsagePlan "usagePlan-gyeafpab",
              Call.DescribeUsagePlan "usagePlan-gyeafpab",
              Call.DescribeUsagePlan "usagePlan-gyeafpab",
              Call.DescribeUsagePlan "usagePlan-gyeafpab"],
            retries := 2 }) ∧
    resourceTencentCloudAPIGatewayUsagePlanCreate
        (exampleEnv { exampleFixture with
          created := .error (GoError.sdk "LimitExceeded" "too many plans") })
        2 { exampleUsagePlan with Id := "" } exampleWorld
      = .ret ((some (GoError.sdk "LimitExceeded" "too many plans"),
            { exampleUsagePlan with Id := "" }),
          { remote := (),
            calls := [Call.CreateUsagePlan
                { UsagePlanName := "my_plan", UsagePlanDesc := some "nice plan",
                  MaxRequestNum := 100, MaxRequestNumPreSec := 10 }],
            retries := 1 }) :=
  ⟨(usagePlanCreate_partial_failure
      (exampleEnv { exampleFixture with
        plan := .error (GoError.sdk "ResourceNotFound.InvalidUsagePlan" "not found") })
      2 { exampleUsagePlan with Id := "" } exampleWorld).1 "usagePlan-gyeafpab"
      { remote := (),
        calls := [Call.CreateUsagePlan
          { UsagePlanName := "my_plan", UsagePlanDesc := some "nice plan",
            MaxRequestNum := 100, MaxRequestNumPreSec := 10 }],
        retries := 1 }
      (GoError.errorf " usage plan  usagePlan-gyeafpab not found on server") _
      (by decide) (by decide),
   (usagePlanCreate_partial_failure
      (exampleEnv { exampleFixture with
        created := .error (GoError.sdk "LimitExceeded" "too many plans") })
      2 { exampleUsagePlan with Id := "" } exampleWorld).2
      (GoError.sdk "LimitExceeded" "too many plans") "" _ (by decide)⟩

/-! ## The requests of the pagination loops -/

theorem DescribeApiKeysStatus_loop_calls {σ : Type} (env : Env σ)
    (filters : Option (List Filter)) (fuel : Nat) :
    ∀ (offset : Int) (acc : List (Option ApiKey)) (w : World σ)
      (x : (List (Option ApiKey) × Option GoError) × World σ),
      DescribeApiKeysStatus.loop env filters fuel offset acc w = .ret x →
      ∃ n, 1 ≤ n ∧ n ≤ fuel ∧ x.2.calls = w.calls ++ apiKeysRequests filters offset n := by
  induction fuel with
  | zero => intro offset acc w x h; simp [DescribeApiKeysStatus.loop] at h
  | succ fuel ih =>
    intro offset acc w x h
    have one : apiKeysRequests filters offset 1
        = [Call.DescribeApiKeysStatus { Filters := filters, Limit := 20, Offset := offset }] := by
      rw [apiKeysRequests_succ]; rfl
    unfold DescribeApiKeysStatus.loop at h
    simp only at h
    split at h
    · cases h; exact ⟨1, le_refl _, by omega, by rw [one]; rfl⟩
    · cases h; exact ⟨1, le_refl _, by omega, by rw [one]; rfl⟩
    · split at h
      · cases h; exact ⟨1, le_refl _, by omega, by rw [one]; rfl⟩
      · obtain ⟨n, h1, h2, h3⟩ := ih _ _ _ _ h
        refine ⟨n + 1, by omega, by omega, ?_⟩
        rw [h3, apiKeysRequests_succ]
        simp [World.after]

theorem DescribeUsagePlanEnvironments_loop_calls {σ : Type} (env : Env σ)
    (usagePlanId bindType : String) (fuel : Nat) :
    ∀ (offset : Int) (acc : List (Option UsagePlanEnvironment)) (w : World σ)
      (x : (List (Option UsagePlanEnvironment) × Option GoError) × World σ),
      DescribeUsagePlanEnvironments.loop env usagePlanId bindType fuel offset acc w = .ret x →
      ∃ n, 1 ≤ n ∧ n ≤ fuel ∧
        x.2.calls = w.calls ++ environmentsRequests usagePlanId bindType offset n := by
  induction fuel with
  | zero => intro offset acc w x h; simp [DescribeUsagePlanEnvironments.loop] at h
  | succ fuel ih =>
    intro offset acc w x h
    have one : environmentsRequests usagePlanId bindType offset 1
        = [Call.DescribeUsagePlanEnvironments
            { UsagePlanId := usagePlanId, BindType := bindType, Limit := 20,
              Offset := offset }] := by
      rw [environmentsRequests_succ]; rfl
    unfold DescribeUsagePlanEnvironments.loop at h
    simp only at h
    split at h
    · cases h; exact ⟨1, le_refl _, by omega, by rw [one]; rfl⟩
    · cases h; exact ⟨1, le_refl _, by omega, by rw [one]; rfl⟩
    · split at h
      · cases h; exact ⟨1, le_refl _, by omega, by rw [one]; rfl⟩
      · obtain ⟨n, h1, h2, h3⟩ := ih _ _ _ _ h
        refine ⟨n + 1, by omega, by omega, ?_⟩
        rw [h3, environmentsRequests_succ]
        simp [World.after]

theorem apiKeysRequests_eq (filters : Option (List Filter)) (n : Nat) :
    apiKeysRequests filters 0 n
      = (List.range n).map fun (k : Nat) =>
          Call.DescribeApiKeysStatus { Filters := filters, Limit := 20, Offset := 20 * (k : Int) } := by
  unfold apiKeysRequests
  simp

theorem environmentsRequests_eq (usagePlanId bindType : String) (n : Nat) :
    environmentsRequests usagePlanId bindType 0 n
      = (List.range n).map fun (k : Nat) =>
          Call.DescribeUsagePlanEnvironments
            { UsagePlanId := usagePlanId, BindType := bindType, Limit := 20,
              Offset := 20 * (k : Int) } := by
  unfold environmentsRequests
  simp

/-- C16: in every run of `DescribeApiKeysStatus` and of
`DescribeUsagePlanEnvironments` that returns (with or without an error), the
remote calls logged are `n ≥ 1` list calls, and the request of the `k`-th of
them (from 0) carries the page size 20 and the offset `20 * k`, with the same
filters, or the same plan identifier and bind type, in every call; so no
offset is requested twice. -/
theorem pagination_requests {σ : Type} (env : Env σ) (fuel : Nat)
    (secretName accessKeyId usagePlanId bindType : String) (w : World σ) :
    (∀ x, DescribeApiKeysStatus env fuel secretName accessKeyId w = .ret x →
      ∃ n, 1 ≤ n ∧
        x.2.calls = w.calls ++ (List.range n).map (fun (k : Nat) =>
          Call.DescribeApiKeysStatus
            { Filters := apiKeyFilters secretName accessKeyId, Limit := 20,
              Offset := 20 * (k : Int) }) ∧
        ((List.range n).map (fun (k : Nat) =>
          Call.DescribeApiKeysStatus
            { Filters := apiKeyFilters secretName accessKeyId, Limit := 20,
              Offset := 20 * (k : Int) })).Nodup) ∧
    (∀ x, DescribeUsagePlanEnvironments env fuel usagePlanId bindType w = .ret x →
      ∃ n, 1 ≤ n ∧
        x.2.calls = w.calls ++ (List.range n).map (fun (k : Nat) =>
          Call.DescribeUsagePlanEnvironments
            { UsagePlanId := usagePlanId, BindType := bindType, Limit := 20,
              Offset := 20 * (k : Int) }) ∧
        ((List.range n).map (fun (k : Nat) =>
          Call.DescribeUsagePlanEnvironments
            { UsagePlanId := usagePlanId, BindType := bindType, Limit := 20,
              Offset := 20 * (k : Int) })).Nodup) := by
  constructor
  · intro x h
    obtain ⟨n, h1, -, h3⟩ := DescribeApiKeysStatus_loop_calls env _ fuel 0 [] w x h
    refine ⟨n, h1, by rw [h3, apiKeysRequests_eq], ?_⟩
    refine List.Nodup.map ?_ (List.nodup_range n)
    intro a b hab
    simp only [Call.DescribeApiKeysStatus.injEq, DescribeApiKeysStatusRequest.mk.injEq,
      true_and] at hab
    omega
  · intro x h
    obtain ⟨n, h1, -, h3⟩ :=
      DescribeUsagePlanEnvironments_loop_calls env usagePlanId bindType fuel 0 [] w x h
    refine ⟨n, h1, by rw [h3, environmentsRequests_eq], ?_⟩
    refine List.Nodup.map ?_ (List.nodup_range n)
    intro a b hab
    simp only [Call.DescribeUsagePlanEnvironments.injEq,
      DescribeUsagePlanEnvironmentsRequest.mk.injEq, true_and] at hab
    omega

/-- The witness of C16: against the example service holding 47 keys the three
requests of `DescribeApiKeysStatus` carry the offsets 0, 20 and 40, and against
the example service holding 40 bindings the three requests of
`DescribeUsagePlanEnvironments` carry the offsets 0, 20 and 40; the page size
is 20 and the other fields are the same in every request. -/
theorem pagination_requests_witness :
    (∃ n, 1 ≤ n ∧
      [Call.DescribeApiKeysStatus { Filters := none, Limit := 20, Offset := 0 },
        Call.DescribeApiKeysStatus { Filters := none, Limit := 20, Offset := 20 },
        Call.DescribeApiKeysStatus { Filters := none, Limit := 20, Offset := 40 }]
        = exampleWorld.calls ++ (List.range n).map (fun (k : Nat) =>
          Call.DescribeApiKeysStatus
            { Filters := apiKeyFilters "" "", Limit := 20, Offset := 20 * (k : Int) }) ∧
      ((List.range n).map (fun (k : Nat) =>
          Call.DescribeApiKeysStatus
            { Filters := apiKeyFilters "" "", Limit := 20, Offset := 20 * (k : Int) })).Nodup) ∧
    (∃ n, 1 ≤ n ∧
      [Call.DescribeUsagePlanEnvironments
          { UsagePlanId := "usagePlan-gyeafpab", BindType := "SERVICE", Limit := 20, Offset := 0 },
        Call.DescribeUsagePlanEnvironments
          { UsagePlanId := "usagePlan-gyeafpab", BindType := "SERVICE", Limit := 20,
            Offset := 20 },
        Call.DescribeUsagePlanEnvironments
          { UsagePlanId := "usagePlan-gyeafpab", BindType := "SERVICE", Limit := 20,
            Offset := 40 }]
        = exampleWorld.calls ++ (List.range n).map (fun (k : Nat) =>
          Call.DescribeUsagePlanEnvironments
            { UsagePlanId := "usagePlan-gyeafpab", BindType := "SERVICE", Limit := 20,
              Offset := 20 * (k : Int) }) ∧
      ((List.range n).map (fun (k : Nat) =>
          Call.DescribeUsagePlanEnvironments
            { UsagePlanId := "usagePlan-gyeafpab", BindType := "SERVICE", Limit := 20,
              Offset := 20 * (k : Int) })).Nodup) :=
  ⟨(pagination_requests
      (exampleEnv { exampleFixture with
        keys := exampleKeys 47, serviceEnvironments := exampleEnvironments 40 })
      3 "" "" "usagePlan-gyeafpab" "SERVICE" exampleWorld).1
      ((exampleKeys 47, none),
        { remote := (),
          calls := [Call.DescribeApiKeysStatus { Filters := none, Limit := 20, Offset := 0 },
            Call.DescribeApiKeysStatus { Filters := none, Limit := 20, Offset := 20 },
            Call.DescribeApiKeysStatus { Filters := none, Limit := 20, Offset := 40 }],
          retries := 0 })
      (by decide),
   (pagination_requests
      (exampleEnv { exampleFixture with
        keys := exampleKeys 47, serviceEnvironments := exampleEnvironments 40 })
      3 "" "" "usagePlan-gyeafpab" "SERVICE" exampleWorld).2
      ((exampleEnvironments 40, none),
        { remote := (),
          calls := [Call.DescribeUsagePlanEnvironments
              { UsagePlanId := "usagePlan-gyeafpab", BindType := "SERVICE", Limit := 20,
                Offset := 0 },
            Call.DescribeUsagePlanEnvironments
              { UsagePlanId := "usagePlan-gyeafpab", BindType := "SERVICE", Limit := 20,
                Offset := 20 },
            Call.DescribeUsagePlanEnvironments
              { UsagePlanId := "usagePlan-gyeafpab", BindType := "SERVICE", Limit := 20,
                Offset := 40 }],
          retries := 0 })
      (by decide)⟩

/-! ## Usage plan Update -/

/-- C13: usage plan Update discards the outcome of the modify call. Whatever
`ModifyUsagePlan` returns (an error of the remote service, the "empty
response" error, or success), the retried step reports success after its first
attempt, so exactly one `ModifyUsagePlan` call is logged, and Update returns
exactly what usage plan Read returns when started in the world after that
call; the error of the modify call is only held in `inErr` and is not part of
the result. -/
theorem usagePlanUpdate_discards_modify {σ : Type} (env : Env σ) (fuel : Nat)
    (data : UsagePlanData) (w : World σ) :
    Retry env.writeRetryTimeout
        (modifyUsagePlan env data.Id data.usage_plan_name (some data.usage_plan_desc)
          data.max_request_num data.max_request_num_pre_sec) none w
      = .ret ((none,
          (ModifyUsagePlan env data.Id data.usage_plan_name (some data.usage_plan_desc)
            data.max_request_num data.max_request_num_pre_sec
            { w with retries := w.retries + 1 }).1),
          { remote := (env.ModifyUsagePlan
                { UsagePlanId := data.Id, UsagePlanName := data.usage_plan_name,
                  UsagePlanDesc := some data.usage_plan_desc,
                  MaxRequestNum := data.max_request_num,
                  MaxRequestNumPreSec := data.max_request_num_pre_sec } w.remote).2,
            calls := w.calls ++ [Call.ModifyUsagePlan
                { UsagePlanId := data.Id, UsagePlanName := data.usage_plan_name,
                  UsagePlanDesc := some data.usage_plan_desc,
                  MaxRequestNum := data.max_request_num,
                  MaxRequestNumPreSec := data.max_request_num_pre_sec }],
            retries := w.retries + 1 }) ∧
    resourceTencentCloudAPIGatewayUsagePlanUpdate env fuel data w
      = resourceTencentCloudAPIGatewayUsagePlanRead env fuel data
          { remote := (env.ModifyUsagePlan
                { UsagePlanId := data.Id, UsagePlanName := data.usage_plan_name,
                  UsagePlanDesc := some data.usage_plan_desc,
                  MaxRequestNum := data.max_request_num,
                  MaxRequestNumPreSec := data.max_request_num_pre_sec } w.remote).2,
            calls := w.calls ++ [Call.ModifyUsagePlan
                { UsagePlanId := data.Id, UsagePlanName := data.usage_plan_name,
                  UsagePlanDesc := some data.usage_plan_desc,
                  MaxRequestNum := data.max_request_num,
                  MaxRequestNumPreSec := data.max_request_num_pre_sec }],
            retries := w.retries + 1 } := by
  have hm : ∀ w0 : World σ,
      (ModifyUsagePlan env data.Id data.usage_plan_name (some data.usage_plan_desc)
        data.max_request_num data.max_request_num_pre_sec w0).2
      = { remote := (env.ModifyUsagePlan
                { UsagePlanId := data.Id, UsagePlanName := data.usage_plan_name,
                  UsagePlanDesc := some data.usage_plan_desc,
                  MaxRequestNum := data.max_request_num,
                  MaxRequestNumPreSec := data.max_request_num_pre_sec } w0.remote).2,
          calls := w0.calls ++ [Call.ModifyUsagePlan
                { UsagePlanId := data.Id, UsagePlanName := data.usage_plan_name,
                  UsagePlanDesc := some data.usage_plan_desc,
                  MaxRequestNum := data.max_request_num,
                  MaxRequestNumPreSec := data.max_request_num_pre_sec }],
          retries := w0.retries } := by
    intro w0
    unfold ModifyUsagePlan
    simp only
    split <;> rfl
  have hr : Retry env.writeRetryTimeout
        (modifyUsagePlan env data.Id data.usage_plan_name (some data.usage_plan_desc)
          data.max_request_num data.max_request_num_pre_sec) none w
      = .ret ((none,
          (ModifyUsagePlan env data.Id data.usage_plan_name (some data.usage_plan_desc)
            data.max_request_num data.max_request_num_pre_sec
            { w with retries := w.retries + 1 }).1),
          (ModifyUsagePlan env data.Id data.usage_plan_name (some data.usage_plan_desc)
            data.max_request_num data.max_request_num_pre_sec
            { w with retries := w.retries + 1 }).2) := by
    apply Retry_of_first_success
    unfold modifyUsagePlan
    rfl
  rw [hm] at hr
  refine ⟨hr, ?_⟩
  unfold resourceTencentCloudAPIGatewayUsagePlanUpdate
  simp only [hr, Outcome.bind_ret]

/-- The witness of C13: the example service rejects every modify call with
an error, and Update still returns no error, the state being that of the
Read that follows the single modify call. -/
theorem usagePlanUpdate_discards_modify_witness :
    resourceTencentCloudAPIGatewayUsagePlanUpdate
        { exampleEnv exampleFixture with
          ModifyUsagePlan := fun _ s =>
            (.error (GoError.sdk "FailedOperation" "modify failed"), s) }
        1 { exampleUsagePlan with usage_plan_name := "renamed" } exampleWorld
      = .ret ((none,
          { exampleUsagePlan with
            modify_time := "2020-08-01T00:00:00Z", create_time := "2020-08-01T00:00:00Z" }),
          { remote := (),
            calls := [Call.ModifyUsagePlan
                { UsagePlanId := "usagePlan-gyeafpab", UsagePlanName := "renamed",
                  UsagePlanDesc := some "nice plan", MaxRequestNum := 100,
                  MaxRequestNumPreSec := 10 },
              Call.DescribeUsagePlan "usagePlan-gyeafpab",
              Call.DescribeUsagePlanEnvironments
                { UsagePlanId := "usagePlan-gyeafpab", BindType := "SERVICE", Limit := 20,
                  Offset := 0 },
              Call.DescribeUsagePlanEnvironments
                { UsagePlanId := "usagePlan-gyeafpab", BindType := "API", Limit := 20,
                  Offset := 0 }],
            retries := 4 }) := by
  rw [(usagePlanUpdate_discards_modify _ 1 _ exampleWorld).2]
  decide

/-! ## The create methods of the service wrapper -/

theorem CreateApiKey_classes {σ : Type} (env : Env σ) (secretName : String) (w : World σ) :
    (∀ err, (env.CreateApiKey secretName w.remote).1 = .error err →
      CreateApiKey env secretName w
        = .ret (("", some err),
            w.after (Call.CreateApiKey secretName) (env.CreateApiKey secretName w.remote).2)) ∧
    ((env.CreateApiKey secretName w.remote).1 = .ok none →
      CreateApiKey env secretName w
        = .ret (("", some (GoError.errorf
            "TencentCloud SDK CreateApiKey return empty AccessKeyId")),
            w.after (Call.CreateApiKey secretName) (env.CreateApiKey secretName w.remote).2)) ∧
    (∀ result, (env.CreateApiKey secretName w.remote).1 = .ok (some result) →
      result.AccessKeyId = none →
      CreateApiKey env secretName w
        = .ret (("", some (GoError.errorf
            "TencentCloud SDK CreateApiKey return empty AccessKeyId")),
            w.after (Call.CreateApiKey secretName) (env.CreateApiKey secretName w.remote).2)) ∧
    (∀ result accessKeyId, (env.CreateApiKey secretName w.remote).1 = .ok (some result) →
      result.AccessKeyId = some accessKeyId →
      CreateApiKey env secretName w
        = .ret ((accessKeyId, none),
            w.after (Call.CreateApiKey secretName) (env.CreateApiKey secretName w.remote).2)) := by
  unfold CreateApiKey
  refine ⟨?_, ?_, ?_, ?_⟩
  · intro err h; simp only [h]
  · intro h; simp only [h]
  · intro result h h2; simp only [h, h2]
  · intro result accessKeyId h h2; simp only [h, h2]

theorem CreateUsagePlan_classes {σ : Type} (env : Env σ) (usagePlanName : String)
    (usagePlanDesc : Option String) (maxRequestNum maxRequestNumPreSec : Int) (w : World σ) :
    (∀ err, (env.CreateUsagePlan
          { UsagePlanName := usagePlanName, UsagePlanDesc := usagePlanDesc,
            MaxRequestNum := maxRequestNum, MaxRequestNumPreSec := maxRequestNumPreSec }
          w.remote).1 = .error err →
      ∃ w1, CreateUsagePlan env usagePlanName usagePlanDesc maxRequestNum maxRequestNumPreSec w
        = .ret (("", some err), w1)) ∧
    ((env.CreateUsagePlan
          { UsagePlanName := usagePlanName, UsagePlanDesc := usagePlanDesc,
            MaxRequestNum := maxRequestNum, MaxRequestNumPreSec := maxRequestNumPreSec }
          w.remote).1 = .ok none →
      ∃ w1, CreateUsagePlan env usagePlanName usagePlanDesc maxRequestNum maxRequestNumPreSec w
        = .ret (("", some (GoError.errorf
            "TencentCloud SDK CreateUsagePlan return empty response")), w1)) ∧
    (∀ result usagePlanId, (env.CreateUsagePlan
          { UsagePlanName := usagePlanName, UsagePlanDesc := usagePlanDesc,
            MaxRequestNum := maxRequestNum, MaxRequestNumPreSec := maxRequestNumPreSec }
          w.remote).1 = .ok (some result) →
      result.UsagePlanId = some usagePlanId →
      ∃ w1, CreateUsagePlan env usagePlanName usagePlanDesc maxRequestNum maxRequestNumPreSec w
        = .ret ((usagePlanId, none), w1)) := by
  unfold CreateUsagePlan
  refine ⟨?_, ?_, ?_⟩
  · intro err h; simp only [h]; exact ⟨_, rfl⟩
  · intro h; simp only [h]; exact ⟨_, rfl⟩
  · intro result usagePlanId h h2; simp only [h, h2]; exact ⟨_, rfl⟩

/-- C15, at the answers that refute it: when the remote create call succeeds
with a present result whose identifier is absent, `CreateUsagePlan`
dereferences the nil pointer and panics, returning neither an error nor an
identifier, whereas `CreateApiKey` returns its "empty AccessKeyId" error on
the corresponding answer. -/
theorem CreateUsagePlan_absent_identifier {σ : Type} (env : Env σ) (usagePlanName : String)
    (usagePlanDesc : Option String) (maxRequestNum maxRequestNumPreSec : Int)
    (secretName : String) (w : World σ) (result : UsagePlanInfo) (key : ApiKey)
    (h : (env.CreateUsagePlan
          { UsagePlanName := usagePlanName, UsagePlanDesc := usagePlanDesc,
            MaxRequestNum := maxRequestNum, MaxRequestNumPreSec := maxRequestNumPreSec }
          w.remote).1 = .ok (some result))
    (hid : result.UsagePlanId = none)
    (hk : (env.CreateApiKey secretName w.remote).1 = .ok (some key))
    (hkid : key.AccessKeyId = none) :
    CreateUsagePlan env usagePlanName usagePlanDesc maxRequestNum maxRequestNumPreSec w
      = .panic ∧
    CreateApiKey env secretName w
      = .ret (("", some (GoError.errorf
          "TencentCloud SDK CreateApiKey return empty AccessKeyId")),
          w.after (Call.CreateApiKey secretName) (env.CreateApiKey secretName w.remote).2) := by
  constructor
  · unfold CreateUsagePlan
    simp only [h, hid]
  · exact (CreateApiKey_classes env secretName w).2.2.1 key hk hkid

/-- The failing input of C15: the example service answers `CreateUsagePlan`
with a result that has no `UsagePlanId`, and `CreateApiKey` with a result that
has no `AccessKeyId`; the first method panics, the second one returns its
error. -/
theorem CreateUsagePlan_absent_identifier_witness :
    CreateUsagePlan
        { exampleEnv { exampleFixture with created := .ok (some exampleResultWithoutId) } with
          CreateApiKey := fun _ s => (.ok (some { AccessKeyId := none, SecretName := none }), s) }
        "my_plan" (some "nice plan") 100 10 exampleWorld
      = .panic ∧
    CreateApiKey
        { exampleEnv { exampleFixture with created := .ok (some exampleResultWithoutId) } with
          CreateApiKey := fun _ s => (.ok (some { AccessKeyId := none, SecretName := none }), s) }
        "my_key" exampleWorld
      = .ret (("", some (GoError.errorf
          "TencentCloud SDK CreateApiKey return empty AccessKeyId")),
          { remote := (), calls := [Call.CreateApiKey "my_key"], retries := 0 }) :=
  CreateUsagePlan_absent_identifier
    { exampleEnv { exampleFixture with created := .ok (some exampleResultWithoutId) } with
      CreateApiKey := fun _ s => (.ok (some { AccessKeyId := none, SecretName := none }), s) }
    "my_plan" (some "nice plan") 100 10 "my_key" exampleWorld exampleResultWithoutId
    { AccessKeyId := none, SecretName := none } rfl rfl rfl rfl

/-! ## The documented import identifier -/

theorem jsonUnmarshal_documentedImportId : jsonUnmarshal documentedImportId = none := by
  set_option maxRecDepth 1000000 in decide

theorem jsonUnmarshal_documentedImportIdWithoutBracket :
    jsonUnmarshal documentedImportIdWithoutBracket
      = some [("api_id", ""), ("bind_type", "SERVICE"), ("environment", "test"),
          ("service_id", "service-pkegyqmc"), ("usage_plan_id", "usagePlan-26t0l0w3")] := by
  set_option maxRecDepth 1000000 in decide

/-- C11, at the input that refutes it: the identifier printed in the `Import`
section of the documentation ends with a square bracket after the JSON
object, so `json.Unmarshal` returns an error on it and Read, for every
resource holding it as its identifier, returns the "id is broken" error
without a remote call and without a change of the resource. The same text
without the bracket is parsed to `usage_plan_id = "usagePlan-26t0l0w3"`,
`service_id = "service-pkegyqmc"`, `environment = "test"`,
`bind_type = "SERVICE"` and `api_id = ""`. -/
theorem documentedImportId_rejected {σ : Type} (env : Env σ) (data : AttachmentData)
    (w : World σ) :
    jsonUnmarshal documentedImportId = none ∧
    parseAttachmentId documentedImportId = .error GoError.idBrokenJson ∧
    resourceTencentCloudAPIGatewayUsagePlanAttachmentRead env
        { data with Id := documentedImportId } w
      = .ret ((some GoError.idBrokenJson, { data with Id := documentedImportId }), w) ∧
    documentedImportId.data = documentedImportIdWithoutBracket.data ++ [']'] ∧
    parseAttachmentId documentedImportIdWithoutBracket
      = .ok { usagePlanId := "usagePlan-26t0l0w3", serviceId := "service-pkegyqmc",
              environment := "test", bindType := "SERVICE", apiId := "" } := by
  have hp : parseAttachmentId documentedImportId = .error GoError.idBrokenJson := by
    unfold parseAttachmentId
    rw [jsonUnmarshal_documentedImportId]
  refine ⟨jsonUnmarshal_documentedImportId, hp, ?_, by decide, ?_⟩
  · exact attachmentRead_of_parse_error env _ w _ hp
  · have := parseAttachmentId_ok_of jsonUnmarshal_documentedImportIdWithoutBracket
      (by decide) (by decide) (by decide) (by decide) (fun h => absurd h (by decide))
    rw [this]
    have e1 : mapIndex [("api_id", ""), ("bind_type", "SERVICE"), ("environment", "test"),
        ("service_id", "service-pkegyqmc"), ("usage_plan_id", "usagePlan-26t0l0w3")]
        "usage_plan_id" = "usagePlan-26t0l0w3" := by decide
    have e2 : mapIndex [("api_id", ""), ("bind_type", "SERVICE"), ("environment", "test"),
        ("service_id", "service-pkegyqmc"), ("usage_plan_id", "usagePlan-26t0l0w3")]
        "service_id" = "service-pkegyqmc" := by decide
    have e3 : mapIndex [("api_id", ""), ("bind_type", "SERVICE"), ("environment", "test"),
        ("service_id", "service-pkegyqmc"), ("usage_plan_id", "usagePlan-26t0l0w3")]
        "environment" = "test" := by decide
    have e4 : mapIndex [("api_id", ""), ("bind_type", "SERVICE"), ("environment", "test"),
        ("service_id", "service-pkegyqmc"), ("usage_plan_id", "usagePlan-26t0l0w3")]
        "bind_type" = "SERVICE" := by decide
    have e5 : mapIndex [("api_id", ""), ("bind_type", "SERVICE"), ("environment", "test"),
        ("service_id", "service-pkegyqmc"), ("usage_plan_id", "usagePlan-26t0l0w3")]
        "api_id" = "" := by decide
    rw [e1, e2, e3, e4, e5]

/-! ## The match scan of attachment Read -/

theorem Retry.attempts_success {σ κ : Type}
    (f : κ → World σ → Outcome ((Option RetryError × κ) × World σ)) (P : κ → World σ → Prop)
    (hf : ∀ k w k1 w1, f k w = .ret ((none, k1), w1) → P k1 w1) :
    ∀ (t : Nat) (k : κ) (w : World σ) (k1 : κ) (w1 : World σ),
      Retry.attempts f t k w = .ret ((none, k1), w1) → P k1 w1 := by
  intro t
  induction t with
  | zero =>
    intro k w k1 w1 h
    unfold Retry.attempts at h
    split at h
    · next kk ww heq => cases h; exact hf _ _ _ _ heq
    · cases h
    · cases h
    · cases h
  | succ t ih =>
    intro k w k1 w1 h
    unfold Retry.attempts at h
    split at h
    · next kk ww heq => cases h; exact hf _ _ _ _ heq
    · next e kk ww heq =>
      split at h
      · exact ih _ _ _ _ h
      · cases h
    · cases h
    · cases h

theorem checkUsagePlan_success {σ : Type} (env : Env σ) (usagePlanId : String) (k : Bool)
    (w : World σ) (w1 : World σ)
    (h : checkUsagePlan env usagePlanId k w = .ret ((none, true), w1)) :
    ∃ s info, env.DescribeUsagePlan usagePlanId s = (.ok (some info), w1.remote) := by
  unfold checkUsagePlan DescribeUsagePlan at h
  refine ⟨w.remote, ?_⟩
  generalize env.DescribeUsagePlan usagePlanId w.remote = r at h
  obtain ⟨a, s1⟩ := r
  cases a with
  | error err =>
    cases err with
    | sdk code msg =>
      by_cases hc : code = "ResourceNotFound.InvalidUsagePlan" <;> simp [hc] at h
    | other m => simp at h
    | errorf m => simp at h
    | idBrokenJson => simp at h
  | ok o =>
    cases o with
    | none => simp at h
    | some info =>
      simp only at h
      cases h
      exact ⟨info, rfl⟩

theorem checkService_success {σ : Type} (env : Env σ) (serviceId : String) (k has : Bool)
    (w : World σ) (w1 : World σ)
    (h : checkService env serviceId k w = .ret ((none, has), w1)) :
    ∃ s, env.DescribeService serviceId s = ((has, none), w1.remote) := by
  unfold checkService at h
  refine ⟨w.remote, ?_⟩
  generalize env.DescribeService serviceId w.remote = r at h
  obtain ⟨⟨b, e⟩, s1⟩ := r
  cases e with
  | some err => simp at h
  | none =>
    simp only at h
    cases h
    rfl

theorem listPlans_success {σ : Type} (env : Env σ) (bindType serviceId : String)
    (k plans : List (Option ApiUsagePlan)) (w : World σ) (w1 : World σ)
    (h : listPlans env bindType serviceId k w = .ret ((none, plans), w1)) :
    ∃ s, (if bindType = "API" then env.DescribeApiUsagePlan serviceId s
        else env.DescribeServiceUsagePlan serviceId s) = ((plans, none), w1.remote) := by
  unfold listPlans at h
  refine ⟨w.remote, ?_⟩
  split at h
  · next hb =>
    rw [if_pos hb]
    generalize env.DescribeApiUsagePlan serviceId w.remote = r at h
    obtain ⟨⟨b, e⟩, s1⟩ := r
    cases e with
    | some err => simp at h
    | none => simp only at h; cases h; rfl
  · next hb =>
    rw [if_neg hb]
    generalize env.DescribeServiceUsagePlan serviceId w.remote = r at h
    obtain ⟨⟨b, e⟩, s1⟩ := r
    cases e with
    | some err => simp at h
    | none => simp only at h; cases h; rfl

theorem scanPlans_of_present (key : AttachmentKey) (bindings : List ApiUsagePlan)
    (hp : ∀ p ∈ bindings, p.UsagePlanId ≠ none ∧ p.Environment ≠ none) :
    scanPlans key (bindings.map some)
      = .ret (decide (∃ p ∈ bindings, p.UsagePlanId = some key.usagePlanId ∧
          p.Environment = some key.environment ∧
          (key.bindType = "API" → p.ApiId = some key.apiId))) := by
  induction bindings with
  | nil => simp [scanPlans]
  | cons plan plans ih =>
    have ih := ih (fun p h => hp p (List.mem_cons_of_mem _ h))
    obtain ⟨h1, h2⟩ := hp plan (List.mem_cons_self _ _)
    obtain ⟨pid, hpid⟩ := Option.ne_none_iff_exists'.mp h1
    obtain ⟨penv, hpenv⟩ := Option.ne_none_iff_exists'.mp h2
    rw [List.map_cons]
    unfold scanPlans
    simp only [hpid, hpenv, List.mem_cons, exists_eq_or_imp, Option.some.injEq]
    by_cases e1 : pid = key.usagePlanId
    · by_cases e2 : penv = key.environment
      · by_cases e3 : key.bindType = API_GATEWAY_TYPE_API
        · cases hapi : plan.ApiId with
          | none => simp [e1, e2, e3, ih]
          | some apiId =>
            by_cases e4 : apiId = key.apiId
            · simp [e1, e2, e3, e4]
            · simp [e1, e2, e3, e4, ih]
        · simp [e1, e2, e3]
      · simp [e1, e2, ih]
    · simp [e1, ih]

theorem scanPlans_of_nil (key : AttachmentKey) (plans : List (Option ApiUsagePlan)) :
    scanPlans key (none :: plans) = .panic := rfl

theorem Retry.attempts_listPlans_calls {σ : Type} (env : Env σ) (bindType serviceId : String) :
    ∀ (t : Nat) (k : List (Option ApiUsagePlan)) (w : World σ)
      (x : (Option GoError × List (Option ApiUsagePlan)) × World σ),
      Retry.attempts (listPlans env bindType serviceId) t k w = .ret x →
      ∃ n, 1 ≤ n ∧ x.2.calls = w.calls ++ List.replicate n
        (if bindType = "API" then Call.DescribeApiUsagePlan serviceId
          else Call.DescribeServiceUsagePlan serviceId) := by
  have step : ∀ (k : List (Option ApiUsagePlan)) (w : World σ)
      (y : (Option RetryError × List (Option ApiUsagePlan)) × World σ),
      listPlans env bindType serviceId k w = .ret y →
      y.2.calls = w.calls ++ [if bindType = "API" then Call.DescribeApiUsagePlan serviceId
          else Call.DescribeServiceUsagePlan serviceId] := by
    intro k w y h
    unfold listPlans at h
    split at h
    · next hb => split at h <;> (cases h; simp [hb])
    · next hb => split at h <;> (cases h; simp [hb])
  intro t
  induction t with
  | zero =>
    intro k w x h
    unfold Retry.attempts at h
    split at h
    · next heq => cases h; exact ⟨1, le_refl _, by simpa using step _ _ _ heq⟩
    · next heq => cases h; exact ⟨1, le_refl _, by simpa using step _ _ _ heq⟩
    · cases h
    · cases h
  | succ t ih =>
    intro k w x h
    unfold Retry.attempts at h
    split at h
    · next heq => cases h; exact ⟨1, le_refl _, by simpa using step _ _ _ heq⟩
    · next e k1 w1 heq =>
      have h1 := step _ _ _ heq
      split at h
      · obtain ⟨n, hn, hc⟩ := ih _ _ _ h
        refine ⟨n + 1, by omega, ?_⟩
        rw [hc, h1, List.replicate_succ]
        simp
      · cases h; exact ⟨1, le_refl _, by simpa using h1⟩
    · cases h
    · cases h


/-- C9: the match scan of attachment Read. Let the identifier parse to `key`,
let the checks of the plan and of the service end with `has = true`, and let
the listing end without an error with the bindings `bindings`, every one
present and having its plan identifier and its environment. Then the plan and
the service exist for the remote service, and `bindings` is the list the remote
service answered to the listing call: to `DescribeApiUsagePlan` when `bind_type`
is `"API"`, to `DescribeServiceUsagePlan` for any other bind type. Read returns no
error and keeps the identifier, setting the five attributes to the fields of
`key`, when some listed binding has the plan identifier and the environment of
`key` and, for `bind_type = "API"`, a present `ApiId` equal to the `api_id` of
`key`; and it returns no error and sets the identifier to the empty string
otherwise. The first outcome occurs only in the first case. The calls of the
listing are calls of `DescribeApiUsagePlan` when `bind_type` is `"API"` and of
`DescribeServiceUsagePlan` for any other bind type. -/
theorem attachmentRead_match_scan {σ : Type} (env : Env σ) (data : AttachmentData)
    (w w1 w2 w3 : World σ) (key : AttachmentKey) (bindings : List ApiUsagePlan)
    (hk : parseAttachmentId data.Id = .ok key)
    (h1 : Retry env.readRetryTimeout (checkUsagePlan env key.usagePlanId) false w
      = .ret ((none, true), w1))
    (h2 : Retry env.readRetryTimeout (checkService env key.serviceId) true w1
      = .ret ((none, true), w2))
    (h3 : Retry env.readRetryTimeout (listPlans env key.bindType key.serviceId) [] w2
      = .ret ((none, bindings.map some), w3))
    (hp : ∀ p ∈ bindings, p.UsagePlanId ≠ none ∧ p.Environment ≠ none) :
    (∃ s info, env.DescribeUsagePlan key.usagePlanId s = (.ok (some info), w1.remote)) ∧
    (∃ s, env.DescribeService key.serviceId s = ((true, none), w2.remote)) ∧
    (∃ s, (if key.bindType = "API" then env.DescribeApiUsagePlan key.serviceId s
        else env.DescribeServiceUsagePlan key.serviceId s)
      = ((bindings.map some, none), w3.remote)) ∧
    ((∃ p ∈ bindings, p.UsagePlanId = some key.usagePlanId ∧
        p.Environment = some key.environment ∧
        (key.bindType = "API" → p.ApiId = some key.apiId)) →
      resourceTencentCloudAPIGatewayUsagePlanAttachmentRead env data w
        = .ret ((none,
            { Id := data.Id, usage_plan_id := key.usagePlanId, service_id := key.serviceId,
              environment := key.environment, bind_type := key.bindType,
              api_id := key.apiId }), w3)) ∧
    ((¬ ∃ p ∈ bindings, p.UsagePlanId = some key.usagePlanId ∧
        p.Environment = some key.environment ∧
        (key.bindType = "API" → p.ApiId = some key.apiId)) →
      resourceTencentCloudAPIGatewayUsagePlanAttachmentRead env data w
        = .ret ((none, { data with Id := "" }), w3)) ∧
    ((∃ d, d.Id ≠ "" ∧
        resourceTencentCloudAPIGatewayUsagePlanAttachmentRead env data w = .ret ((none, d), w3)) ↔
      ∃ p ∈ bindings, p.UsagePlanId = some key.usagePlanId ∧
        p.Environment = some key.environment ∧
        (key.bindType = "API" → p.ApiId = some key.apiId)) ∧
    (∃ n, 1 ≤ n ∧ w3.calls = w2.calls ++ List.replicate n
      (if key.bindType = "API" then Call.DescribeApiUsagePlan key.serviceId
        else Call.DescribeServiceUsagePlan key.serviceId)) := by
  have hread : resourceTencentCloudAPIGatewayUsagePlanAttachmentRead env data w
      = if (∃ p ∈ bindings, p.UsagePlanId = some key.usagePlanId ∧
          p.Environment = some key.environment ∧
          (key.bindType = "API" → p.ApiId = some key.apiId))
        then .ret ((none, setData data key), w3)
        else .ret ((none, { data with Id := "" }), w3) := by
    unfold resourceTencentCloudAPIGatewayUsagePlanAttachmentRead
    simp only [hk, h1, h2, h3, Outcome.bind_ret, scanPlans_of_present key bindings hp]
    simp
  have hid : data.Id ≠ "" := by
    intro h
    have he : parseAttachmentId "" = .error GoError.idBrokenJson := rfl
    rw [h, he] at hk
    cases hk
  refine ⟨?_, ?_, ?_, ?_, ?_, ?_, ?_⟩
  · exact Retry.attempts_success _
      (fun has w1 => has = true →
        ∃ s info, env.DescribeUsagePlan key.usagePlanId s = (.ok (some info), w1.remote))
      (fun k w k1 w1 h ht => by subst ht; exact checkUsagePlan_success env _ k w w1 h)
      _ _ _ _ _ h1 rfl
  · exact Retry.attempts_success _
      (fun has w2 => ∃ s, env.DescribeService key.serviceId s = ((has, none), w2.remote))
      (fun k w k1 w1 h => checkService_success env _ k k1 w w1 h) _ _ _ _ _ h2
  · exact Retry.attempts_success _
      (fun plans w3 => ∃ s, (if key.bindType = "API" then env.DescribeApiUsagePlan key.serviceId s
          else env.DescribeServiceUsagePlan key.serviceId s) = ((plans, none), w3.remote))
      (fun k w k1 w1 h => listPlans_success env _ _ k k1 w w1 h) _ _ _ _ _ h3
  · intro hm
    rw [hread, if_pos hm]
    rfl
  · intro hm
    rw [hread, if_neg hm]
  · constructor
    · rintro ⟨d, hd, hr⟩
      by_contra hm
      rw [hread, if_neg hm] at hr
      cases hr
      exact hd rfl
    · intro hm
      exact ⟨setData data key, hid, by rw [hread, if_pos hm]⟩
  · exact Retry.attempts_listPlans_calls env _ _ _ _ _ _ h3

/-- The witness of C9, against the example service, in which the plan and the
service exist. An identifier that decodes to `bind_type = "SERVICE"` and
`environment = "test"` is cleared when the whole-service listing holds the plan
bound in `release` and another plan bound in `test`, but no binding of the plan
in `test`. It is kept, and the five attributes are set, when the whole-service
listing holds the plan bound in `test`, whatever the API of that binding. With
`bind_type = "API"` the per-API listing is scanned: the identifier with
`api_id = "api-2"` is kept when that listing holds the plan bound in `test` for
`api-2`, and the identifier with `api_id = "api-1"` is cleared, although the
plan is bound in `test` for another API. -/
theorem attachmentRead_match_scan_witness :
    resourceTencentCloudAPIGatewayUsagePlanAttachmentRead
        (exampleEnv { exampleFixture with
          serviceBindings := (exampleBindingsWithoutMatch.map some, none) })
        (exampleImported "SERVICE" "") exampleWorld
      = .ret ((none, { exampleImported "SERVICE" "" with Id := "" }),
          exampleWorldAfter [Call.DescribeUsagePlan "usagePlan-gyeafpab",
            Call.DescribeService "service-pkegyqmc",
            Call.DescribeServiceUsagePlan "service-pkegyqmc"] 3) ∧
    resourceTencentCloudAPIGatewayUsagePlanAttachmentRead
        (exampleEnv { exampleFixture with
          serviceBindings := (exampleBindingsWithMatch.map some, none) })
        (exampleImported "SERVICE" "") exampleWorld
      = .ret ((none,
            { Id := attachmentToken "usagePlan-gyeafpab" "service-pkegyqmc" "test" "SERVICE" "",
              usage_plan_id := "usagePlan-gyeafpab", service_id := "service-pkegyqmc",
              environment := "test", bind_type := "SERVICE", api_id := "" }),
          exampleWorldAfter [Call.DescribeUsagePlan "usagePlan-gyeafpab",
            Call.DescribeService "service-pkegyqmc",
            Call.DescribeServiceUsagePlan "service-pkegyqmc"] 3) ∧
    resourceTencentCloudAPIGatewayUsagePlanAttachmentRead
        (exampleEnv { exampleFixture with
          apiBindings := (exampleBindingsWithMatch.map some, none) })
        (exampleImported "API" "api-2") exampleWorld
      = .ret ((none,
            { Id := attachmentToken "usagePlan-gyeafpab" "service-pkegyqmc" "test" "API" "api-2",
              usage_plan_id := "usagePlan-gyeafpab", service_id := "service-pkegyqmc",
              environment := "test", bind_type := "API", api_id := "api-2" }),
          exampleWorldAfter [Call.DescribeUsagePlan "usagePlan-gyeafpab",
            Call.DescribeService "service-pkegyqmc",
            Call.DescribeApiUsagePlan "service-pkegyqmc"] 3) ∧
    resourceTencentCloudAPIGatewayUsagePlanAttachmentRead
        (exampleEnv { exampleFixture with
          apiBindings := (exampleBindingsWithMatch.map some, none),
          serviceBindings := (exampleBindingsWithMatch.map some, none) })
        (exampleImported "API" "api-1") exampleWorld
      = .ret ((none, { exampleImported "API" "api-1" with Id := "" }),
          exampleWorldAfter [Call.DescribeUsagePlan "usagePlan-gyeafpab",
            Call.DescribeService "service-pkegyqmc",
            Call.DescribeApiUsagePlan "service-pkegyqmc"] 3) :=
  ⟨(attachmentRead_match_scan
      (exampleEnv { exampleFixture with
        serviceBindings := (exampleBindingsWithoutMatch.map some, none) })
      (exampleImported "SERVICE" "") exampleWorld
      (exampleWorldAfter [Call.DescribeUsagePlan "usagePlan-gyeafpab"] 1)
      (exampleWorldAfter [Call.DescribeUsagePlan "usagePlan-gyeafpab",
        Call.DescribeService "service-pkegyqmc"] 2)
      (exampleWorldAfter [Call.DescribeUsagePlan "usagePlan-gyeafpab",
        Call.DescribeService "service-pkegyqmc",
        Call.DescribeServiceUsagePlan "service-pkegyqmc"] 3)
      { usagePlanId := "usagePlan-gyeafpab", serviceId := "service-pkegyqmc",
        environment := "test", bindType := "SERVICE", apiId := "" }
      exampleBindingsWithoutMatch
      (parseAttachmentId_token _ _ _ _ _ (by decide) (by decide) (by decide) (by decide)
        (fun h => absurd h (by decide)))
      (by decide) (by decide) (by decide) (by decide)).2.2.2.2.1 (by decide),
   (attachmentRead_match_scan
      (exampleEnv { exampleFixture with
        serviceBindings := (exampleBindingsWithMatch.map some, none) })
      (exampleImported "SERVICE" "") exampleWorld
      (exampleWorldAfter [Call.DescribeUsagePlan "usagePlan-gyeafpab"] 1)
      (exampleWorldAfter [Call.DescribeUsagePlan "usagePlan-gyeafpab",
        Call.DescribeService "service-pkegyqmc"] 2)
      (exampleWorldAfter [Call.DescribeUsagePlan "usagePlan-gyeafpab",
        Call.DescribeService "service-pkegyqmc",
        Call.DescribeServiceUsagePlan "service-pkegyqmc"] 3)
      { usagePlanId := "usagePlan-gyeafpab", serviceId := "service-pkegyqmc",
        environment := "test", bindType := "SERVICE", apiId := "" }
      exampleBindingsWithMatch
      (parseAttachmentId_token _ _ _ _ _ (by decide) (by decide) (by decide) (by decide)
        (fun h => absurd h (by decide)))
      (by decide) (by decide) (by decide) (by decide)).2.2.2.1 (by decide),
   (attachmentRead_match_scan
      (exampleEnv { exampleFixture with
        apiBindings := (exampleBindingsWithMatch.map some, none) })
      (exampleImported "API" "api-2") exampleWorld
      (exampleWorldAfter [Call.DescribeUsagePlan "usagePlan-gyeafpab"] 1)
      (exampleWorldAfter [Call.DescribeUsagePlan "usagePlan-gyeafpab",
        Call.DescribeService "service-pkegyqmc"] 2)
      (exampleWorldAfter [Call.DescribeUsagePlan "usagePlan-gyeafpab",
        Call.DescribeService "service-pkegyqmc",
        Call.DescribeApiUsagePlan "service-pkegyqmc"] 3)
      { usagePlanId := "usagePlan-gyeafpab", serviceId := "service-pkegyqmc",
        environment := "test", bindType := "API", apiId := "api-2" }
      exampleBindingsWithMatch
      (parseAttachmentId_token _ _ _ _ _ (by decide) (by decide) (by decide) (by decide)
        (fun _ => by decide))
      (by decide) (by decide) (by decide) (by decide)).2.2.2.1 (by decide),
   (attachmentRead_match_scan
      (exampleEnv { exampleFixture with
        apiBindings := (exampleBindingsWithMatch.map some, none),
        serviceBindings := (exampleBindingsWithMatch.map some, none) })
      (exampleImported "API" "api-1") exampleWorld
      (exampleWorldAfter [Call.DescribeUsagePlan "usagePlan-gyeafpab"] 1)
      (exampleWorldAfter [Call.DescribeUsagePlan "usagePlan-gyeafpab",
        Call.DescribeService "service-pkegyqmc"] 2)
      (exampleWorldAfter [Call.DescribeUsagePlan "usagePlan-gyeafpab",
        Call.DescribeService "service-pkegyqmc",
        Call.DescribeApiUsagePlan "service-pkegyqmc"] 3)
      { usagePlanId := "usagePlan-gyeafpab", serviceId := "service-pkegyqmc",
        environment := "test", bindType := "API", apiId := "api-1" }
      exampleBindingsWithMatch
      (parseAttachmentId_token _ _ _ _ _ (by decide) (by decide) (by decide) (by decide)
        (fun _ => by decide))
      (by decide) (by decide) (by decide) (by decide)).2.2.2.2.1 (by decide)⟩

/-! ## Usage plan Read: the projection of the bindings and of the bound keys -/

theorem DescribeUsagePlan_found {σ : Type} (env : Env σ) (usagePlanId : String) (w w1 : World σ)
    (info : UsagePlanInfo) (h : DescribeUsagePlan env usagePlanId w = ((info, true, none), w1)) :
    env.DescribeUsagePlan usagePlanId w.remote = (.ok (some info), w1.remote) := by
  unfold DescribeUsagePlan at h
  generalize env.DescribeUsagePlan usagePlanId w.remote = r at h
  obtain ⟨a, s1⟩ := r
  cases a with
  | error err =>
    cases err with
    | sdk code msg =>
      by_cases hc : code = "ResourceNotFound.InvalidUsagePlan" <;> simp [hc] at h
    | other m => simp at h
    | errorf m => simp at h
    | idBrokenJson => simp at h
  | ok o =>
    cases o with
    | none => simp at h
    | some result =>
      simp only at h
      cases h
      rfl

theorem describeUsagePlan_success {σ : Type} (env : Env σ) (usagePlanId : String)
    (k : UsagePlanInfo × Bool) (info : UsagePlanInfo) (w w1 : World σ)
    (h : describeUsagePlan env usagePlanId k w = .ret ((none, (info, true)), w1)) :
    ∃ s, env.DescribeUsagePlan usagePlanId s = (.ok (some info), w1.remote) := by
  unfold describeUsagePlan at h
  refine ⟨w.remote, DescribeUsagePlan_found env usagePlanId w w1 info ?_⟩
  generalize DescribeUsagePlan env usagePlanId w = r at h
  obtain ⟨⟨i, has, e⟩, w0⟩ := r
  cases e with
  | some err => simp at h
  | none => simp only at h; cases h; rfl

theorem waitUsagePlan_success {σ : Type} (env : Env σ) (usagePlanId : String) (k : Unit)
    (w w1 : World σ) (h : waitUsagePlan env usagePlanId k w = .ret ((none, ()), w1)) :
    ∃ s info, env.DescribeUsagePlan usagePlanId s = (.ok (some info), w1.remote) := by
  unfold waitUsagePlan at h
  generalize hr : DescribeUsagePlan env usagePlanId w = r at h
  obtain ⟨⟨i, has, e⟩, w0⟩ := r
  cases e with
  | some err => simp at h
  | none =>
    cases has with
    | false => simp at h
    | true =>
      simp only at h
      cases h
      exact ⟨w.remote, i, DescribeUsagePlan_found env usagePlanId w _ i hr⟩

theorem createUsagePlan_success {σ : Type} (env : Env σ) (usagePlanName : String)
    (usagePlanDesc : Option String) (maxRequestNum maxRequestNumPreSec : Int) (k X : String)
    (w w1 : World σ)
    (h : createUsagePlan env usagePlanName usagePlanDesc maxRequestNum maxRequestNumPreSec k w
      = .ret ((none, X), w1)) :
    ∃ s result,
      env.CreateUsagePlan
          { UsagePlanName := usagePlanName, UsagePlanDesc := usagePlanDesc,
            MaxRequestNum := maxRequestNum, MaxRequestNumPreSec := maxRequestNumPreSec } s
        = (.ok (some result), w1.remote) ∧
      result.UsagePlanId = some X := by
  unfold createUsagePlan CreateUsagePlan at h
  refine ⟨w.remote, ?_⟩
  rcases hr : env.CreateUsagePlan
    { UsagePlanName := usagePlanName, UsagePlanDesc := usagePlanDesc,
      MaxRequestNum := maxRequestNum, MaxRequestNumPreSec := maxRequestNumPreSec } w.remote
    with ⟨a, s1⟩
  simp only [hr] at h
  cases a with
  | error err => simp [Outcome.bind] at h
  | ok o =>
    cases o with
    | none => simp [Outcome.bind] at h
    | some result =>
      cases hid : result.UsagePlanId with
      | none => simp [hid, Outcome.bind] at h
      | some id =>
        simp only [hid, Outcome.bind] at h
        cases h
        exact ⟨result, rfl, hid⟩

theorem present_of_not_mem_none {α : Type} (l : List (Option α)) (h : none ∉ l) :
    ∃ xs : List α, l = xs.map some := by
  induction l with
  | nil => exact ⟨[], rfl⟩
  | cons v l ih =>
    obtain ⟨xs, hxs⟩ := ih (fun hm => h (List.mem_cons_of_mem _ hm))
    cases v with
    | none => exact absurd (List.mem_cons_self _ _) h
    | some x => exact ⟨x :: xs, by rw [hxs]; rfl⟩

theorem bindSecretIds_of_present (keys : List String) :
    bindSecretIds (keys.map some) = .ret keys := by
  induction keys with
  | nil => rfl
  | cons k keys ih => simp [bindSecretIds, ih]

theorem bindSecretIds_of_nil (l : List (Option String)) (h : none ∈ l) :
    bindSecretIds l = .panic := by
  induction l with
  | nil => cases h
  | cons v l ih =>
    cases v with
    | none => rfl
    | some v =>
      have hl : none ∈ l := by
        rcases List.mem_cons.mp h with h | h
        · cases h
        · exact h
      simp only [bindSecretIds, ih hl]
      rfl

theorem infoAttachList_of_present (bindings : List UsagePlanEnvironment) :
    infoAttachList (bindings.map some) = .ret (bindings.map attachRecord) := by
  induction bindings with
  | nil => rfl
  | cons v vs ih => simp [infoAttachList, ih]

theorem infoAttachList_of_nil (l : List (Option UsagePlanEnvironment)) (h : none ∈ l) :
    infoAttachList l = .panic := by
  induction l with
  | nil => cases h
  | cons v l ih =>
    cases v with
    | none => rfl
    | some v =>
      have hl : none ∈ l := by
        rcases List.mem_cons.mp h with h | h
        · cases h
        · exact h
      simp only [infoAttachList, ih hl]
      rfl

theorem Retry.attempts_describeEnvironments {σ : Type} (env : Env σ) (fuel : Nat)
    (usagePlanId bindType : String) :
    ∀ (t : Nat) (attachList : List (Option UsagePlanEnvironment)) (w : World σ)
      (attachList1 : List (Option UsagePlanEnvironment)) (w1 : World σ),
      Retry.attempts (describeEnvironments env fuel usagePlanId bindType) t attachList w
        = .ret ((none, attachList1), w1) →
      ∃ list w0,
        DescribeUsagePlanEnvironments env fuel usagePlanId bindType w0 = .ret ((list, none), w1) ∧
        attachList1 = attachList ++ list := by
  have step : ∀ (k : List (Option UsagePlanEnvironment)) (w : World σ)
      (y : (Option RetryError × List (Option UsagePlanEnvironment)) × World σ),
      describeEnvironments env fuel usagePlanId bindType k w = .ret y →
      (y.1.1 = none → ∃ list,
        DescribeUsagePlanEnvironments env fuel usagePlanId bindType w = .ret ((list, none), y.2) ∧
        y.1.2 = k ++ list) ∧
      (y.1.1 ≠ none → y.1.2 = k) := by
    intro k w y h
    unfold describeEnvironments at h
    cases hd : DescribeUsagePlanEnvironments env fuel usagePlanId bindType w with
    | panic => rw [hd] at h; cases h
    | unfinished => rw [hd] at h; cases h
    | ret r =>
      obtain ⟨⟨list, inErr⟩, w1⟩ := r
      rw [hd] at h
      simp only [Outcome.bind_ret] at h
      cases inErr with
      | some err => cases h; exact ⟨fun h0 => (by cases h0), fun _ => rfl⟩
      | none => cases h; exact ⟨fun _ => ⟨list, rfl, rfl⟩, fun h0 => absurd rfl h0⟩
  intro t
  induction t with
  | zero =>
    intro k w k1 w1 h
    unfold Retry.attempts at h
    split at h
    · next kk ww heq =>
      cases h
      obtain ⟨list, h1, h2⟩ := (step _ _ _ heq).1 rfl
      exact ⟨list, w, h1, h2⟩
    · cases h
    · cases h
    · cases h
  | succ t ih =>
    intro k w k1 w1 h
    unfold Retry.attempts at h
    split at h
    · next kk ww heq =>
      cases h
      obtain ⟨list, h1, h2⟩ := (step _ _ _ heq).1 rfl
      exact ⟨list, w, h1, h2⟩
    · next e kk ww heq =>
      have hk : kk = k := (step _ _ _ heq).2 (by simp)
      split at h
      · rw [hk] at h
        exact ih _ _ _ _ h
      · cases h
    · cases h
    · cases h

theorem usagePlanRead_of_stages {σ : Type} (env : Env σ) (fuel : Nat) (data : UsagePlanData)
    (w w1 w2 : World σ) (info : UsagePlanInfo) (attachList : List (Option UsagePlanEnvironment))
    (hl : Retry env.readRetryTimeout (describeUsagePlan env data.Id) (UsagePlanInfo.zero, false) w
      = .ret ((none, (info, true)), w1))
    (ha : readAttachList env fuel data.Id API_GATEWAY_TYPES [] w1
      = .ret ((none, attachList), w2)) :
    resourceTencentCloudAPIGatewayUsagePlanRead env fuel data w
      = (infoAttachList attachList).bind fun records =>
        (bindSecretIds info.BindSecretIds).bind fun attach_api_keys =>
          .ret ((none,
            { Id := data.Id,
              usage_plan_name := info.UsagePlanName.getD "",
              usage_plan_desc := info.UsagePlanDesc.getD "",
              max_request_num := info.MaxRequestNum.getD 0,
              max_request_num_pre_sec := info.MaxRequestNumPreSec.getD 0,
              modify_time := info.ModifiedTime.getD "",
              create_time := info.CreatedTime.getD "",
              attach_api_keys := attach_api_keys,
              attach_list := records }), w2) := by
  unfold resourceTencentCloudAPIGatewayUsagePlanRead
  simp only [hl, ha, Outcome.bind_ret]
  rfl

theorem usagePlanRead_of_present {σ : Type} (env : Env σ) (fuel : Nat) (data : UsagePlanData)
    (w w1 w2 : World σ) (info : UsagePlanInfo) (bindings : List UsagePlanEnvironment)
    (keys : List String)
    (hl : Retry env.readRetryTimeout (describeUsagePlan env data.Id) (UsagePlanInfo.zero, false) w
      = .ret ((none, (info, true)), w1))
    (ha : readAttachList env fuel data.Id API_GATEWAY_TYPES [] w1
      = .ret ((none, bindings.map some), w2))
    (hk : info.BindSecretIds = keys.map some) :
    resourceTencentCloudAPIGatewayUsagePlanRead env fuel data w
      = .ret ((none,
            { Id := data.Id,
              usage_plan_name := info.UsagePlanName.getD "",
              usage_plan_desc := info.UsagePlanDesc.getD "",
              max_request_num := info.MaxRequestNum.getD 0,
              max_request_num_pre_sec := info.MaxRequestNumPreSec.getD 0,
              modify_time := info.ModifiedTime.getD "",
              create_time := info.CreatedTime.getD "",
              attach_api_keys := keys,
              attach_list := bindings.map fun v =>
                { service_id := v.ServiceId, service_name := v.ServiceName, api_id := v.ApiId,
                  api_name := v.ApiName, path := v.Path, method := v.Method,
                  environment := v.Environment, modify_time := v.ModifiedTime,
                  create_time := v.CreatedTime } }), w2) := by
  rw [usagePlanRead_of_stages env fuel data w w1 w2 info _ hl ha, hk, bindSecretIds_of_present,
    infoAttachList_of_present]
  rfl

theorem usagePlanRead_of_nil {σ : Type} (env : Env σ) (fuel : Nat) (data : UsagePlanData)
    (w w1 w2 : World σ) (info : UsagePlanInfo) (attachList : List (Option UsagePlanEnvironment))
    (hl : Retry env.readRetryTimeout (describeUsagePlan env data.Id) (UsagePlanInfo.zero, false) w
      = .ret ((none, (info, true)), w1))
    (ha : readAttachList env fuel data.Id API_GATEWAY_TYPES [] w1
      = .ret ((none, attachList), w2))
    (hn : none ∈ attachList ∨ none ∈ info.BindSecretIds) :
    resourceTencentCloudAPIGatewayUsagePlanRead env fuel data w = .panic := by
  rw [usagePlanRead_of_stages env fuel data w w1 w2 info _ hl ha]
  by_cases h1 : none ∈ attachList
  · rw [infoAttachList_of_nil _ h1]
    rfl
  · have h2 : none ∈ info.BindSecretIds := hn.resolve_left h1
    obtain ⟨bindings, hb⟩ := present_of_not_mem_none attachList h1
    rw [hb, infoAttachList_of_present, bindSecretIds_of_nil _ h2]
    rfl

theorem readAttachList_success {σ : Type} (env : Env σ) (fuel : Nat) (usagePlanId : String)
    (w1 w3 : World σ) (attachList : List (Option UsagePlanEnvironment))
    (h : readAttachList env fuel usagePlanId API_GATEWAY_TYPES [] w1
      = .ret ((none, attachList), w3)) :
    ∃ (S A : List (Option UsagePlanEnvironment)) (wS w2 wA : World σ),
      DescribeUsagePlanEnvironments env fuel usagePlanId API_GATEWAY_TYPE_SERVICE wS
        = .ret ((S, none), w2) ∧
      DescribeUsagePlanEnvironments env fuel usagePlanId API_GATEWAY_TYPE_API wA
        = .ret ((A, none), w3) ∧
      attachList = S ++ A := by
  simp only [API_GATEWAY_TYPES, readAttachList] at h
  cases hs : Retry env.readRetryTimeout
      (describeEnvironments env fuel usagePlanId API_GATEWAY_TYPE_SERVICE) [] w1 with
  | panic => rw [hs] at h; cases h
  | unfinished => rw [hs] at h; cases h
  | ret y =>
    obtain ⟨⟨o, attachList1⟩, w2⟩ := y
    rw [hs] at h
    simp only [Outcome.bind_ret] at h
    cases o with
    | some e => cases h
    | none =>
      simp only at h
      cases ha : Retry env.readRetryTimeout
          (describeEnvironments env fuel usagePlanId API_GATEWAY_TYPE_API) attachList1 w2 with
      | panic => rw [ha] at h; cases h
      | unfinished => rw [ha] at h; cases h
      | ret z =>
        obtain ⟨⟨o2, attachList2⟩, w4⟩ := z
        rw [ha] at h
        simp only [Outcome.bind_ret] at h
        cases o2 with
        | some e => cases h
        | none =>
          simp only at h
          cases h
          obtain ⟨S, wS, hS, e1⟩ :=
            Retry.attempts_describeEnvironments env fuel usagePlanId _ _ _ _ _ _ hs
          obtain ⟨A, wA, hA, e2⟩ :=
            Retry.attempts_describeEnvironments env fuel usagePlanId _ _ _ _ _ _ ha
          exact ⟨S, A, wS, w2, wA, hS, hA, by rw [e2, e1]; rfl⟩

/-- C12, as amended: let the create step end with the identifier `X`, the
existence poll end without an error, the lookup of the Read that follows find
the record `info`, which carries the name `name` and the quotas `maxRequestNum`
and `maxRequestNumPreSec`, and the binding lists succeed with `attachList`. Then
the remote service answered `X` to the create call, a record for `X` to the
poll and the record `info` to the lookup. When every element of `attachList`
and of the record's `BindSecretIds` is present, Create returns no error, the
identifier is `X` and the state's `usage_plan_name`, `max_request_num` and
`max_request_num_pre_sec` are the record's name and quotas (the other attributes
being the record's too). When some element of `attachList` or of
`BindSecretIds` is a nil pointer, the Read that ends Create dereferences it and
Create panics. -/
theorem usagePlanCreate_success {σ : Type} (env : Env σ) (fuel : Nat) (data : UsagePlanData)
    (w w1 w2 w3 w4 : World σ) (X : String) (info : UsagePlanInfo)
    (attachList : List (Option UsagePlanEnvironment)) (name : String)
    (maxRequestNum maxRequestNumPreSec : Int)
    (hc : Retry env.writeRetryTimeout
        (createUsagePlan env data.usage_plan_name
          (if data.usage_plan_desc ≠ "" then some data.usage_plan_desc else none)
          data.max_request_num data.max_request_num_pre_sec) "" w
      = .ret ((none, X), w1))
    (hp : Retry env.readRetryTimeout (waitUsagePlan env X) () w1 = .ret ((none, ()), w2))
    (hl : Retry env.readRetryTimeout (describeUsagePlan env X) (UsagePlanInfo.zero, false) w2
      = .ret ((none, (info, true)), w3))
    (ha : readAttachList env fuel X API_GATEWAY_TYPES [] w3 = .ret ((none, attachList), w4))
    (hname : info.UsagePlanName = some name)
    (hnum : info.MaxRequestNum = some maxRequestNum)
    (hsec : info.MaxRequestNumPreSec = some maxRequestNumPreSec) :
    (∃ s result,
      env.CreateUsagePlan
          { UsagePlanName := data.usage_plan_name,
            UsagePlanDesc := if data.usage_plan_desc ≠ "" then some data.usage_plan_desc else none,
            MaxRequestNum := data.max_request_num,
            MaxRequestNumPreSec := data.max_request_num_pre_sec } s
        = (.ok (some result), w1.remote) ∧
      result.UsagePlanId = some X) ∧
    (∃ s found, env.DescribeUsagePlan X s = (.ok (some found), w2.remote)) ∧
    (∃ s, env.DescribeUsagePlan X s = (.ok (some info), w3.remote)) ∧
    (∃ (S A : List (Option UsagePlanEnvironment)) (wS wM wA : World σ),
      DescribeUsagePlanEnvironments env fuel X API_GATEWAY_TYPE_SERVICE wS
        = .ret ((S, none), wM) ∧
      DescribeUsagePlanEnvironments env fuel X API_GATEWAY_TYPE_API wA = .ret ((A, none), w4) ∧
      attachList = S ++ A) ∧
    (∀ (bindings : List UsagePlanEnvironment) (keys : List String),
      attachList = bindings.map some → info.BindSecretIds = keys.map some →
      ∃ d : UsagePlanData,
        resourceTencentCloudAPIGatewayUsagePlanCreate env fuel data w = .ret ((none, d), w4) ∧
        d.Id = X ∧ d.usage_plan_name = name ∧ d.max_request_num = maxRequestNum ∧
        d.max_request_num_pre_sec = maxRequestNumPreSec ∧
        d = { Id := X,
              usage_plan_name := name,
              usage_plan_desc := info.UsagePlanDesc.getD "",
              max_request_num := maxRequestNum,
              max_request_num_pre_sec := maxRequestNumPreSec,
              modify_time := info.ModifiedTime.getD "",
              create_time := info.CreatedTime.getD "",
              attach_api_keys := keys,
              attach_list := bindings.map fun v =>
                { service_id := v.ServiceId, service_name := v.ServiceName,
                  api_id := v.ApiId, api_name := v.ApiName, path := v.Path,
                  method := v.Method, environment := v.Environment,
                  modify_time := v.ModifiedTime, create_time := v.CreatedTime } }) ∧
    (none ∈ attachList ∨ none ∈ info.BindSecretIds →
      resourceTencentCloudAPIGatewayUsagePlanCreate env fuel data w = .panic) := by
  have hcreate : resourceTencentCloudAPIGatewayUsagePlanCreate env fuel data w
      = resourceTencentCloudAPIGatewayUsagePlanRead env fuel { data with Id := X } w2 := by
    unfold resourceTencentCloudAPIGatewayUsagePlanCreate
    simp only [hc, hp, Outcome.bind_ret]
  refine ⟨?_, ?_, ?_, ?_, ?_, ?_⟩
  · exact Retry.attempts_success _
      (fun X w1 => ∃ s result,
        env.CreateUsagePlan
            { UsagePlanName := data.usage_plan_name,
              UsagePlanDesc :=
                if data.usage_plan_desc ≠ "" then some data.usage_plan_desc else none,
              MaxRequestNum := data.max_request_num,
              MaxRequestNumPreSec := data.max_request_num_pre_sec } s
          = (.ok (some result), w1.remote) ∧
        result.UsagePlanId = some X)
      (fun k w k1 w1 h => createUsagePlan_success env _ _ _ _ k k1 w w1 h) _ _ _ _ _ hc
  · exact Retry.attempts_success _
      (fun _ w2 => ∃ s found, env.DescribeUsagePlan X s = (.ok (some found), w2.remote))
      (fun k w k1 w1 h => waitUsagePlan_success env X k w w1 h) _ _ _ _ _ hp
  · exact Retry.attempts_success _
      (fun k w3 => k.2 = true →
        ∃ s, env.DescribeUsagePlan X s = (.ok (some k.1), w3.remote))
      (fun k w k1 w1 h ht => by
        obtain ⟨i, b⟩ := k1
        simp only at ht
        subst ht
        exact describeUsagePlan_success env _ k i w w1 h)
      _ _ _ _ _ hl rfl
  · obtain ⟨S, A, wS, wM, wA, hS, hA, e⟩ := readAttachList_success env fuel X w3 w4 attachList ha
    exact ⟨S, A, wS, wM, wA, hS, hA, e⟩
  · intro bindings keys hb hk
    rw [hb] at ha
    rw [hcreate, usagePlanRead_of_present env fuel { data with Id := X } w2 w3 w4 info bindings
      keys hl ha hk]
    refine ⟨_, rfl, rfl, by simp [hname], by simp [hnum], by simp [hsec], ?_⟩
    simp [hname, hnum, hsec]
  · intro hn
    rw [hcreate]
    exact usagePlanRead_of_nil env fuel { data with Id := X } w2 w3 w4 info attachList hl ha hn

/-- The witness of C12: the example service creates `usagePlan-gyeafpab` for
the plan `my_plan` with the quotas 100 and 10, the poll observes it, and its
record carries that name and those quotas, two bound keys and three bindings,
all present: Create returns no error, the identifier is `usagePlan-gyeafpab`
and the state holds `my_plan`, 100 and 10. -/
theorem usagePlanCreate_success_witness :
    resourceTencentCloudAPIGatewayUsagePlanCreate (exampleEnv exampleFixtureWithBindings) 1
        { exampleUsagePlan with Id := "" } exampleWorld
      = .ret ((none,
          { Id := "usagePlan-gyeafpab", usage_plan_name := "my_plan",
            usage_plan_desc := "nice plan", max_request_num := 100,
            max_request_num_pre_sec := 10, modify_time := "2020-08-01T00:00:00Z",
            create_time := "2020-08-01T00:00:00Z",
            attach_api_keys := ["AKIDexample1", "AKIDexample2"],
            attach_list :=
              [{ service_id := some "service-pkegyqmc", service_name := some "niceservice",
                 api_id := none, api_name := none, path := none, method := none,
                 environment := some "test", modify_time := some "2020-08-03T00:00:00Z",
                 create_time := some "2020-08-02T00:00:00Z" },
               { service_id := some "service-ody35h5e", service_name := some "otherservice",
                 api_id := none, api_name := none, path := none, method := none,
                 environment := some "release", modify_time := some "2020-08-05T00:00:00Z",
                 create_time := some "2020-08-04T00:00:00Z" },
               { service_id := some "service-pkegyqmc", service_name := some "niceservice",
                 api_id := some "api-lukm33yk", api_name := some "hello",
                 path := some "/hello", method := some "GET", environment := some "prepub",
                 modify_time := some "2020-08-07T00:00:00Z",
                 create_time := some "2020-08-06T00:00:00Z" }] }),
          exampleWorldAfter (exampleCreateCalls ++ exampleReadCalls) 5) := by
  obtain ⟨d, hcreate, -, -, -, -, hd⟩ := (usagePlanCreate_success
    (exampleEnv exampleFixtureWithBindings) 1 { exampleUsagePlan with Id := "" } exampleWorld
    (exampleWorldAfter (exampleCreateCalls.take 1) 1)
    (exampleWorldAfter exampleCreateCalls 2)
    (exampleWorldAfter (exampleCreateCalls ++ exampleReadCalls.take 1) 3)
    (exampleWorldAfter (exampleCreateCalls ++ exampleReadCalls) 5)
    "usagePlan-gyeafpab" examplePlanWithKeys
    ((exampleServiceEnvironments ++ exampleApiEnvironments).map some) "my_plan" 100 10
    (by decide) (by decide) (by decide) (by decide) rfl rfl rfl).2.2.2.2.1
    (exampleServiceEnvironments ++ exampleApiEnvironments) ["AKIDexample1", "AKIDexample2"]
    rfl rfl
  rw [hd] at hcreate
  exact hcreate

/-- The counterexample to C12: the example service creates
`usagePlan-gyeafpab` for the plan `my_plan` with the quotas 100 and 10, every
lookup finds the record, which carries that name and those quotas, and both
list calls succeed; but a nil pointer among the bound key identifiers of the
record, or among its whole-service bindings, makes Create panic in the Read it
ends with. -/
theorem usagePlanCreate_nil_element_counterexample :
    (CreateUsagePlan (exampleEnv exampleFixtureWithNilKey) "my_plan" (some "nice plan") 100 10
        exampleWorld
      = .ret (("usagePlan-gyeafpab", none), exampleWorldAfter (exampleCreateCalls.take 1) 0)) ∧
    (DescribeUsagePlan (exampleEnv exampleFixtureWithNilKey) "usagePlan-gyeafpab" exampleWorld
      = ((examplePlanWithNilKey, true, none),
          exampleWorldAfter [Call.DescribeUsagePlan "usagePlan-gyeafpab"] 0)) ∧
    examplePlanWithNilKey.UsagePlanName = some "my_plan" ∧
    examplePlanWithNilKey.MaxRequestNum = some 100 ∧
    examplePlanWithNilKey.MaxRequestNumPreSec = some 10 ∧
    examplePlanWithNilKey.BindSecretIds = [some "AKIDexample", none] ∧
    resourceTencentCloudAPIGatewayUsagePlanCreate (exampleEnv exampleFixtureWithNilKey) 1
        { exampleUsagePlan with Id := "" } exampleWorld = .panic ∧
    (DescribeUsagePlanEnvironments (exampleEnv exampleFixtureWithNilBinding) 1
        "usagePlan-gyeafpab" "SERVICE" exampleWorld
      = .ret ((exampleServiceEnvironments.map some ++ [none], none),
          exampleWorldAfter (exampleReadCalls.drop 1).dropLast 0)) ∧
    resourceTencentCloudAPIGatewayUsagePlanCreate (exampleEnv exampleFixtureWithNilBinding) 1
        { exampleUsagePlan with Id := "" } exampleWorld = .panic := by
  refine ⟨?_, ?_, ?_, ?_, ?_, ?_, ?_, ?_, ?_⟩ <;> decide
end Tencentcloud
